import Mathlib

/-! MCP2515 CAN controller driver (`src/MCP2515.cpp`)

A shallow embedding of the SPI protocol layer of the driver: the frame codec
inside `endPacket` / `parsePacket`, the transmit and receive sequences and the
register access primitives.

Conventions:

* Machine integers are natural numbers; every assignment to a `uint8_t` is an
  explicit `% 256`, every `uint32_t` result an explicit `% 2 ^ 32`.
* The SPI bus is an explicit part of the driver state: `log` records every bus
  action the driver performs, oldest first; `miso` is the stream of bytes the
  chip shifts out (the value returned by the `k`-th call of `transfer`), and
  `clock` counts the transfers performed so far.
* The fields `_txId`, `_txExtended`, ... `_rxData` are declared in the base
  class `CANControllerClass`, which is not part of `MCP2515.cpp`; `_txId` and
  `_rxId` are `long`, `_txLength`, `_rxDlc`, `_rxIndex`, `_rxLength` are `int`,
  `_txData` and `_rxData` are `uint8_t[8]`.
* A store into `_rxData` at an index of 8 or more is a store past the end of
  the array, where the behaviour of the source is undefined.  The model keeps
  such a store visible in a cell of its own; the statements about the state or
  the bus log after `parsePacket` are made for the calls whose stores all stay
  below index 8 (a remote request, or DLC & 0x0F at most 8), and the runs of
  the unbounded loops are described after any number of iterations, so that a
  run that never ends is covered as well.
-/

namespace MCP2515Class

/-! ## Constants (lines 6-65) -/

def WRITE : Nat := 0x02
def READ : Nat := 0x03
def BIT_MODIFY : Nat := 0x05
def READ_RX_BUFFER : Nat := 0x90
def RX_STATUS : Nat := 0xB0

def REG_CANCTRL : Nat := 0x0f
def REG_CANINTF : Nat := 0x2c

/-- Receive interrupt flag of buffer `n`: `(0x01 << n)` as a `uint8_t`. -/
def FLAG_RXnIF (n : Nat) : Nat := (0x01 <<< n) % 256
/-- Transmit interrupt flag of slot `n`: `(0x04 << n)` as a `uint8_t`. -/
def FLAG_TXnIF (n : Nat) : Nat := (0x04 <<< n) % 256
/-- Control register of transmit slot `n`: `(0x30 + (n * 0x10))` as a `uint8_t`. -/
def REG_TXBnCTRL (n : Nat) : Nat := (0x30 + n * 0x10) % 256

def FLAG_IDE : Nat := 0x08
def FLAG_SRR : Nat := 0x10
def FLAG_RTR : Nat := 0x40
def FLAG_EXIDE : Nat := 0x08

/-! ## Driver state and the SPI bus -/

/-- One action of the driver on the SPI bus and the chip-select pin. -/
inductive Event where
  | beginTransaction
  | csLow
  | transfer (mosi : Nat)
  | csHigh
  | endTransaction
  deriving DecidableEq

end MCP2515Class

/-- The driver object: the SPI bus it owns and the transmit / receive fields it
inherits from `CANControllerClass`.  `txData` and `rxData` map an index to a
cell; indices `0..7` are the cells of the 8-byte arrays, an index of 8 or more
is memory past the end of the array: a store there is undefined behaviour of
the source, and the state the model computes after one describes no state of
the source.  `txId` is the value of `_txId`, which
the base class only sets to a non-negative id; `rxId` is `_rxId`, a signed
`long` because of the sentinel `-1`. -/
structure MCP2515Class where
  miso : Nat → Nat
  clock : Nat
  log : List MCP2515Class.Event
  txId : Nat
  txExtended : Bool
  txRtr : Bool
  txLength : Nat
  txData : Nat → Nat
  rxId : Int
  rxExtended : Bool
  rxRtr : Bool
  rxDlc : Nat
  rxIndex : Nat
  rxLength : Nat
  rxData : Nat → Nat

namespace MCP2515Class

/-- Models `_spi->beginTransaction(_spiSettings)`. -/
def beginTransaction (s : MCP2515Class) : MCP2515Class :=
  { s with log := s.log ++ [Event.beginTransaction] }

/-- Models `digitalWrite(_csPin, LOW)`. -/
def csLow (s : MCP2515Class) : MCP2515Class :=
  { s with log := s.log ++ [Event.csLow] }

/-- Models `digitalWrite(_csPin, HIGH)`. -/
def csHigh (s : MCP2515Class) : MCP2515Class :=
  { s with log := s.log ++ [Event.csHigh] }

/-- Models `_spi->endTransaction()`. -/
def endTransaction (s : MCP2515Class) : MCP2515Class :=
  { s with log := s.log ++ [Event.endTransaction] }

/-- Models `_spi->transfer(b)`: shifts the byte `b` out and returns the byte
the chip shifts in at the same time. -/
def transfer (s : MCP2515Class) (b : Nat) : Nat × MCP2515Class :=
  (s.miso s.clock % 256,
   { s with clock := s.clock + 1, log := s.log ++ [Event.transfer (b % 256)] })

/-- Models `readRegister` (lines 684-697). -/
def readRegister (s : MCP2515Class) (address : Nat) : Nat × MCP2515Class :=
  let s := beginTransaction s
  let s := csLow s
  let s := (transfer s READ).2
  let s := (transfer s address).2
  let (value, s) := transfer s 0x00
  let s := csHigh s
  let s := endTransaction s
  (value, s)

/-- Models `modifyRegister` (lines 706-716). -/
def modifyRegister (s : MCP2515Class) (address mask value : Nat) : MCP2515Class :=
  let s := beginTransaction s
  let s := csLow s
  let s := (transfer s BIT_MODIFY).2
  let s := (transfer s address).2
  let s := (transfer s mask).2
  let s := (transfer s value).2
  let s := csHigh s
  endTransaction s

/-- Models `writeRegister` (lines 718-727). -/
def writeRegister (s : MCP2515Class) (address value : Nat) : MCP2515Class :=
  let s := beginTransaction s
  let s := csLow s
  let s := (transfer s WRITE).2
  let s := (transfer s address).2
  let s := (transfer s value).2
  let s := csHigh s
  endTransaction s

/-- Models `clearRxInterruptFlag` (lines 699-704). -/
def clearRxInterruptFlag (s : MCP2515Class) (n : Nat) : MCP2515Class :=
  let mask := FLAG_RXnIF n
  let clear_command := 0x00
  modifyRegister s REG_CANINTF mask clear_command

/-! ## Transmit (`endPacket`, lines 171-263) -/

/-- The payload loop of `endPacket` (lines 222-224):
`for (uint8_t i = 0; i < _txLength; i++) _spi->transfer(_txData[i]);`
with `k` the number of iterations still to run. -/
def txDataLoop : Nat → Nat → MCP2515Class → MCP2515Class
  | 0, _, s => s
  | k + 1, i, s => txDataLoop k (i + 1) (transfer s (s.txData i)).2

/-- Lines 187-227 of `endPacket`: compute the register values and write them
with one LOAD TX BUFFER transaction to slot `n`. -/
def loadTxBuffer (n : Nat) (s : MCP2515Class) : MCP2515Class :=
  let regSIDH := if s.txExtended then (s.txId >>> 21) % 256 else (s.txId >>> 3) % 256
  let regSIDL :=
    if s.txExtended then
      ((((s.txId >>> 18) &&& 0x07) <<< 5) ||| FLAG_EXIDE ||| ((s.txId >>> 16) &&& 0x03)) % 256
    else (s.txId <<< 5) % 256
  let regEID8 := if s.txExtended then ((s.txId >>> 8) &&& 0xff) % 256 else 0x00
  let regEID0 := if s.txExtended then (s.txId &&& 0xff) % 256 else 0x00
  let regDLC := if s.txRtr then (0x40 ||| s.txLength) % 256 else s.txLength % 256
  let s := beginTransaction s
  let s := csLow s
  let s := (transfer s (0x40 ||| (n <<< 1))).2
  let s := (transfer s regSIDH).2
  let s := (transfer s regSIDL).2
  let s := (transfer s regEID8).2
  let s := (transfer s regEID0).2
  let s := (transfer s regDLC).2
  let s := if !s.txRtr then txDataLoop s.txLength 0 s else s
  let s := csHigh s
  endTransaction s

/-- Lines 229-235 of `endPacket`: the REQUEST TO SEND transaction for slot `n`. -/
def requestToSend (n : Nat) (s : MCP2515Class) : MCP2515Class :=
  let s := beginTransaction s
  let s := csLow s
  let s := (transfer s (0x80 ||| (1 <<< n))).2
  let s := csHigh s
  endTransaction s

/-- Lines 239-250 of `endPacket`: the completion poll.  The loop has no bound in
the source; `fuel` bounds the number of iterations and `none` means the bound
was reached with TXREQ still reading set.  The result is the `aborted` flag.
The call `yield()` touches neither the driver object nor the bus. -/
def pollTxReq (n : Nat) : Nat → Bool → MCP2515Class → Option (Bool × MCP2515Class)
  | 0, _, _ => none
  | fuel + 1, aborted, s =>
    let (ctrl, s) := readRegister s (REG_TXBnCTRL n)
    if ctrl &&& 0x08 ≠ 0 then
      let (err, s) := readRegister s (REG_TXBnCTRL n)
      if err &&& 0x10 ≠ 0 then
        pollTxReq n fuel true (modifyRegister s REG_CANCTRL 0x10 0x10)
      else
        pollTxReq n fuel aborted s
    else
      some (aborted, s)

/-- Models `endPacket` (lines 171-263).  `baseOk` is the result of the call
`CANControllerClass::endPacket()` of the base class (not part of this file);
the transmit fields of `s` are the ones that call leaves behind. -/
def endPacket (fuel : Nat) (baseOk : Bool) (s : MCP2515Class) : Option (Nat × MCP2515Class) :=
  if !baseOk then some (0, s)
  else
    let n := 0
    let s := loadTxBuffer n s
    let s := requestToSend n s
    match pollTxReq n fuel false s with
    | none => none
    | some (aborted, s) =>
      let s := if aborted then modifyRegister s REG_CANCTRL 0x10 0x00 else s
      let s := modifyRegister s REG_CANINTF (FLAG_TXnIF n) 0x00
      let (ctrl, s) := readRegister s (REG_TXBnCTRL n)
      some (if ctrl &&& 0x70 ≠ 0 then 0 else 1, s)

/-- The completion poll of `endPacket` (lines 239-250) observed after at most
`fuel` iterations: the driver object when the loop has ended (first component
`some aborted`), or after `fuel` iterations with TXREQ still reading set (first
component `none`).  `pollTxReq` is this function with the driver object
dropped in the second case. -/
def pollTxReqUpTo (n : Nat) : Nat → Bool → MCP2515Class → Option Bool × MCP2515Class
  | 0, _, s => (none, s)
  | fuel + 1, aborted, s =>
    let (ctrl, s) := readRegister s (REG_TXBnCTRL n)
    if ctrl &&& 0x08 ≠ 0 then
      let (err, s) := readRegister s (REG_TXBnCTRL n)
      if err &&& 0x10 ≠ 0 then
        pollTxReqUpTo n fuel true (modifyRegister s REG_CANCTRL 0x10 0x10)
      else
        pollTxReqUpTo n fuel aborted s
    else
      (some aborted, s)

/-- Models `endPacket` (lines 171-263) observed after at most `fuel` iterations
of its completion poll: the driver object on return when the poll has ended,
else the driver object after `fuel` iterations.  Every finite part of the bus
log of a run of `endPacket`, ending or not, is the start of the log of one of
these. -/
def endPacketUpTo (fuel : Nat) (baseOk : Bool) (s : MCP2515Class) : MCP2515Class :=
  if !baseOk then s
  else
    let n := 0
    let s := loadTxBuffer n s
    let s := requestToSend n s
    match pollTxReqUpTo n fuel false s with
    | (none, s) => s
    | (some aborted, s) =>
      let s := if aborted then modifyRegister s REG_CANCTRL 0x10 0x00 else s
      let s := modifyRegister s REG_CANINTF (FLAG_TXnIF n) 0x00
      (readRegister s (REG_TXBnCTRL n)).2

/-! ## Receive (`parsePacket`, lines 265-338) -/

/-- Conversion of a `uint32_t` value to a 32-bit signed `long`. -/
def toLong (u : Nat) : Int :=
  if u % 2 ^ 32 < 2 ^ 31 then ((u % 2 ^ 32 : Nat) : Int) else ((u % 2 ^ 32 : Nat) : Int) - 2 ^ 32

/-- The payload loop of `parsePacket` (lines 326-328):
`for (uint8_t i = 0; i < _rxLength; i++) _rxData[i] = _spi->transfer(0x00);`
with `k` the number of iterations still to run.  `_rxData` is `uint8_t[8]`: a
store at an index below 8 is a store into the array, a store at an index of 8
or more is a store past its end, where the behaviour of the source is
undefined.  The model records such a store in the cell `i` of `rxData`, which
makes the overrun visible; what it computes from there on describes no
behaviour of the source, so the statements about the state or the log after
`parsePacket` are made for the calls whose stores all stay below index 8. -/
def rxDataLoop : Nat → Nat → MCP2515Class → MCP2515Class
  | 0, _, s => s
  | k + 1, i, s =>
    let (v, s) := transfer s 0x00
    rxDataLoop k (i + 1) { s with rxData := Function.update s.rxData i v }

/-- Lines 289-337 of `parsePacket`: read the pending frame out of receive
buffer `n` with one READ RX BUFFER transaction, decode it, clear its receive
interrupt flag and return the decoded DLC. -/
def readRxBuffer (n : Nat) (s : MCP2515Class) : Nat × MCP2515Class :=
  let s := beginTransaction s
  let s := csLow s
  let s := (transfer s (READ_RX_BUFFER ||| (n * 0x04))).2
  let (regSIDH, s) := transfer s 0x00
  let (regSIDL, s) := transfer s 0x00
  let s := { s with rxExtended := decide (regSIDL &&& FLAG_IDE ≠ 0) }
  let (regEID8, s) := transfer s 0x00
  let (regEID0, s) := transfer s 0x00
  let (regDLC, s) := transfer s 0x00
  let idA := ((regSIDH <<< 3) ||| (regSIDL >>> 5)) % 2 ^ 32
  let s :=
    if s.rxExtended then
      let idB := (((regSIDL &&& 0x03) <<< 16) % 2 ^ 32
        ||| (regEID8 <<< 8) % 2 ^ 32 ||| regEID0) % 2 ^ 32
      { s with rxId := toLong ((idA <<< 18) % 2 ^ 32 ||| idB),
               rxRtr := decide (regDLC &&& FLAG_RTR ≠ 0) }
    else
      { s with rxId := toLong idA, rxRtr := decide (regSIDL &&& FLAG_SRR ≠ 0) }
  let s := { s with rxDlc := regDLC &&& 0x0f, rxIndex := 0 }
  let s :=
    if s.rxRtr then { s with rxLength := 0 }
    else
      let s := { s with rxLength := s.rxDlc }
      rxDataLoop s.rxLength 0 s
  let s := csHigh s
  let s := endTransaction s
  let s := clearRxInterruptFlag s n
  (s.rxDlc, s)

/-- Models `parsePacket` (lines 265-338); the first component is the returned
`int`. -/
def parsePacket (s : MCP2515Class) : Nat × MCP2515Class :=
  let s := beginTransaction s
  let s := csLow s
  let s := (transfer s RX_STATUS).2
  let (rxStatus, s) := transfer s 0x00
  let s := csHigh s
  let s := endTransaction s
  if rxStatus &&& 0x40 ≠ 0 then readRxBuffer 0 s
  else if rxStatus &&& 0x80 ≠ 0 then readRxBuffer 1 s
  else
    (0, { s with rxId := -1, rxExtended := false, rxRtr := false, rxDlc := 0,
                 rxIndex := 0, rxLength := 0 })

/-! ## Configuration registers (lines 13-65) -/

def REG_BFPCTRL : Nat := 0x0c
def REG_TXRTSCTRL : Nat := 0x0d
def REG_CNF3 : Nat := 0x28
def REG_CNF2 : Nat := 0x29
def REG_CNF1 : Nat := 0x2a
def REG_CANINTE : Nat := 0x2b

/-- Receive interrupt enable of buffer `n`: `(0x01 << n)` as a `uint8_t`. -/
def FLAG_RXnIE (n : Nat) : Nat := (0x01 <<< n) % 256

/-- Filter `n`, SIDH register: `(0x00 + ((n + (n >= 3)) * 4))` as a `uint8_t`. -/
def REG_RXFnSIDH (n : Nat) : Nat := (0x00 + ((n + (if n ≥ 3 then 1 else 0)) * 4)) % 256
/-- Filter `n`, SIDL register. -/
def REG_RXFnSIDL (n : Nat) : Nat := (0x01 + ((n + (if n ≥ 3 then 1 else 0)) * 4)) % 256
/-- Filter `n`, EID8 register. -/
def REG_RXFnEID8 (n : Nat) : Nat := (0x02 + ((n + (if n ≥ 3 then 1 else 0)) * 4)) % 256
/-- Filter `n`, EID0 register. -/
def REG_RXFnEID0 (n : Nat) : Nat := (0x03 + ((n + (if n ≥ 3 then 1 else 0)) * 4)) % 256

/-- Mask `n`, SIDH register: `(0x20 + (n * 0x04))` as a `uint8_t`. -/
def REG_RXMnSIDH (n : Nat) : Nat := (0x20 + (n * 0x04)) % 256
/-- Mask `n`, SIDL register. -/
def REG_RXMnSIDL (n : Nat) : Nat := (0x21 + (n * 0x04)) % 256
/-- Mask `n`, EID8 register. -/
def REG_RXMnEID8 (n : Nat) : Nat := (0x22 + (n * 0x04)) % 256
/-- Mask `n`, EID0 register. -/
def REG_RXMnEID0 (n : Nat) : Nat := (0x23 + (n * 0x04)) % 256

/-- Control register of receive buffer `n`: `(0x60 + (n * 0x10))` as a `uint8_t`. -/
def REG_RXBnCTRL (n : Nat) : Nat := (0x60 + (n * 0x10)) % 256

def FLAG_RXB0CTRL_BUKT : Nat := 0x04
def FLAG_RXM0 : Nat := 0x20
def FLAG_RXM1 : Nat := 0x40

/-! ## Operating modes (lines 495-551) -/

/-- Models `switchToNormalMode` (lines 495-499). -/
def switchToNormalMode (s : MCP2515Class) : Bool × MCP2515Class :=
  let s := writeRegister s REG_CANCTRL 0x00
  let (r, s) := readRegister s REG_CANCTRL
  (decide (r &&& 0xe0 = 0x00), s)

/-- Models `switchToConfigurationMode` (lines 501-506). -/
def switchToConfigurationMode (s : MCP2515Class) : Bool × MCP2515Class :=
  let s := writeRegister s REG_CANCTRL 0x80
  let (r, s) := readRegister s REG_CANCTRL
  (decide (r &&& 0xe0 = 0x80), s)

/-- Models `observe` (lines 508-518). -/
def observe (s : MCP2515Class) : Nat × MCP2515Class :=
  let s := writeRegister s REG_CANCTRL 0x80
  let (r, s) := readRegister s REG_CANCTRL
  if r ≠ 0x80 then (0, s) else (1, s)

/-- Models `loopback` (lines 520-529). -/
def loopback (s : MCP2515Class) : Nat × MCP2515Class :=
  let s := writeRegister s REG_CANCTRL 0x40
  let (r, s) := readRegister s REG_CANCTRL
  if r ≠ 0x40 then (0, s) else (1, s)

/-- Models `sleep` (lines 531-540). -/
def sleep (s : MCP2515Class) : Nat × MCP2515Class :=
  let s := writeRegister s REG_CANCTRL 0x01
  let (r, s) := readRegister s REG_CANCTRL
  if r ≠ 0x01 then (0, s) else (1, s)

/-- Models `wakeup` (lines 542-551). -/
def wakeup (s : MCP2515Class) : Nat × MCP2515Class :=
  let s := writeRegister s REG_CANCTRL 0x00
  let (r, s) := readRegister s REG_CANCTRL
  if r ≠ 0x00 then (0, s) else (1, s)

/-! ## Initialisation (`begin`, lines 82-162) -/

/-- Models `reset` (lines 654-671): the RESET instruction.  The delay that
follows touches neither the driver object nor the bus. -/
def reset (s : MCP2515Class) : MCP2515Class :=
  let s := beginTransaction s
  let s := csLow s
  let s := (transfer s 0xc0).2
  let s := csHigh s
  endTransaction s

/-- The table `CNF_MAPPER` of `begin` (lines 97-127): clock frequency, baud
rate and the three bytes `cnf[0]`, `cnf[1]`, `cnf[2]`. -/
def CNF_MAPPER : List (Int × Int × Nat × Nat × Nat) :=
  [ (8000000, 1000000, 0x00, 0x80, 0x00),
    (8000000, 500000, 0x00, 0x90, 0x02),
    (8000000, 250000, 0x00, 0xb1, 0x05),
    (8000000, 200000, 0x00, 0xb4, 0x06),
    (8000000, 125000, 0x01, 0xb1, 0x05),
    (8000000, 100000, 0x01, 0xb4, 0x06),
    (8000000, 80000, 0x01, 0xbf, 0x07),
    (8000000, 50000, 0x03, 0xb4, 0x06),
    (8000000, 40000, 0x03, 0xbf, 0x07),
    (8000000, 20000, 0x07, 0xbf, 0x07),
    (8000000, 10000, 0x0f, 0xbf, 0x07),
    (8000000, 5000, 0x1f, 0xbf, 0x07),
    (16000000, 1000000, 0x00, 0xd0, 0x82),
    (16000000, 500000, 0x00, 0xf0, 0x86),
    (16000000, 250000, 0x41, 0xf1, 0x85),
    (16000000, 200000, 0x01, 0xfa, 0x87),
    (16000000, 125000, 0x03, 0xf0, 0x86),
    (16000000, 100000, 0x03, 0xfa, 0x87),
    (16000000, 80000, 0x03, 0xff, 0x87),
    (16000000, 50000, 0x07, 0xfa, 0x87),
    (16000000, 40000, 0x07, 0xff, 0x87),
    (16000000, 20000, 0x0f, 0xff, 0x87),
    (16000000, 10000, 0x1f, 0xff, 0x87),
    (16000000, 5000, 0x3f, 0xff, 0x87) ]

/-- The lookup loop of `begin` (lines 129-136): the `cnf` bytes of the first
row whose clock frequency and baud rate both equal the arguments, `none` for
the `NULL` pointer. -/
def findCnf (clockFrequency baudRate : Int) : Option (Nat × Nat × Nat) :=
  (CNF_MAPPER.find? (fun row => decide (row.1 = clockFrequency ∧ row.2.1 = baudRate))).map
    (fun row => row.2.2)

/-- Models `begin` (lines 82-162).  `clockFrequency` is the member
`_clockFrequency`, which `begin` only reads.  The calls
`CANControllerClass::begin`, `pinMode` and `_spi->begin()` transfer nothing on
the bus. -/
def begin (clockFrequency baudRate : Int) (stayInConfigurationMode : Bool)
    (s : MCP2515Class) : Nat × MCP2515Class :=
  let s := reset s
  let (ok, s) := switchToConfigurationMode s
  if !ok then (0, s)
  else
    match findCnf clockFrequency baudRate with
    | none => (0, s)
    | some (cnf0, cnf1, cnf2) =>
      let s := writeRegister s REG_CNF1 cnf0
      let s := writeRegister s REG_CNF2 cnf1
      let s := writeRegister s REG_CNF3 cnf2
      let s := writeRegister s REG_CANINTE (FLAG_RXnIE 1 ||| FLAG_RXnIE 0)
      let s := writeRegister s REG_BFPCTRL 0x00
      let s := writeRegister s REG_TXRTSCTRL 0x00
      let s := writeRegister s (REG_RXBnCTRL 0) (FLAG_RXM1 ||| FLAG_RXM0)
      let s := writeRegister s (REG_RXBnCTRL 1) (FLAG_RXM1 ||| FLAG_RXM0)
      if !stayInConfigurationMode then
        let (ok, s) := switchToNormalMode s
        if !ok then (0, s) else (1, s)
      else (1, s)

/-! ## Acceptance filters (lines 362-493) -/

/-- Models `filter` (lines 362-404).  `id` and `mask` are the bit patterns of
the `int` arguments. -/
def filter (id mask : Nat) (s : MCP2515Class) : Nat × MCP2515Class :=
  let id := id &&& 0x7ff
  let mask := mask &&& 0x7ff
  let s := writeRegister s REG_CANCTRL 0x80
  let (r, s) := readRegister s REG_CANCTRL
  if r ≠ 0x80 then (0, s)
  else
    let s := (List.range 2).foldl (fun s n =>
      let s := writeRegister s (REG_RXBnCTRL n) FLAG_RXM0
      let s := writeRegister s (REG_RXBnCTRL n) FLAG_RXM0
      let s := writeRegister s (REG_RXMnSIDH n) (mask >>> 3)
      let s := writeRegister s (REG_RXMnSIDL n) (mask <<< 5)
      let s := writeRegister s (REG_RXMnEID8 n) 0
      writeRegister s (REG_RXMnEID0 n) 0) s
    let s := (List.range 6).foldl (fun s n =>
      let s := writeRegister s (REG_RXFnSIDH n) (id >>> 3)
      let s := writeRegister s (REG_RXFnSIDL n) (id <<< 5)
      let s := writeRegister s (REG_RXFnEID8 n) 0
      writeRegister s (REG_RXFnEID0 n) 0) s
    let s := writeRegister s REG_CANCTRL 0x00
    let (r, s) := readRegister s REG_CANCTRL
    if r ≠ 0x00 then (0, s) else (1, s)

/-- Models `setFilterRegisters` (lines 406-449).  The arguments are `uint16_t`
values; the locals `mask` and `filter_array[n]` are `uint8_t`. -/
def setFilterRegisters (mask0 filter0 filter1 mask1 filter2 filter3 filter4 filter5 : Nat)
    (allowRollover : Bool) (s : MCP2515Class) : Bool × MCP2515Class :=
  let mask0 := mask0 &&& 0x7ff
  let filter0 := filter0 &&& 0x7ff
  let filter1 := filter1 &&& 0x7ff
  let mask1 := mask1 &&& 0x7ff
  let filter2 := filter2 &&& 0x7ff
  let filter3 := filter3 &&& 0x7ff
  let filter4 := filter4 &&& 0x7ff
  let filter5 := filter5 &&& 0x7ff
  let (ok, s) := switchToConfigurationMode s
  if !ok then (false, s)
  else
    let s := writeRegister s (REG_RXBnCTRL 0) (if allowRollover then FLAG_RXB0CTRL_BUKT else 0)
    let s := writeRegister s (REG_RXBnCTRL 1) 0
    let s := (List.range 2).foldl (fun s n =>
      let mask := (if n = 0 then mask0 else mask1) % 256
      let s := writeRegister s (REG_RXMnSIDH n) (mask >>> 3)
      let s := writeRegister s (REG_RXMnSIDL n) (mask <<< 5)
      let s := writeRegister s (REG_RXMnEID8 n) 0
      writeRegister s (REG_RXMnEID0 n) 0) s
    let filter_array : List Nat :=
      [filter0 % 256, filter1 % 256, filter2 % 256, filter3 % 256, filter4 % 256, filter5 % 256]
    let s := (List.range 6).foldl (fun s n =>
      let id := filter_array.getD n 0
      let s := writeRegister s (REG_RXFnSIDH n) (id >>> 3)
      let s := writeRegister s (REG_RXFnSIDL n) (id <<< 5)
      let s := writeRegister s (REG_RXFnEID8 n) 0
      writeRegister s (REG_RXFnEID0 n) 0) s
    let (ok, s) := switchToNormalMode s
    if !ok then (false, s) else (true, s)

/-- Models `filterExtended` (lines 451-493).  `id` and `mask` are the bit
patterns of the `long` arguments. -/
def filterExtended (id mask : Nat) (s : MCP2515Class) : Nat × MCP2515Class :=
  let id := id &&& 0x1FFFFFFF
  let mask := mask &&& 0x1FFFFFFF
  let s := writeRegister s REG_CANCTRL 0x80
  let (r, s) := readRegister s REG_CANCTRL
  if r ≠ 0x80 then (0, s)
  else
    let s := (List.range 2).foldl (fun s n =>
      let s := writeRegister s (REG_RXBnCTRL n) FLAG_RXM1
      let s := writeRegister s (REG_RXBnCTRL n) FLAG_RXM1
      let s := writeRegister s (REG_RXMnSIDH n) (mask >>> 21)
      let s := writeRegister s (REG_RXMnSIDL n)
        ((((mask >>> 18) &&& 0x03) <<< 5) ||| FLAG_EXIDE ||| ((mask >>> 16) &&& 0x03))
      let s := writeRegister s (REG_RXMnEID8 n) ((mask >>> 8) &&& 0xff)
      writeRegister s (REG_RXMnEID0 n) (mask &&& 0xff)) s
    let s := (List.range 6).foldl (fun s n =>
      let s := writeRegister s (REG_RXFnSIDH n) (id >>> 21)
      let s := writeRegister s (REG_RXFnSIDL n)
        ((((id >>> 18) &&& 0x03) <<< 5) ||| FLAG_EXIDE ||| ((id >>> 16) &&& 0x03))
      let s := writeRegister s (REG_RXFnEID8 n) ((id >>> 8) &&& 0xff)
      writeRegister s (REG_RXFnEID0 n) (id &&& 0xff)) s
    let s := writeRegister s REG_CANCTRL 0x00
    let (r, s) := readRegister s REG_CANCTRL
    if r ≠ 0x00 then (0, s) else (1, s)

/-! ## Interrupt dispatch (`handleInterrupt`, lines 673-682) -/

/-- The loop `while (parsePacket()) { _onReceive(available()); }` of
`handleInterrupt`.  The loop has no bound in the source; `fuel` bounds the
number of calls of `parsePacket` and `none` means the bound was reached.  The
callback `_onReceive` belongs to the caller and `available` to the base class;
`calls` counts the invocations of the callback. -/
def dispatchLoop : Nat → Nat → MCP2515Class → Option (Nat × MCP2515Class)
  | 0, _, _ => none
  | fuel + 1, calls, s =>
    let (size, s) := parsePacket s
    if size ≠ 0 then dispatchLoop fuel (calls + 1) s
    else some (calls, s)

/-- Models `handleInterrupt` (lines 673-682); the first component of the
result is the number of invocations of the receive callback. -/
def handleInterrupt (fuel : Nat) (s : MCP2515Class) : Option (Nat × MCP2515Class) :=
  let (flags, s) := readRegister s REG_CANINTF
  if flags = 0 then some (0, s)
  else dispatchLoop fuel 0 s

/-- The loop `while (parsePacket()) { _onReceive(available()); }` of
`handleInterrupt` observed after at most `fuel` calls of `parsePacket`, and
stopped before a call whose payload loop would store past the end of
`_rxData` (`8 < _rxLength`), from where on the behaviour of the source is
undefined.  The first component is `false` exactly when the loop was stopped
for that reason; the second is the driver object reached. -/
def dispatchLoopUpTo : Nat → MCP2515Class → Bool × MCP2515Class
  | 0, s => (true, s)
  | fuel + 1, s =>
    if 8 < (parsePacket s).2.rxLength then (false, s)
    else
      let (size, s) := parsePacket s
      if size ≠ 0 then dispatchLoopUpTo fuel s else (true, s)

/-- Models `handleInterrupt` (lines 673-682) observed after at most `fuel` calls
of `parsePacket`, see `dispatchLoopUpTo`. -/
def handleInterruptUpTo (fuel : Nat) (s : MCP2515Class) : Bool × MCP2515Class :=
  let (flags, s) := readRegister s REG_CANINTF
  if flags = 0 then (true, s) else dispatchLoopUpTo fuel s

/-! ## Vocabulary of the statements -/

/-- The bus events of one complete SPI transaction that shifts out `bytes`:
begin, chip-select low, one transfer per byte, chip-select high, end. -/
def txn (bytes : List Nat) : List Event :=
  [Event.beginTransaction, Event.csLow] ++ bytes.map Event.transfer
    ++ [Event.csHigh, Event.endTransaction]

/-- Bit field `x[hi:lo]`: the bits `lo` to `hi` of `x`, as the specification
writes the reference layout.  The `layout` definitions below follow the words
of section 4.4 of the specification, not the source. -/
def bitField (x hi lo : Nat) : Nat := (x / 2 ^ lo) % 2 ^ (hi + 1 - lo)

/-- Reference layout, SIDH byte: `id[28:21]` extended, `id[10:3]` standard. -/
def layoutSIDH (id : Nat) (extended : Bool) : Nat :=
  if extended then bitField id 28 21 else bitField id 10 3

/-- Reference layout, SIDL byte: `(id[20:18] << 5) | EXIDE | id[17:16]`
extended, `id[2:0] << 5` standard. -/
def layoutSIDL (id : Nat) (extended : Bool) : Nat :=
  if extended then (bitField id 20 18 <<< 5) ||| 0x08 ||| bitField id 17 16
  else bitField id 2 0 <<< 5

/-- Reference layout, EID8 byte: `id[15:8]` extended, 0 standard. -/
def layoutEID8 (id : Nat) (extended : Bool) : Nat :=
  if extended then bitField id 15 8 else 0

/-- Reference layout, EID0 byte: `id[7:0]` extended, 0 standard. -/
def layoutEID0 (id : Nat) (extended : Bool) : Nat :=
  if extended then bitField id 7 0 else 0

/-- Reference layout, DLC byte: `(RTR-bit if remoteRequest else 0) | length`. -/
def layoutDLC (rtr : Bool) (length : Nat) : Nat :=
  (if rtr then 0x40 else 0) ||| length

/-- The first `_txLength` cells of `_txData`, as bytes. -/
def txPayload (s : MCP2515Class) : List Nat :=
  (List.range s.txLength).map (fun i => s.txData i % 256)

/-- The bytes shifted out in a stretch of the bus log, in order. -/
def mosiBytes : List Event → List Nat
  | [] => []
  | Event.transfer b :: es => b :: mosiBytes es
  | _ :: es => mosiBytes es

/-- The bytes `endPacket` shifts out after the LOAD TX BUFFER opcode: SIDH,
SIDL, EID8, EID0, DLC and the payload it sends. -/
def txWire (s : MCP2515Class) : List Nat :=
  (mosiBytes ((loadTxBuffer 0 s).log.drop s.log.length)).tail

/-- The quick-status byte the chip answers to the next `parsePacket`: the
value returned by its second transfer. -/
def statusByte (s : MCP2515Class) : Nat := s.miso (s.clock + 1) % 256

/-- The `k`-th byte the chip answers after the READ RX BUFFER opcode of the
next `parsePacket`: `rxWire s 0` ... `rxWire s 4` are SIDH, SIDL, EID8, EID0
and DLC, `rxWire s 5` is the first payload byte. -/
def rxWire (s : MCP2515Class) (k : Nat) : Nat := s.miso (s.clock + 3 + k) % 256

/-- The decoded payload: the first `_rxLength` cells of `_rxData`. -/
def rxPayload (s : MCP2515Class) : List Nat :=
  (List.range s.rxLength).map s.rxData

/-- The byte returned by the most recent transfer. -/
def lastRead (s : MCP2515Class) : Nat := s.miso (s.clock - 1) % 256

/-- The id `readRxBuffer` decodes from the header bytes (lines 303-315). -/
def decodedId (sidh sidl eid8 eid0 : Nat) : Int :=
  if sidl &&& 0x08 ≠ 0 then
    toLong (((((sidh <<< 3) ||| (sidl >>> 5)) % 2 ^ 32) <<< 18) % 2 ^ 32
      ||| (((sidl &&& 0x03) <<< 16) % 2 ^ 32 ||| (eid8 <<< 8) % 2 ^ 32 ||| eid0) % 2 ^ 32)
  else toLong (((sidh <<< 3) ||| (sidl >>> 5)) % 2 ^ 32)

/-! ## Concrete driver objects -/

/-- A driver object on an idle bus whose chip answers the bytes of `answers`
in order and `0` afterwards; all fields are zero. -/
def onChip (answers : List Nat) : MCP2515Class :=
  { miso := fun k => answers.getD k 0, clock := 0, log := [],
    txId := 0, txExtended := false, txRtr := false, txLength := 0, txData := fun _ => 0,
    rxId := 0, rxExtended := false, rxRtr := false, rxDlc := 0, rxIndex := 0,
    rxLength := 0, rxData := fun _ => 0 }

/-- A driver object about to poll a chip that answers the quick-status byte
`status` and then, after the READ RX BUFFER opcode, the bytes of `wire`. -/
def receiving (status : Nat) (wire : List Nat) : MCP2515Class :=
  onChip ([0, status, 0] ++ wire)

/-- A driver object holding the frame to transmit. -/
def sending (id : Nat) (extended rtr : Bool) (data : List Nat) (length : Nat) : MCP2515Class :=
  { onChip [] with txId := id, txExtended := extended, txRtr := rtr, txLength := length,
                   txData := fun i => data.getD i 0 }

/-- A driver object about to send the standard data frame id 0x123 with the
payload byte 7 to a chip that answers 0x20 (MLOA set) to the 18th transfer, the
final read of TXB0CTRL, and 0 to every other transfer. -/
def lostArbitration : MCP2515Class :=
  { sending 0x123 false false [7] 1 with miso := fun k => if k = 17 then 0x20 else 0 }

/-- The driver object `lostArbitration` after `endPacket`. -/
def lostArbitrationDone : MCP2515Class :=
  { lostArbitration with
      clock := 18,
      log := txn [0x40, 0x24, 0x60, 0x00, 0x00, 0x01, 0x07] ++ txn [0x81]
        ++ txn [0x03, 0x30, 0x00] ++ txn [0x05, 0x2C, 0x04, 0x00] ++ txn [0x03, 0x30, 0x00] }

/-! ## Vocabulary of the later statements -/

/-- The byte the chip answers to the read of a mode setter: the value returned
by its sixth transfer (three transfers write the register, the third transfer
of the read returns the value). -/
def ctrlReadback (s : MCP2515Class) : Nat := s.miso (s.clock + 5) % 256

/-- A script of chip answers: one entry per transfer, `some v` where the driver
reads back the value `v`, `none` where the driver ignores the byte shifted in
(while it sends an opcode, an address, a mask or a value). -/
def answers (miso : Nat → Nat) : Nat → List (Option Nat) → Bool
  | _, [] => true
  | k, none :: script => answers miso (k + 1) script
  | k, some v :: script => decide (miso k % 256 = v) && answers miso (k + 1) script

/-- The script of the loop iterations of the completion poll.  An iteration is
the pair of its two readbacks of TXB0CTRL: the loop-condition read and the
loop-body read; the four transfers of the abort follow a body read with TXERR. -/
def pollScript : List (Nat × Nat) → List (Option Nat)
  | [] => []
  | (cond, body) :: its =>
    [none, none, some cond, none, none, some body]
      ++ (if body &&& 0x10 ≠ 0 then [none, none, none, none] else [])
      ++ pollScript its

/-- Whether the body read of some iteration reports TXERR (0x10). -/
def anyTxErr (its : List (Nat × Nat)) : Bool :=
  its.any (fun p => decide (p.2 &&& 0x10 ≠ 0))

/-- The script of a whole completion: the iterations `its`, the condition read
`last` that ends the loop, the transfers of the two bit-modify transactions
(one only when no abort was issued) and the final read `final`. -/
def txScript (its : List (Nat × Nat)) (last final : Nat) : List (Option Nat) :=
  pollScript its ++ [none, none, some last]
    ++ (if anyTxErr its then [none, none, none, none] else [])
    ++ [none, none, none, none] ++ [none, none, some final]

/-- The bus events of the loop iterations `its`: two reads of TXB0CTRL (0x30)
per iteration, followed by the abort, a bit-modify of CANCTRL (0x0F) with mask
0x10 and value 0x10, when the body read reports TXERR. -/
def pollEvents : List (Nat × Nat) → List Event
  | [] => []
  | (_, body) :: its =>
    txn [0x03, 0x30, 0x00] ++ txn [0x03, 0x30, 0x00]
      ++ (if body &&& 0x10 ≠ 0 then txn [0x05, 0x0F, 0x10, 0x10] else [])
      ++ pollEvents its

/-- The transactions of a stretch of the bus log: for each chip-select low ...
chip-select high bracket, the bytes shifted out in between. -/
def transactionsFrom : List Nat → List Event → List (List Nat)
  | _, [] => []
  | _, Event.csLow :: es => transactionsFrom [] es
  | cur, Event.transfer b :: es => transactionsFrom (cur ++ [b]) es
  | cur, Event.csHigh :: es => cur :: transactionsFrom [] es
  | cur, _ :: es => transactionsFrom cur es

/-- The transactions of a stretch of the bus log that starts outside a
transaction. -/
def transactions (es : List Event) : List (List Nat) := transactionsFrom [] es

/-- A transaction respects the interrupt-flag register CANINTF (0x2C): it is
not a WRITE (0x02) to 0x2C, and if it is a BIT MODIFY (0x05) of 0x2C then its
mask is one of 0x01, 0x02, 0x04 and its value is 0x00. -/
def intfOk : List Nat → Bool
  | 0x02 :: 0x2C :: _ => false
  | [0x05, 0x2C, mask, value] => (mask == 0x01 || mask == 0x02 || mask == 0x04) && value == 0x00
  | 0x05 :: 0x2C :: _ => false
  | _ => true

/-- The four writes that program one mask or filter register group whose SIDH
register is at `base`. -/
def groupWrites (base sidh sidl eid8 eid0 : Nat) : List Event :=
  txn [0x02, base, sidh] ++ txn [0x02, base + 1, sidl]
    ++ txn [0x02, base + 2, eid8] ++ txn [0x02, base + 3, eid0]

/-- Reference address of filter group `n`: `4 * (n + (n >= 3))`. -/
def filterBase (n : Nat) : Nat := 4 * (n + (if n ≥ 3 then 1 else 0))

/-- Reference address of mask group `n`: `0x20 + 4 * n`. -/
def maskBase (n : Nat) : Nat := 0x20 + 4 * n

/-- A driver object whose chip answers `0x18` (TXREQ and TXERR set) to both
reads of the first poll iteration and `0` to every other transfer, in
particular to the read that ends the poll and to the final read. -/
def abortedThenClean : MCP2515Class :=
  { sending 0x123 false false [7] 1 with miso := fun k => if k = 10 ∨ k = 13 then 0x18 else 0 }

/-- A driver object whose chip answers `0x18` to the loop-condition read of the
first poll iteration, `0x08` (TXREQ only) to its loop-body read and `0` to
every other transfer. -/
def errorSeenByConditionOnly : MCP2515Class :=
  { sending 0x123 false false [7] 1 with
      miso := fun k => if k = 10 then 0x18 else if k = 13 then 0x08 else 0 }

/-- A driver object whose chip answers `0x18` to both reads of the first poll
iteration, `0x50` (ABTF and TXERR set, TXREQ clear) to the final read and `0`
to every other transfer. -/
def abortedAndFlagged : MCP2515Class :=
  { sending 0x123 false false [7] 1 with
      miso := fun k => if k = 10 ∨ k = 13 then 0x18 else if k = 31 then 0x50 else 0 }

/-- The bus events of a sequence of complete transactions. -/
def txns : List (List Nat) → List Event
  | [] => []
  | t :: ts => txn t ++ txns ts

/-- The bus log `new` extends the bus log `old` by complete transactions that
all respect the interrupt-flag register. -/
def respectsIntf (old new : List Event) : Prop :=
  ∃ ts : List (List Nat), new = old ++ txns ts ∧ ∀ t ∈ ts, intfOk t = true

/-! ## Vocabulary of the register map -/

/-- The four register addresses of filter group `n`, as the driver computes
them: SIDH, SIDL, EID8, EID0. -/
def filterGroup (n : Nat) : List Nat :=
  [REG_RXFnSIDH n, REG_RXFnSIDL n, REG_RXFnEID8 n, REG_RXFnEID0 n]

/-- The four register addresses of mask group `n`, as the driver computes
them: SIDH, SIDL, EID8, EID0. -/
def maskGroup (n : Nat) : List Nat :=
  [REG_RXMnSIDH n, REG_RXMnSIDL n, REG_RXMnEID8 n, REG_RXMnEID0 n]

/-- The 24 filter register addresses (groups 0 to 5) followed by the 8 mask
register addresses (groups 0 and 1). -/
def filterAndMaskAddresses : List Nat :=
  filterGroup 0 ++ filterGroup 1 ++ filterGroup 2 ++ filterGroup 3 ++ filterGroup 4
    ++ filterGroup 5 ++ maskGroup 0 ++ maskGroup 1

/-- The control registers the driver also writes: BFPCTRL, TXRTSCTRL, CANCTRL,
CNF3, CNF2, CNF1, CANINTE, CANINTF, RXB0CTRL, RXB1CTRL. -/
def controlAddresses : List Nat :=
  [REG_BFPCTRL, REG_TXRTSCTRL, REG_CANCTRL, REG_CNF3, REG_CNF2, REG_CNF1, REG_CANINTE,
   REG_CANINTF, REG_RXBnCTRL 0, REG_RXBnCTRL 1]

end MCP2515Class

namespace MCP2515Class

/-! ## Arithmetic of the bit operations -/

theorem or_eq_add_of_dvd {a b i : Nat} (ha : 2 ^ i ∣ a) (hb : b < 2 ^ i) : a ||| b = a + b := by
  obtain ⟨c, rfl⟩ := ha
  exact (Nat.mul_add_lt_is_or hb c).symm

theorem and_7 (x : Nat) : x &&& 7 = x % 8 := Nat.and_pow_two_sub_one_eq_mod x 3
theorem and_3 (x : Nat) : x &&& 3 = x % 4 := Nat.and_pow_two_sub_one_eq_mod x 2
theorem and_15 (x : Nat) : x &&& 15 = x % 16 := Nat.and_pow_two_sub_one_eq_mod x 4
theorem and_255 (x : Nat) : x &&& 255 = x % 256 := Nat.and_pow_two_sub_one_eq_mod x 8

/-- The extended SIDL byte as a sum: the three fields do not overlap. -/
theorem sidl_or_eq_add (a b : Nat) (hb : b < 4) :
    (a <<< 5) ||| 8 ||| b = a * 32 + 8 + b := by
  have h1 : (a <<< 5) ||| 8 = a * 32 + 8 := by
    rw [Nat.shiftLeft_eq]
    exact or_eq_add_of_dvd (i := 5) ⟨a, by ring⟩ (by norm_num)
  rw [h1]
  exact or_eq_add_of_dvd (i := 3) ⟨a * 4 + 1, by ring⟩ (by norm_num; omega)

/-! ## Bus log of the primitives -/

theorem txDataLoop_log (k : Nat) : ∀ (i : Nat) (s : MCP2515Class),
    (txDataLoop k i s).log
      = s.log ++ (List.range k).map (fun j => Event.transfer (s.txData (i + j) % 256))
  | i, s => by
    induction k generalizing i s with
    | zero => simp [txDataLoop]
    | succ k ih =>
      rw [txDataLoop, ih]
      simp [transfer, List.range_succ_eq_map, List.map_map, Function.comp_def,
        Nat.add_assoc, Nat.add_comm 1]

theorem loadTxBuffer_log (s : MCP2515Class) (n : Nat) :
    (loadTxBuffer n s).log = s.log ++ txn
      ([(0x40 ||| (n <<< 1)) % 256,
        if s.txExtended then (s.txId >>> 21) % 256 else (s.txId >>> 3) % 256,
        if s.txExtended then
          ((((s.txId >>> 18) &&& 0x07) <<< 5) ||| 0x08 ||| ((s.txId >>> 16) &&& 0x03)) % 256
        else (s.txId <<< 5) % 256,
        if s.txExtended then ((s.txId >>> 8) &&& 0xff) % 256 else 0,
        if s.txExtended then (s.txId &&& 0xff) % 256 else 0,
        if s.txRtr then (0x40 ||| s.txLength) % 256 else s.txLength % 256]
        ++ (if s.txRtr then [] else txPayload s)) := by
  cases hr : s.txRtr <;> cases he : s.txExtended <;>
    simp [loadTxBuffer, txn, txPayload, transfer, beginTransaction, csLow, csHigh,
      endTransaction, hr, he, FLAG_EXIDE, txDataLoop_log]

theorem encode_dlc (rtr : Bool) (length : Nat) (hlen : length ≤ 8) :
    (if rtr then (0x40 ||| length) % 256 else length % 256) = layoutDLC rtr length := by
  cases rtr
  · simp [layoutDLC]; omega
  · simp only [layoutDLC, if_true]
    exact Nat.mod_eq_of_lt (Nat.or_lt_two_pow (n := 8) (by norm_num) (by omega))

theorem encode_extended (id : Nat) :
    (id >>> 21) % 256 = bitField id 28 21 ∧
    ((((id >>> 18) &&& 0x07) <<< 5) ||| 0x08 ||| ((id >>> 16) &&& 0x03)) % 256
      = (bitField id 20 18 <<< 5) ||| 0x08 ||| bitField id 17 16 ∧
    ((id >>> 8) &&& 0xff) % 256 = bitField id 15 8 ∧
    (id &&& 0xff) % 256 = bitField id 7 0 := by
  refine ⟨?_, ?_, ?_, ?_⟩
  · simp [bitField, Nat.shiftRight_eq_div_pow]
  · have hb : (id / 2 ^ 16) % 4 < 4 := Nat.mod_lt _ (by norm_num)
    have ha : (id / 2 ^ 18) % 8 < 8 := Nat.mod_lt _ (by norm_num)
    simp only [bitField, Nat.shiftRight_eq_div_pow, and_7, and_3]
    norm_num
    rw [sidl_or_eq_add _ _ (by omega)]
    omega
  · simp [bitField, Nat.shiftRight_eq_div_pow, and_255]
  · simp [bitField, and_255]

theorem encode_standard (id : Nat) :
    (id >>> 3) % 256 = bitField id 10 3 ∧ (id <<< 5) % 256 = bitField id 2 0 <<< 5 := by
  refine ⟨?_, ?_⟩
  · simp [bitField, Nat.shiftRight_eq_div_pow]
  · simp only [bitField, Nat.shiftLeft_eq]
    norm_num
    omega

theorem readRegister_eq (s : MCP2515Class) (address : Nat) :
    readRegister s address
      = (s.miso (s.clock + 2) % 256,
         { s with clock := s.clock + 3, log := s.log ++ txn [READ, address % 256, 0] }) := by
  simp [readRegister, txn, transfer, beginTransaction, csLow, csHigh, endTransaction, READ]

theorem modifyRegister_eq (s : MCP2515Class) (address mask value : Nat) :
    modifyRegister s address mask value
      = { s with clock := s.clock + 4,
                 log := s.log ++ txn [BIT_MODIFY, address % 256, mask % 256, value % 256] } := by
  simp [modifyRegister, txn, transfer, beginTransaction, csLow, csHigh, endTransaction,
    BIT_MODIFY]

theorem requestToSend_eq (n : Nat) (s : MCP2515Class) :
    requestToSend n s
      = { s with clock := s.clock + 1, log := s.log ++ txn [(0x80 ||| (1 <<< n)) % 256] } := by
  simp [requestToSend, txn, transfer, beginTransaction, csLow, csHigh, endTransaction]

theorem pollTxReq_frame (n : Nat) : ∀ (fuel : Nat) (aborted : Bool) (s : MCP2515Class)
    (r : Bool) (s' : MCP2515Class), pollTxReq n fuel aborted s = some (r, s') →
    s'.miso = s.miso ∧ ∃ rest, s'.log = s.log ++ rest := by
  intro fuel
  induction fuel with
  | zero => intro aborted s r s' h; simp [pollTxReq] at h
  | succ fuel ih =>
    intro aborted s r s' h
    rw [pollTxReq] at h
    simp only [readRegister_eq, modifyRegister_eq] at h
    split at h
    · split at h
      · obtain ⟨hm, rest, hrest⟩ := ih _ _ _ _ h
        refine ⟨hm, ?_⟩
        rw [hrest]; simp only [List.append_assoc]; exact ⟨_, rfl⟩
      · obtain ⟨hm, rest, hrest⟩ := ih _ _ _ _ h
        refine ⟨hm, ?_⟩
        rw [hrest]; simp only [List.append_assoc]; exact ⟨_, rfl⟩
    · simp only [Option.some.injEq, Prod.mk.injEq] at h
      rw [← h.2]
      exact ⟨rfl, _, rfl⟩

/-- The result of the completion poll does not depend on the bound: once the
poll has returned, a larger bound gives the same result. -/
theorem pollTxReq_fuel_mono (n : Nat) : ∀ (fuel : Nat) (aborted : Bool) (s : MCP2515Class)
    (x : Bool × MCP2515Class), pollTxReq n fuel aborted s = some x →
    ∀ k, pollTxReq n (fuel + k) aborted s = some x := by
  intro fuel
  induction fuel with
  | zero => intro aborted s x h; simp [pollTxReq] at h
  | succ fuel ih =>
    intro aborted s x h k
    rw [Nat.add_right_comm, pollTxReq]
    rw [pollTxReq] at h
    simp only [readRegister_eq, modifyRegister_eq] at h ⊢
    split at h
    · rename_i h8
      rw [if_pos h8]
      split at h
      · rename_i h16
        rw [if_pos h16]
        exact ih _ _ _ h k
      · rename_i h16
        rw [if_neg h16]
        exact ih _ _ _ h k
    · rename_i h8
      rw [if_neg h8]
      exact h

/-- The result of `endPacket` does not depend on the bound either. -/
theorem endPacket_fuel_mono (fuel : Nat) (baseOk : Bool) (s : MCP2515Class)
    (x : Nat × MCP2515Class) (h : endPacket fuel baseOk s = some x) (k : Nat) :
    endPacket (fuel + k) baseOk s = some x := by
  cases baseOk
  · simpa [endPacket] using h
  · simp only [endPacket, Bool.not_true, Bool.false_eq_true, if_false] at h ⊢
    cases hp : pollTxReq 0 fuel false (requestToSend 0 (loadTxBuffer 0 s)) with
    | none => simp [hp] at h
    | some p =>
      rw [pollTxReq_fuel_mono 0 fuel false _ p hp k]
      rw [hp] at h
      exact h

theorem loadTxBuffer_miso (n : Nat) (s : MCP2515Class) : (loadTxBuffer n s).miso = s.miso := by
  have h : ∀ (k i : Nat) (u : MCP2515Class), (txDataLoop k i u).miso = u.miso := by
    intro k
    induction k with
    | zero => intro i u; rfl
    | succ k ih => intro i u; rw [txDataLoop, ih]; rfl
  cases hr : s.txRtr <;>
    simp [loadTxBuffer, transfer, beginTransaction, csLow, csHigh, endTransaction, hr, h]

/-- The tail of every terminating `endPacket`: it ends with the bit-modify that
clears the transmit flag and the final read of the control register of the slot,
whose answer decides the result. -/
theorem endPacket_tail (fuel : Nat) (s : MCP2515Class) (r : Nat) (s' : MCP2515Class)
    (h : endPacket fuel true s = some (r, s')) :
    s'.miso = s.miso
    ∧ (∃ rest, s'.log = (loadTxBuffer 0 s).log ++ rest)
    ∧ (∃ mid, s'.log = s.log ++ mid
        ++ txn [BIT_MODIFY, REG_CANINTF, 0x04, 0x00] ++ txn [READ, 0x30, 0x00])
    ∧ r = (if lastRead s' &&& 0x70 ≠ 0 then 0 else 1) := by
  simp only [endPacket, Bool.not_true, Bool.false_eq_true, if_false] at h
  cases hp : pollTxReq 0 fuel false (requestToSend 0 (loadTxBuffer 0 s)) with
  | none => simp [hp] at h
  | some p =>
    obtain ⟨a, s1⟩ := p
    obtain ⟨hm, rest, hrest⟩ := pollTxReq_frame _ _ _ _ _ _ hp
    rw [hp] at h
    obtain ⟨X, hl⟩ : ∃ X, (loadTxBuffer 0 s).log = s.log ++ txn X := ⟨_, loadTxBuffer_log s 0⟩
    have hm0 := loadTxBuffer_miso 0 s
    simp only [requestToSend_eq] at hrest hm
    cases a
    · simp only [readRegister_eq, modifyRegister_eq, Bool.false_eq_true, if_false,
        Option.some.injEq, Prod.mk.injEq] at h
      obtain ⟨hr, rfl⟩ := h
      refine ⟨by simp [hm, hm0], ⟨txn [(0x80 ||| (1 <<< 0)) % 256] ++ rest
          ++ txn [BIT_MODIFY, REG_CANINTF % 256, FLAG_TXnIF 0 % 256, 0x00 % 256]
          ++ txn [READ, REG_TXBnCTRL 0 % 256, 0], ?_⟩,
        ⟨txn X ++ txn [(0x80 ||| (1 <<< 0)) % 256] ++ rest, ?_⟩, ?_⟩
      · simp only [hrest, List.append_assoc]
      · simp [hrest, hl, REG_CANINTF, FLAG_TXnIF, REG_TXBnCTRL, BIT_MODIFY, READ]
      · rw [← hr]; simp [lastRead]
    · simp only [readRegister_eq, modifyRegister_eq, if_true,
        Option.some.injEq, Prod.mk.injEq] at h
      obtain ⟨hr, rfl⟩ := h
      refine ⟨by simp [hm, hm0], ⟨txn [(0x80 ||| (1 <<< 0)) % 256] ++ rest
          ++ txn [BIT_MODIFY, REG_CANCTRL % 256, 0x10 % 256, 0x00 % 256]
          ++ txn [BIT_MODIFY, REG_CANINTF % 256, FLAG_TXnIF 0 % 256, 0x00 % 256]
          ++ txn [READ, REG_TXBnCTRL 0 % 256, 0], ?_⟩,
        ⟨txn X ++ txn [(0x80 ||| (1 <<< 0)) % 256] ++ rest
          ++ txn [BIT_MODIFY, REG_CANCTRL % 256, 0x10 % 256, 0x00 % 256], ?_⟩, ?_⟩
      · simp only [hrest, List.append_assoc]
      · simp [hrest, hl, REG_CANINTF, FLAG_TXnIF, REG_TXBnCTRL, BIT_MODIFY, READ]
      · rw [← hr]; simp [lastRead]

theorem endPacket_log (fuel : Nat) (s : MCP2515Class) (r : Nat) (s' : MCP2515Class)
    (h : endPacket fuel true s = some (r, s')) :
    ∃ rest, s'.log = (loadTxBuffer 0 s).log ++ rest :=
  (endPacket_tail fuel s r s' h).2.1

theorem rxDataLoop_eq (k : Nat) : ∀ (i : Nat) (s : MCP2515Class),
    rxDataLoop k i s
      = { s with clock := s.clock + k,
                 log := s.log ++ List.replicate k (Event.transfer 0),
                 rxData := fun j =>
                   if i ≤ j ∧ j < i + k then s.miso (s.clock + (j - i)) % 256 else s.rxData j } := by
  induction k with
  | zero =>
    intro i s
    have h : (fun j => if i ≤ j ∧ j < i + 0 then s.miso (s.clock + (j - i)) % 256 else s.rxData j)
        = s.rxData := by
      funext j
      have h0 : ¬ (i ≤ j ∧ j < i + 0) := by omega
      rw [if_neg h0]
    rw [h]
    simp [rxDataLoop]
  | succ k ih =>
    intro i s
    rw [rxDataLoop]
    simp only [transfer, ih]
    simp only [mk.injEq, true_and, List.append_assoc, List.singleton_append,
      List.replicate_succ, and_true, Nat.zero_mod]
    refine ⟨by omega, ?_⟩
    funext j
    by_cases h1 : i + 1 ≤ j ∧ j < i + 1 + k
    · have h2 : i ≤ j ∧ j < i + (k + 1) := by omega
      rw [if_pos h1, if_pos h2]
      congr 2
      omega
    · rw [if_neg h1]
      by_cases h3 : j = i
      · subst h3
        simp
      · have h4 : ¬ (i ≤ j ∧ j < i + (k + 1)) := by omega
        rw [if_neg h4, Function.update_noteq h3]

theorem readRxBuffer_eq (n : Nat) (s : MCP2515Class) :
    readRxBuffer n s =
      (s.miso (s.clock + 5) % 256 &&& 0x0f,
       { s with
          clock := s.clock + 6
            + (if (if s.miso (s.clock + 2) % 256 &&& 0x08 ≠ 0
                    then s.miso (s.clock + 5) % 256 &&& 0x40 ≠ 0
                    else s.miso (s.clock + 2) % 256 &&& 0x10 ≠ 0) then 0
                else s.miso (s.clock + 5) % 256 &&& 0x0f) + 4,
          log := s.log
            ++ txn ((READ_RX_BUFFER ||| (n * 0x04)) % 256 :: 0 :: 0 :: 0 :: 0 :: 0 :: List.replicate
                (if (if s.miso (s.clock + 2) % 256 &&& 0x08 ≠ 0
                    then s.miso (s.clock + 5) % 256 &&& 0x40 ≠ 0
                    else s.miso (s.clock + 2) % 256 &&& 0x10 ≠ 0) then 0
                  else s.miso (s.clock + 5) % 256 &&& 0x0f) 0)
            ++ txn [BIT_MODIFY, REG_CANINTF, FLAG_RXnIF n % 256, 0],
          rxId := decodedId (s.miso (s.clock + 1) % 256) (s.miso (s.clock + 2) % 256)
            (s.miso (s.clock + 3) % 256) (s.miso (s.clock + 4) % 256),
          rxExtended := decide (s.miso (s.clock + 2) % 256 &&& 0x08 ≠ 0),
          rxRtr := decide (if s.miso (s.clock + 2) % 256 &&& 0x08 ≠ 0
                    then s.miso (s.clock + 5) % 256 &&& 0x40 ≠ 0
                    else s.miso (s.clock + 2) % 256 &&& 0x10 ≠ 0),
          rxDlc := s.miso (s.clock + 5) % 256 &&& 0x0f,
          rxIndex := 0,
          rxLength := (if (if s.miso (s.clock + 2) % 256 &&& 0x08 ≠ 0
                    then s.miso (s.clock + 5) % 256 &&& 0x40 ≠ 0
                    else s.miso (s.clock + 2) % 256 &&& 0x10 ≠ 0) then 0
                else s.miso (s.clock + 5) % 256 &&& 0x0f),
          rxData := fun j =>
            if j < (if (if s.miso (s.clock + 2) % 256 &&& 0x08 ≠ 0
                    then s.miso (s.clock + 5) % 256 &&& 0x40 ≠ 0
                    else s.miso (s.clock + 2) % 256 &&& 0x10 ≠ 0) then 0
                else s.miso (s.clock + 5) % 256 &&& 0x0f)
            then s.miso (s.clock + 6 + j) % 256 else s.rxData j }) := by
  by_cases he : s.miso (s.clock + 2) % 256 &&& 0x08 ≠ 0
  · by_cases hr : s.miso (s.clock + 5) % 256 &&& 0x40 ≠ 0
    · simp [readRxBuffer, clearRxInterruptFlag, modifyRegister_eq, transfer, beginTransaction,
        csLow, csHigh, endTransaction, rxDataLoop_eq, decodedId, txn, he, hr,
        FLAG_IDE, FLAG_RTR, FLAG_SRR, BIT_MODIFY, REG_CANINTF, List.replicate_succ]
    · simp [readRxBuffer, clearRxInterruptFlag, modifyRegister_eq, transfer, beginTransaction,
        csLow, csHigh, endTransaction, rxDataLoop_eq, decodedId, txn, he, hr,
        FLAG_IDE, FLAG_RTR, FLAG_SRR, BIT_MODIFY, REG_CANINTF, List.replicate_succ]
  · by_cases hr : s.miso (s.clock + 2) % 256 &&& 0x10 ≠ 0
    · simp [readRxBuffer, clearRxInterruptFlag, modifyRegister_eq, transfer, beginTransaction,
        csLow, csHigh, endTransaction, rxDataLoop_eq, decodedId, txn, he, hr,
        FLAG_IDE, FLAG_RTR, FLAG_SRR, BIT_MODIFY, REG_CANINTF, List.replicate_succ]
    · simp [readRxBuffer, clearRxInterruptFlag, modifyRegister_eq, transfer, beginTransaction,
        csLow, csHigh, endTransaction, rxDataLoop_eq, decodedId, txn, he, hr,
        FLAG_IDE, FLAG_RTR, FLAG_SRR, BIT_MODIFY, REG_CANINTF, List.replicate_succ]

theorem toLong_of_lt (u : Nat) (h : u < 2 ^ 31) : toLong u = (u : Int) := by
  have h1 : u % 2 ^ 32 = u := Nat.mod_eq_of_lt (by omega)
  unfold toLong
  rw [h1, if_pos h]

/-- The 11-bit part of a decoded id, as arithmetic. -/
theorem idA_eq (sidh sidl : Nat) (hl : sidl < 256) :
    (sidh <<< 3) ||| (sidl >>> 5) = sidh * 8 + sidl / 32 := by
  rw [Nat.shiftLeft_eq, Nat.shiftRight_eq_div_pow]
  exact or_eq_add_of_dvd (i := 3) ⟨sidh, by ring⟩ (by norm_num; omega)

/-- The 18-bit part of a decoded extended id, as arithmetic. -/
theorem idB_eq (sidl eid8 eid0 : Nat) (h8 : eid8 < 256) (h0 : eid0 < 256) :
    ((sidl &&& 0x03) <<< 16) ||| (eid8 <<< 8) ||| eid0
      = (sidl % 4) * 65536 + eid8 * 256 + eid0 := by
  rw [and_3, Nat.shiftLeft_eq, Nat.shiftLeft_eq]
  have h1 : (sidl % 4) * 2 ^ 16 ||| eid8 * 2 ^ 8 = (sidl % 4) * 2 ^ 16 + eid8 * 2 ^ 8 :=
    or_eq_add_of_dvd (i := 16) ⟨sidl % 4, by ring⟩ (by norm_num; omega)
  rw [h1]
  have h2 : (sidl % 4) * 2 ^ 16 + eid8 * 2 ^ 8 ||| eid0
      = (sidl % 4) * 2 ^ 16 + eid8 * 2 ^ 8 + eid0 :=
    or_eq_add_of_dvd (i := 8) ⟨(sidl % 4) * 256 + eid8, by ring⟩ (by norm_num; omega)
  rw [h2]
  norm_num

/-- A decoded extended id as arithmetic: the 11-bit and the 18-bit part do not
overlap. -/
theorem idAB_eq (sidh sidl eid8 eid0 : Nat) (hl : sidl < 256)
    (h8 : eid8 < 256) (h0 : eid0 < 256) :
    (((sidh <<< 3) ||| (sidl >>> 5)) <<< 18)
        ||| (((sidl &&& 0x03) <<< 16) ||| (eid8 <<< 8) ||| eid0)
      = (sidh * 8 + sidl / 32) * 262144 + ((sidl % 4) * 65536 + eid8 * 256 + eid0) := by
  rw [idA_eq sidh sidl hl, idB_eq sidl eid8 eid0 h8 h0, Nat.shiftLeft_eq]
  exact or_eq_add_of_dvd (i := 18) ⟨sidh * 8 + sidl / 32, by ring⟩ (by norm_num; omega)

theorem decodedId_standard (sidh sidl eid8 eid0 : Nat) (hh : sidh < 256) (hl : sidl < 256)
    (he : ¬ sidl &&& 0x08 ≠ 0) :
    decodedId sidh sidl eid8 eid0 = (((sidh <<< 3) ||| (sidl >>> 5) : Nat) : Int) := by
  have hA := idA_eq sidh sidl hl
  have h1 : ((sidh <<< 3) ||| (sidl >>> 5)) % 2 ^ 32 = (sidh <<< 3) ||| (sidl >>> 5) :=
    Nat.mod_eq_of_lt (by rw [hA]; omega)
  rw [decodedId, if_neg he, h1, toLong_of_lt _ (by rw [hA]; omega)]

theorem decodedId_extended (sidh sidl eid8 eid0 : Nat) (hh : sidh < 256) (hl : sidl < 256)
    (h8 : eid8 < 256) (h0 : eid0 < 256) (he : sidl &&& 0x08 ≠ 0) :
    decodedId sidh sidl eid8 eid0
      = ((((((sidh <<< 3) ||| (sidl >>> 5)) <<< 18)
          ||| (((sidl &&& 0x03) <<< 16) ||| (eid8 <<< 8) ||| eid0) : Nat)) : Int) := by
  have hA := idA_eq sidh sidl hl
  have hB := idB_eq sidl eid8 eid0 h8 h0
  have hAB := idAB_eq sidh sidl eid8 eid0 hl h8 h0
  have h1 : ((sidh <<< 3) ||| (sidl >>> 5)) % 2 ^ 32 = (sidh <<< 3) ||| (sidl >>> 5) :=
    Nat.mod_eq_of_lt (by rw [hA]; omega)
  have h2 : (((sidh <<< 3) ||| (sidl >>> 5)) <<< 18) % 2 ^ 32
      = ((sidh <<< 3) ||| (sidl >>> 5)) <<< 18 :=
    Nat.mod_eq_of_lt (by rw [hA, Nat.shiftLeft_eq]; omega)
  have h3 : ((sidl &&& 0x03) <<< 16) % 2 ^ 32 = (sidl &&& 0x03) <<< 16 :=
    Nat.mod_eq_of_lt (by rw [and_3, Nat.shiftLeft_eq]; omega)
  have h4 : (eid8 <<< 8) % 2 ^ 32 = eid8 <<< 8 :=
    Nat.mod_eq_of_lt (by rw [Nat.shiftLeft_eq]; omega)
  have h5 : (((sidl &&& 0x03) <<< 16) ||| (eid8 <<< 8) ||| eid0) % 2 ^ 32
      = ((sidl &&& 0x03) <<< 16) ||| (eid8 <<< 8) ||| eid0 :=
    Nat.mod_eq_of_lt (by rw [hB]; omega)
  rw [decodedId, if_pos he, h1, h2, h3, h4, h5, toLong_of_lt _ (by rw [hAB]; omega)]

/-! ## The receive sequence in terms of the bytes on the wire -/

theorem mosiBytes_txn (bytes : List Nat) : mosiBytes (txn bytes) = bytes := by
  have h : ∀ (l : List Nat) (tl : List Event),
      mosiBytes (l.map Event.transfer ++ tl) = l ++ mosiBytes tl := by
    intro l tl
    induction l with
    | nil => simp
    | cons b l ih => simp [mosiBytes, ih]
  simp [txn, mosiBytes, h]

theorem txWire_eq (s : MCP2515Class) :
    txWire s =
      [if s.txExtended then (s.txId >>> 21) % 256 else (s.txId >>> 3) % 256,
        if s.txExtended then
          ((((s.txId >>> 18) &&& 0x07) <<< 5) ||| 0x08 ||| ((s.txId >>> 16) &&& 0x03)) % 256
        else (s.txId <<< 5) % 256,
        if s.txExtended then ((s.txId >>> 8) &&& 0xff) % 256 else 0,
        if s.txExtended then (s.txId &&& 0xff) % 256 else 0,
        if s.txRtr then (0x40 ||| s.txLength) % 256 else s.txLength % 256]
        ++ (if s.txRtr then [] else txPayload s) := by
  rw [txWire, loadTxBuffer_log, List.drop_left, mosiBytes_txn]
  rfl

theorem parsePacket_pending (s : MCP2515Class)
    (h : statusByte s &&& 0x40 ≠ 0 ∨ statusByte s &&& 0x80 ≠ 0) :
    parsePacket s
      = readRxBuffer (if statusByte s &&& 0x40 ≠ 0 then 0 else 1)
          { s with clock := s.clock + 2, log := s.log ++ txn [RX_STATUS, 0] } := by
  by_cases h0 : statusByte s &&& 0x40 ≠ 0
  · simp only [statusByte] at h0
    simp [parsePacket, statusByte, transfer, beginTransaction, csLow, csHigh, endTransaction,
      txn, h0, RX_STATUS]
  · have h1 : statusByte s &&& 0x80 ≠ 0 := h.resolve_left h0
    simp only [statusByte] at h0 h1
    simp [parsePacket, statusByte, transfer, beginTransaction, csLow, csHigh, endTransaction,
      txn, h0, h1, RX_STATUS]

theorem parsePacket_idle (s : MCP2515Class)
    (h0 : statusByte s &&& 0x40 = 0) (h1 : statusByte s &&& 0x80 = 0) :
    parsePacket s
      = (0, { s with clock := s.clock + 2, log := s.log ++ txn [RX_STATUS, 0],
                     rxId := -1, rxExtended := false, rxRtr := false, rxDlc := 0,
                     rxIndex := 0, rxLength := 0 }) := by
  simp only [statusByte] at h0 h1
  simp [parsePacket, transfer, beginTransaction, csLow, csHigh, endTransaction,
    txn, h0, h1, RX_STATUS]

theorem parsePacket_fst (s : MCP2515Class)
    (h : statusByte s &&& 0x40 ≠ 0 ∨ statusByte s &&& 0x80 ≠ 0) :
    (parsePacket s).1 = rxWire s 4 &&& 0x0f := by
  rw [parsePacket_pending s h, readRxBuffer_eq]
  simp [rxWire, Nat.add_assoc]

theorem parsePacket_rxDlc (s : MCP2515Class)
    (h : statusByte s &&& 0x40 ≠ 0 ∨ statusByte s &&& 0x80 ≠ 0) :
    (parsePacket s).2.rxDlc = rxWire s 4 &&& 0x0f := by
  rw [parsePacket_pending s h, readRxBuffer_eq]
  simp [rxWire, Nat.add_assoc]

theorem parsePacket_rxExtended (s : MCP2515Class)
    (h : statusByte s &&& 0x40 ≠ 0 ∨ statusByte s &&& 0x80 ≠ 0) :
    (parsePacket s).2.rxExtended = decide (rxWire s 1 &&& 0x08 ≠ 0) := by
  rw [parsePacket_pending s h, readRxBuffer_eq]
  simp [rxWire, Nat.add_assoc]

theorem parsePacket_rxRtr (s : MCP2515Class)
    (h : statusByte s &&& 0x40 ≠ 0 ∨ statusByte s &&& 0x80 ≠ 0) :
    (parsePacket s).2.rxRtr
      = decide (if rxWire s 1 &&& 0x08 ≠ 0 then rxWire s 4 &&& 0x40 ≠ 0
          else rxWire s 1 &&& 0x10 ≠ 0) := by
  rw [parsePacket_pending s h, readRxBuffer_eq]
  simp [rxWire, Nat.add_assoc]

theorem parsePacket_rxId (s : MCP2515Class)
    (h : statusByte s &&& 0x40 ≠ 0 ∨ statusByte s &&& 0x80 ≠ 0) :
    (parsePacket s).2.rxId
      = decodedId (rxWire s 0) (rxWire s 1) (rxWire s 2) (rxWire s 3) := by
  rw [parsePacket_pending s h, readRxBuffer_eq]
  simp [rxWire, Nat.add_assoc]

theorem parsePacket_rxLength (s : MCP2515Class)
    (h : statusByte s &&& 0x40 ≠ 0 ∨ statusByte s &&& 0x80 ≠ 0) :
    (parsePacket s).2.rxLength
      = if (parsePacket s).2.rxRtr then 0 else rxWire s 4 &&& 0x0f := by
  rw [parsePacket_rxRtr s h, parsePacket_pending s h, readRxBuffer_eq]
  simp [rxWire, Nat.add_assoc]

theorem parsePacket_rxData (s : MCP2515Class)
    (h : statusByte s &&& 0x40 ≠ 0 ∨ statusByte s &&& 0x80 ≠ 0) (j : Nat) :
    (parsePacket s).2.rxData j
      = if j < (parsePacket s).2.rxLength then rxWire s (5 + j) else s.rxData j := by
  have e : 3 + (5 + j) = 8 + j := by omega
  rw [parsePacket_rxLength s h, parsePacket_rxRtr s h, parsePacket_pending s h, readRxBuffer_eq]
  simp [rxWire, Nat.add_assoc, e]

theorem parsePacket_log (s : MCP2515Class)
    (h : statusByte s &&& 0x40 ≠ 0 ∨ statusByte s &&& 0x80 ≠ 0) :
    (parsePacket s).2.log
      = s.log ++ txn [RX_STATUS, 0x00]
          ++ txn ((if statusByte s &&& 0x40 ≠ 0 then 0x90 else 0x94)
              :: 0 :: 0 :: 0 :: 0 :: 0 :: List.replicate (parsePacket s).2.rxLength 0)
          ++ txn [BIT_MODIFY, REG_CANINTF,
              if statusByte s &&& 0x40 ≠ 0 then 0x01 else 0x02, 0x00] := by
  rw [parsePacket_rxLength s h, parsePacket_rxRtr s h, parsePacket_pending s h, readRxBuffer_eq]
  by_cases h0 : statusByte s &&& 0x40 ≠ 0
  · simp [rxWire, Nat.add_assoc, h0, READ_RX_BUFFER, FLAG_RXnIF]
  · simp [rxWire, Nat.add_assoc, h0, READ_RX_BUFFER, FLAG_RXnIF]

/-- A pending frame that is a remote request or has DLC & 0x0F at most 8 makes
the payload loop store at most 8 bytes, none of them past the end of
`_rxData`. -/
theorem parsePacket_in_bounds (s : MCP2515Class)
    (h : statusByte s &&& 0x40 ≠ 0 ∨ statusByte s &&& 0x80 ≠ 0)
    (hsafe : (parsePacket s).2.rxRtr = true ∨ rxWire s 4 &&& 0x0F ≤ 8) :
    (parsePacket s).2.rxLength ≤ 8
    ∧ ∀ j, 8 ≤ j → (parsePacket s).2.rxData j = s.rxData j := by
  have hl : (parsePacket s).2.rxLength ≤ 8 := by
    rw [parsePacket_rxLength s h]
    rcases hsafe with hr | hd
    · rw [hr]; simp
    · split
      · omega
      · exact hd
  refine ⟨hl, fun j hj => ?_⟩
  rw [parsePacket_rxData s h j, if_neg (by omega)]

/-- For a pending frame, the payload loop stores at most 8 bytes exactly when
the frame is a remote request or has DLC & 0x0F at most 8. -/
theorem parsePacket_rxLength_le_iff (s : MCP2515Class)
    (h : statusByte s &&& 0x40 ≠ 0 ∨ statusByte s &&& 0x80 ≠ 0) :
    (parsePacket s).2.rxLength ≤ 8
      ↔ ((parsePacket s).2.rxRtr = true ∨ rxWire s 4 &&& 0x0F ≤ 8) := by
  refine ⟨fun hl => ?_, fun hfit => (parsePacket_in_bounds s h hfit).1⟩
  rw [parsePacket_rxLength s h] at hl
  cases hr : (parsePacket s).2.rxRtr
  · rw [hr] at hl
    exact Or.inr (by simpa using hl)
  · exact Or.inl rfl

/-! ## Decoding what the encoder produced -/

theorem and_two_pow_eq_zero (x i : Nat) : x &&& 2 ^ i = 0 ↔ x / 2 ^ i % 2 = 0 := by
  constructor
  · intro h
    have h1 : (x &&& 2 ^ i).testBit i = false := by rw [h]; simp
    rw [Nat.testBit_and, Nat.testBit_two_pow_self, Bool.and_true, Nat.testBit_to_div_mod] at h1
    have := of_decide_eq_false h1
    omega
  · intro h
    apply Nat.eq_of_testBit_eq
    intro j
    rw [Nat.testBit_and, Nat.testBit_two_pow, Nat.zero_testBit]
    by_cases hij : i = j
    · subst hij; simp [Nat.testBit_to_div_mod, h]
    · simp [hij]

theorem and_8 (x : Nat) : x &&& 8 = 0 ↔ x / 8 % 2 = 0 := and_two_pow_eq_zero x 3
theorem and_16 (x : Nat) : x &&& 16 = 0 ↔ x / 16 % 2 = 0 := and_two_pow_eq_zero x 4
theorem and_64 (x : Nat) : x &&& 64 = 0 ↔ x / 64 % 2 = 0 := and_two_pow_eq_zero x 6

/-- The extended SIDL byte the encoder computes, as arithmetic. -/
theorem encode_sidl_extended (id : Nat) :
    ((((id >>> 18) &&& 0x07) <<< 5) ||| 0x08 ||| ((id >>> 16) &&& 0x03)) % 256
      = (id / 262144 % 8) * 32 + 8 + id / 65536 % 4 := by
  have hb : (id / 2 ^ 16) % 4 < 4 := Nat.mod_lt _ (by norm_num)
  simp only [Nat.shiftRight_eq_div_pow, and_7, and_3]
  rw [sidl_or_eq_add _ _ hb]
  norm_num
  omega

/-- Decoding the header of an encoded extended frame. -/
theorem decode_encoded_extended (id : Nat) (h : id < 2 ^ 29) :
    ((((id >>> 18) &&& 0x07) <<< 5) ||| 0x08 ||| ((id >>> 16) &&& 0x03)) % 256 &&& 0x08 ≠ 0
    ∧ decodedId ((id >>> 21) % 256)
        (((((id >>> 18) &&& 0x07) <<< 5) ||| 0x08 ||| ((id >>> 16) &&& 0x03)) % 256)
        (((id >>> 8) &&& 0xff) % 256) ((id &&& 0xff) % 256) = (id : Int) := by
  have hbit : ((((id >>> 18) &&& 0x07) <<< 5) ||| 0x08 ||| ((id >>> 16) &&& 0x03)) % 256
      &&& 0x08 ≠ 0 := by
    rw [Ne, and_8, encode_sidl_extended]
    omega
  refine ⟨hbit, ?_⟩
  rw [decodedId_extended _ _ _ _ (Nat.mod_lt _ (by norm_num)) (Nat.mod_lt _ (by norm_num))
    (Nat.mod_lt _ (by norm_num)) (Nat.mod_lt _ (by norm_num)) hbit]
  rw [idAB_eq _ _ _ _ (Nat.mod_lt _ (by norm_num)) (Nat.mod_lt _ (by norm_num))
    (Nat.mod_lt _ (by norm_num))]
  rw [encode_sidl_extended]
  simp only [Nat.shiftRight_eq_div_pow, and_255]
  norm_num
  omega

/-- Decoding the header of an encoded standard frame. -/
theorem decode_encoded_standard (id : Nat) (h : id < 2 ^ 11) (eid8 eid0 : Nat) :
    (id <<< 5) % 256 &&& 0x08 = 0 ∧ (id <<< 5) % 256 &&& 0x10 = 0
    ∧ decodedId ((id >>> 3) % 256) ((id <<< 5) % 256) eid8 eid0 = (id : Int) := by
  have h8 : (id <<< 5) % 256 &&& 0x08 = 0 := by
    rw [and_8, Nat.shiftLeft_eq]; omega
  have h16 : (id <<< 5) % 256 &&& 0x10 = 0 := by
    rw [and_16, Nat.shiftLeft_eq]; omega
  refine ⟨h8, h16, ?_⟩
  rw [decodedId_standard _ _ _ _ (Nat.mod_lt _ (by norm_num)) (Nat.mod_lt _ (by norm_num))
    (by simp [h8])]
  rw [idA_eq _ _ (Nat.mod_lt _ (by norm_num))]
  simp only [Nat.shiftRight_eq_div_pow, Nat.shiftLeft_eq]
  norm_num
  omega

/-- Decoding the DLC byte of an encoded frame. -/
theorem decode_encoded_dlc (length : Nat) (h : length ≤ 8) :
    (0x40 ||| length) % 256 &&& 0x0f = length ∧ (0x40 ||| length) % 256 &&& 0x40 ≠ 0
    ∧ length % 256 &&& 0x0f = length ∧ length % 256 &&& 0x40 = 0 := by
  have e : 0x40 ||| length = 0x40 + length :=
    or_eq_add_of_dvd (i := 6) ⟨1, by norm_num⟩ (by norm_num; omega)
  rw [e]
  refine ⟨?_, ?_, ?_, ?_⟩
  · rw [and_15]; omega
  · rw [Ne, and_64]; omega
  · rw [and_15]; omega
  · rw [and_64]; omega

theorem txWire_length (t : MCP2515Class) : 5 ≤ (txWire t).length := by
  rw [txWire_eq]
  simp

/-- Decoding the five header bytes `endPacket` encodes. -/
theorem roundtrip_header (t r : MCP2515Class)
    (hid : t.txId < (if t.txExtended then 2 ^ 29 else 2 ^ 11)) (hlen : t.txLength ≤ 8)
    (hp : statusByte r &&& 0x40 ≠ 0 ∨ statusByte r &&& 0x80 ≠ 0)
    (hw : ∀ k, k < 5 → rxWire r k = (txWire t).getD k 0) :
    (parsePacket r).2.rxId = (t.txId : Int)
    ∧ (parsePacket r).2.rxExtended = t.txExtended
    ∧ (parsePacket r).2.rxRtr = (t.txExtended && t.txRtr)
    ∧ (parsePacket r).2.rxDlc = t.txLength
    ∧ (parsePacket r).1 = t.txLength := by
  have w0 := hw 0 (by omega)
  have w1 := hw 1 (by omega)
  have w2 := hw 2 (by omega)
  have w3 := hw 3 (by omega)
  have w4 := hw 4 (by omega)
  rw [txWire_eq] at w0 w1 w2 w3 w4
  simp only [List.cons_append, List.getD_cons_zero, List.getD_cons_succ] at w0 w1 w2 w3 w4
  obtain ⟨d1, d2, d3, d4⟩ := decode_encoded_dlc t.txLength hlen
  rw [parsePacket_rxId r hp, parsePacket_rxExtended r hp, parsePacket_rxRtr r hp,
    parsePacket_rxDlc r hp, parsePacket_fst r hp, w0, w1, w2, w3, w4]
  cases he : t.txExtended
  · rw [he] at hid
    obtain ⟨s1, s2, s3⟩ := decode_encoded_standard t.txId (by simpa using hid) 0 0
    cases hr : t.txRtr <;> simp [s1, s2, s3, d1, d3]
  · rw [he] at hid
    obtain ⟨e1, e2⟩ := decode_encoded_extended t.txId (by simpa using hid)
    cases hr : t.txRtr
    · simp only [if_true, e2, Bool.false_eq_true, if_false, d3, d4]
      simp [e1]
    · simp only [if_true, e2, d1]
      simp [e1, d2]

/-- Decoding the payload bytes `endPacket` sends for a data frame. -/
theorem roundtrip_payload (t r : MCP2515Class)
    (hid : t.txId < (if t.txExtended then 2 ^ 29 else 2 ^ 11)) (hlen : t.txLength ≤ 8)
    (hrtr : t.txRtr = false)
    (hp : statusByte r &&& 0x40 ≠ 0 ∨ statusByte r &&& 0x80 ≠ 0)
    (hw : ∀ k, k < (txWire t).length → rxWire r k = (txWire t).getD k 0) :
    rxPayload (parsePacket r).2 = txPayload t := by
  obtain ⟨-, -, h3, h4, -⟩ := roundtrip_header t r hid hlen hp
    (fun k hk => hw k (by have := txWire_length t; omega))
  have hl : (parsePacket r).2.rxLength = t.txLength := by
    rw [parsePacket_rxLength r hp, h3, hrtr, ← parsePacket_rxDlc r hp, h4]
    simp
  rw [rxPayload, txPayload, hl]
  apply List.map_congr_left
  intro j hj
  have hj' : j < t.txLength := List.mem_range.mp hj
  have hwj := hw (5 + j) (by rw [txWire_eq, hrtr]; simp [txPayload]; omega)
  rw [parsePacket_rxData r hp j, hl, if_pos hj', hwj, txWire_eq, hrtr]
  simp [txPayload, List.getD_eq_getElem?_getD, hj', Nat.add_comm 5 j]

/-! ## The transmit encoder -/

/-- C2: for every frame with length at most 8 (and every id, in particular
every id in range) the LOAD TX BUFFER transaction of `endPacket` shifts out
`[0x40, SIDH, SIDL, EID8, EID0, DLC]` of the reference layout, followed by the
first `length` payload bytes exactly when the frame is not a remote request;
and the bus log of every terminating `endPacket` starts with that transaction. -/
theorem endPacket_load_layout (s : MCP2515Class) (hlen : s.txLength ≤ 8) :
    (loadTxBuffer 0 s).log
        = s.log ++ txn ([0x40, layoutSIDH s.txId s.txExtended, layoutSIDL s.txId s.txExtended,
            layoutEID8 s.txId s.txExtended, layoutEID0 s.txId s.txExtended,
            layoutDLC s.txRtr s.txLength]
            ++ (if s.txRtr then [] else txPayload s))
      ∧ ∀ (fuel r : Nat) (s' : MCP2515Class), endPacket fuel true s = some (r, s') →
          ∃ rest, s'.log = (loadTxBuffer 0 s).log ++ rest := by
  refine ⟨?_, fun fuel r s' h => endPacket_log fuel s r s' h⟩
  rw [loadTxBuffer_log, encode_dlc s.txRtr s.txLength hlen]
  cases he : s.txExtended
  · simp [layoutSIDH, layoutSIDL, layoutEID8, layoutEID0, (encode_standard s.txId).1,
      (encode_standard s.txId).2]
  · obtain ⟨h1, h2, h3, h4⟩ := encode_extended s.txId
    simp only [if_true, layoutSIDH, layoutSIDL, layoutEID8, layoutEID0, h1, h2, h3, h4]
    simp

/-- C2, at the extended data frame id 0x1ABCDEF9 with payload 1, 2, 3. -/
theorem endPacket_load_layout_witness :
    (sending 0x1ABCDEF9 true false [1, 2, 3] 3).txLength ≤ 8
      ∧ (loadTxBuffer 0 (sending 0x1ABCDEF9 true false [1, 2, 3] 3)).log
          = txn [0x40, 0xD5, 0xE8, 0xDE, 0xF9, 0x03, 1, 2, 3] :=
  ⟨by decide, by
    have h := (endPacket_load_layout (sending 0x1ABCDEF9 true false [1, 2, 3] 3) (by decide)).1
    rw [h]
    decide⟩

/-! ## The receive decoder -/

/-- C3: for a pending frame whose payload fits the receive buffer (a remote
request, or DLC & 0x0F at most 8), the decoded fields are functions of the five
header bytes alone: extended is the IDE bit (0x08) of SIDL; remote-request is
the SRR bit (0x10) of SIDL for a standard frame and the RTR bit (0x40) of DLC
for an extended frame; the length (the stored DLC and the returned value) is
DLC & 0x0F whatever the remote-request flag; the id is
(SIDH << 3) | (SIDL >> 5) for a standard frame, and that value shifted left by
18 or-ed with ((SIDL & 0x03) << 16) | (EID8 << 8) | EID0 for an extended one;
and the payload loop stores at most 8 bytes, none past the end of `_rxData`.
A data frame with DLC & 0x0F in 9..15 is left out: there the payload loop of
the source stores past the end of `_rxData` and the state after the call is
not defined. -/
theorem parsePacket_self_describing (s : MCP2515Class)
    (h : statusByte s &&& 0x40 ≠ 0 ∨ statusByte s &&& 0x80 ≠ 0)
    (hfit : (parsePacket s).2.rxRtr = true ∨ rxWire s 4 &&& 0x0F ≤ 8) :
    ((parsePacket s).2.rxExtended = true ↔ rxWire s 1 &&& 0x08 ≠ 0)
    ∧ ((parsePacket s).2.rxExtended = false →
        ((parsePacket s).2.rxRtr = true ↔ rxWire s 1 &&& 0x10 ≠ 0))
    ∧ ((parsePacket s).2.rxExtended = true →
        ((parsePacket s).2.rxRtr = true ↔ rxWire s 4 &&& 0x40 ≠ 0))
    ∧ (parsePacket s).2.rxDlc = rxWire s 4 &&& 0x0F
    ∧ (parsePacket s).1 = rxWire s 4 &&& 0x0F
    ∧ ((parsePacket s).2.rxExtended = false →
        (parsePacket s).2.rxId = (((rxWire s 0 <<< 3) ||| (rxWire s 1 >>> 5) : Nat) : Int))
    ∧ ((parsePacket s).2.rxExtended = true →
        (parsePacket s).2.rxId
          = (((((rxWire s 0 <<< 3) ||| (rxWire s 1 >>> 5)) <<< 18)
              ||| (((rxWire s 1 &&& 0x03) <<< 16) ||| (rxWire s 2 <<< 8) ||| rxWire s 3)
                : Nat) : Int))
    ∧ (parsePacket s).2.rxLength ≤ 8
    ∧ (∀ j, 8 ≤ j → (parsePacket s).2.rxData j = s.rxData j) := by
  have b0 : rxWire s 0 < 256 := Nat.mod_lt _ (by norm_num)
  have b1 : rxWire s 1 < 256 := Nat.mod_lt _ (by norm_num)
  have b2 : rxWire s 2 < 256 := Nat.mod_lt _ (by norm_num)
  have b3 : rxWire s 3 < 256 := Nat.mod_lt _ (by norm_num)
  obtain ⟨hl, hd⟩ := parsePacket_in_bounds s h hfit
  refine ⟨?_, ?_, ?_, parsePacket_rxDlc s h, parsePacket_fst s h, ?_, ?_, hl, hd⟩
  · rw [parsePacket_rxExtended s h]
    simp
  · rw [parsePacket_rxExtended s h, parsePacket_rxRtr s h]
    intro he
    have he' : rxWire s 1 &&& 0x08 = 0 := by simpa using he
    simp [he']
  · rw [parsePacket_rxExtended s h, parsePacket_rxRtr s h]
    intro he
    have he' : rxWire s 1 &&& 0x08 ≠ 0 := by simpa using he
    simp [he']
  · rw [parsePacket_rxExtended s h, parsePacket_rxId s h]
    intro he
    have he' : ¬ rxWire s 1 &&& 0x08 ≠ 0 := by simpa using he
    exact decodedId_standard _ _ _ _ b0 b1 he'
  · rw [parsePacket_rxExtended s h, parsePacket_rxId s h]
    intro he
    have he' : rxWire s 1 &&& 0x08 ≠ 0 := by simpa using he
    exact decodedId_extended _ _ _ _ b0 b1 b2 b3 he'

/-- C3, at an extended remote-request header read from buffer 0. -/
theorem parsePacket_self_describing_witness :
    (statusByte (receiving 0x40 [0xD5, 0xE8, 0xDE, 0xF9, 0x43]) &&& 0x40 ≠ 0
      ∨ statusByte (receiving 0x40 [0xD5, 0xE8, 0xDE, 0xF9, 0x43]) &&& 0x80 ≠ 0)
    ∧ ((parsePacket (receiving 0x40 [0xD5, 0xE8, 0xDE, 0xF9, 0x43])).2.rxRtr = true
      ∨ rxWire (receiving 0x40 [0xD5, 0xE8, 0xDE, 0xF9, 0x43]) 4 &&& 0x0F ≤ 8)
    ∧ (parsePacket (receiving 0x40 [0xD5, 0xE8, 0xDE, 0xF9, 0x43])).2.rxDlc
        = rxWire (receiving 0x40 [0xD5, 0xE8, 0xDE, 0xF9, 0x43]) 4 &&& 0x0F :=
  ⟨by decide, by decide,
   (parsePacket_self_describing (receiving 0x40 [0xD5, 0xE8, 0xDE, 0xF9, 0x43])
      (by decide) (by decide)).2.2.2.1⟩

/-- C6: when the decoded remote-request flag is set, `parsePacket` reads no
payload byte (the READ RX BUFFER transaction has the opcode and the five header
transfers only, the receive buffer is untouched, the available length is 0),
while the stored and the returned DLC are DLC & 0x0F. -/
theorem parsePacket_remote_no_payload (s : MCP2515Class)
    (h : statusByte s &&& 0x40 ≠ 0 ∨ statusByte s &&& 0x80 ≠ 0)
    (hr : (parsePacket s).2.rxRtr = true) :
    (parsePacket s).2.rxLength = 0
    ∧ rxPayload (parsePacket s).2 = []
    ∧ (parsePacket s).2.rxData = s.rxData
    ∧ (parsePacket s).2.log
        = s.log ++ txn [RX_STATUS, 0x00]
            ++ txn [if statusByte s &&& 0x40 ≠ 0 then 0x90 else 0x94, 0, 0, 0, 0, 0]
            ++ txn [BIT_MODIFY, REG_CANINTF,
                if statusByte s &&& 0x40 ≠ 0 then 0x01 else 0x02, 0x00]
    ∧ (parsePacket s).2.rxDlc = rxWire s 4 &&& 0x0F
    ∧ (parsePacket s).1 = rxWire s 4 &&& 0x0F := by
  have hl : (parsePacket s).2.rxLength = 0 := by
    rw [parsePacket_rxLength s h, hr]
    rfl
  refine ⟨hl, ?_, ?_, ?_, parsePacket_rxDlc s h, parsePacket_fst s h⟩
  · simp [rxPayload, hl]
  · funext j
    rw [parsePacket_rxData s h j, hl]
    simp
  · rw [parsePacket_log s h, hl]
    rfl

/-- C6, at an extended remote-request frame with DLC 3. -/
theorem parsePacket_remote_no_payload_witness :
    (parsePacket (receiving 0x80 [0xD5, 0xE8, 0xDE, 0xF9, 0x43, 0xAA, 0xBB, 0xCC])).2.rxRtr = true
    ∧ (parsePacket (receiving 0x80 [0xD5, 0xE8, 0xDE, 0xF9, 0x43, 0xAA, 0xBB, 0xCC])).2.rxLength = 0
    ∧ (parsePacket (receiving 0x80 [0xD5, 0xE8, 0xDE, 0xF9, 0x43, 0xAA, 0xBB, 0xCC])).1 = 3 :=
  ⟨by decide,
   (parsePacket_remote_no_payload
      (receiving 0x80 [0xD5, 0xE8, 0xDE, 0xF9, 0x43, 0xAA, 0xBB, 0xCC])
      (by decide) (by decide)).1,
   by decide⟩

/-- C7: when both pending bits are set and the payload of the frame in buffer
0 fits the receive buffer (a remote request, or DLC & 0x0F at most 8),
`parsePacket` reads buffer 0 (opcode 0x90), with at most 8 payload transfers,
and the only other transaction it adds after the status poll is the bit-modify
of CANINTF (0x2C) with mask 0x01 and value 0x00; the mask does not select the
receive flag of buffer 1 (0x02).  A data frame with DLC & 0x0F in 9..15 is
left out: there the payload loop of the source stores past the end of
`_rxData` and what the call does after that is not defined. -/
theorem parsePacket_buffer0_first (s : MCP2515Class)
    (h : statusByte s &&& 0x40 ≠ 0 ∧ statusByte s &&& 0x80 ≠ 0)
    (hfit : (parsePacket s).2.rxRtr = true ∨ rxWire s 4 &&& 0x0F ≤ 8) :
    (parsePacket s).2.log
        = s.log ++ txn [0xB0, 0x00]
            ++ txn (0x90 :: 0 :: 0 :: 0 :: 0 :: 0
                :: List.replicate (parsePacket s).2.rxLength 0)
            ++ txn [0x05, 0x2C, 0x01, 0x00]
    ∧ (parsePacket s).2.rxLength ≤ 8
    ∧ FLAG_RXnIF 0 = 0x01 ∧ FLAG_RXnIF 1 = 0x02 ∧ FLAG_RXnIF 0 &&& FLAG_RXnIF 1 = 0 := by
  refine ⟨?_, (parsePacket_in_bounds s (Or.inl h.1) hfit).1, by decide, by decide, by decide⟩
  rw [parsePacket_log s (Or.inl h.1), if_pos h.1, if_pos h.1]
  rfl

/-- C7, at a status byte with both pending bits set. -/
theorem parsePacket_buffer0_first_witness :
    (statusByte (receiving 0xC0 [0x24, 0x60, 0, 0, 0x02, 0x11, 0x22]) &&& 0x40 ≠ 0
      ∧ statusByte (receiving 0xC0 [0x24, 0x60, 0, 0, 0x02, 0x11, 0x22]) &&& 0x80 ≠ 0)
    ∧ ((parsePacket (receiving 0xC0 [0x24, 0x60, 0, 0, 0x02, 0x11, 0x22])).2.rxRtr = true
      ∨ rxWire (receiving 0xC0 [0x24, 0x60, 0, 0, 0x02, 0x11, 0x22]) 4 &&& 0x0F ≤ 8)
    ∧ (parsePacket (receiving 0xC0 [0x24, 0x60, 0, 0, 0x02, 0x11, 0x22])).2.log
        = txn [0xB0, 0x00] ++ txn [0x90, 0, 0, 0, 0, 0, 0, 0] ++ txn [0x05, 0x2C, 0x01, 0x00] :=
  ⟨by decide, by decide, by
    have h := (parsePacket_buffer0_first
      (receiving 0xC0 [0x24, 0x60, 0, 0, 0x02, 0x11, 0x22]) (by decide) (by decide)).1
    rw [h]
    decide⟩

/-- C9: when neither pending bit is set, `parsePacket` resets the receive
state (id -1, not extended, not remote, DLC 0, index 0, length 0), returns 0,
and its only bus transaction is the status poll: no READ RX BUFFER, no access
to the interrupt-flag register. -/
theorem parsePacket_nothing_pending (s : MCP2515Class)
    (h0 : statusByte s &&& 0x40 = 0) (h1 : statusByte s &&& 0x80 = 0) :
    (parsePacket s).1 = 0
    ∧ (parsePacket s).2.rxId = -1
    ∧ (parsePacket s).2.rxExtended = false
    ∧ (parsePacket s).2.rxRtr = false
    ∧ (parsePacket s).2.rxDlc = 0
    ∧ (parsePacket s).2.rxIndex = 0
    ∧ (parsePacket s).2.rxLength = 0
    ∧ (parsePacket s).2.log = s.log ++ txn [0xB0, 0x00] := by
  rw [parsePacket_idle s h0 h1]
  exact ⟨rfl, rfl, rfl, rfl, rfl, rfl, rfl, rfl⟩

/-- C9, at an all-zero status byte on a driver holding an earlier frame. -/
theorem parsePacket_nothing_pending_witness :
    statusByte { receiving 0x00 [] with rxId := 0x123, rxDlc := 2, rxLength := 2 } &&& 0x40 = 0
    ∧ statusByte { receiving 0x00 [] with rxId := 0x123, rxDlc := 2, rxLength := 2 } &&& 0x80 = 0
    ∧ (parsePacket { receiving 0x00 [] with rxId := 0x123, rxDlc := 2, rxLength := 2 }).2.rxId
        = -1 :=
  ⟨by decide, by decide,
   (parsePacket_nothing_pending
      { receiving 0x00 [] with rxId := 0x123, rxDlc := 2, rxLength := 2 }
      (by decide) (by decide)).2.1⟩

/-! ## Round trip of the frame codec -/

/-- C1 as stated fails.  The bytes `endPacket` sends for the standard
remote-request frame id 0x123 (length 0) decode to a frame that is not a remote
request; and the payload byte 9 of the extended remote-request frame id
0x1ABCDEF9 (length 1) is not sent, so the decoded payload is empty. -/
theorem roundtrip_counterexample :
    txWire (sending 0x123 false true [] 0) = [0x24, 0x60, 0x00, 0x00, 0x40]
    ∧ (sending 0x123 false true [] 0).txRtr = true
    ∧ (parsePacket (receiving 0x40 (txWire (sending 0x123 false true [] 0)))).2.rxRtr = false
    ∧ txWire (sending 0x1ABCDEF9 true true [9] 1) = [0xD5, 0xE8, 0xDE, 0xF9, 0x41]
    ∧ txPayload (sending 0x1ABCDEF9 true true [9] 1) = [9]
    ∧ rxPayload (parsePacket (receiving 0x40 (txWire (sending 0x1ABCDEF9 true true [9] 1)))).2
        = [] := by
  decide

/-- C1, amended: for every in-range id, every length up to 8 and every payload,
feeding the bytes `endPacket` sends after the LOAD TX BUFFER opcode to
`parsePacket` yields the encoded id, extended flag and length; the decoded
remote-request flag is the encoded one for an extended frame and is false for a
standard frame; and for an extended frame or a data frame the decoded payload
is the encoded payload for a data frame and empty for a remote request. -/
theorem roundtrip_frame (t r : MCP2515Class)
    (hid : t.txId < (if t.txExtended then 2 ^ 29 else 2 ^ 11)) (hlen : t.txLength ≤ 8)
    (hp : statusByte r &&& 0x40 ≠ 0 ∨ statusByte r &&& 0x80 ≠ 0)
    (hw : ∀ k, k < (txWire t).length → rxWire r k = (txWire t).getD k 0) :
    (parsePacket r).2.rxId = (t.txId : Int)
    ∧ (parsePacket r).2.rxExtended = t.txExtended
    ∧ (parsePacket r).2.rxRtr = (t.txExtended && t.txRtr)
    ∧ (parsePacket r).2.rxDlc = t.txLength
    ∧ (parsePacket r).1 = t.txLength
    ∧ (t.txExtended = true ∨ t.txRtr = false →
        rxPayload (parsePacket r).2 = if t.txRtr then [] else txPayload t) := by
  have hh := roundtrip_header t r hid hlen hp
    (fun k hk => hw k (by have := txWire_length t; omega))
  obtain ⟨h1, h2, h3, h4, h5⟩ := hh
  refine ⟨h1, h2, h3, h4, h5, ?_⟩
  intro hok
  cases hr : t.txRtr
  · simpa using roundtrip_payload t r hid hlen hr hp hw
  · have he : t.txExtended = true := by
      rcases hok with he | hf
      · exact he
      · rw [hr] at hf; cases hf
    have hl : (parsePacket r).2.rxLength = 0 := by
      rw [parsePacket_rxLength r hp, h3, he, hr]
      rfl
    simp [rxPayload, hl]

/-- C1 amended, at the extended data frame id 0x1ABCDEF9 with payload 1, 2, 3. -/
theorem roundtrip_frame_witness :
    rxPayload (parsePacket (receiving 0x40
        (txWire (sending 0x1ABCDEF9 true false [1, 2, 3] 3)))).2 = [1, 2, 3]
    ∧ (parsePacket (receiving 0x40
        (txWire (sending 0x1ABCDEF9 true false [1, 2, 3] 3)))).2.rxId = 0x1ABCDEF9 :=
  ⟨by decide,
   (roundtrip_frame (sending 0x1ABCDEF9 true false [1, 2, 3] 3)
      (receiving 0x40 (txWire (sending 0x1ABCDEF9 true false [1, 2, 3] 3)))
      (by decide) (by decide) (by decide) (by decide)).1⟩

/-- C4: for every standard id below 2^11 and every extended id below 2^29,
every remote-request flag and every length up to 8, decoding the five header
bytes `endPacket` encodes yields the same id, the same extended flag and the
same length. -/
theorem roundtrip_id (t r : MCP2515Class)
    (hid : t.txId < (if t.txExtended then 2 ^ 29 else 2 ^ 11)) (hlen : t.txLength ≤ 8)
    (hp : statusByte r &&& 0x40 ≠ 0 ∨ statusByte r &&& 0x80 ≠ 0)
    (hw : ∀ k, k < 5 → rxWire r k = (txWire t).getD k 0) :
    (parsePacket r).2.rxId = (t.txId : Int)
    ∧ (parsePacket r).2.rxExtended = t.txExtended
    ∧ (parsePacket r).2.rxDlc = t.txLength
    ∧ (parsePacket r).1 = t.txLength := by
  obtain ⟨h1, h2, -, h4, h5⟩ := roundtrip_header t r hid hlen hp hw
  exact ⟨h1, h2, h4, h5⟩

/-- C4, at the boundary ids 0x1FFFFFFF (extended, remote, length 8), 0x7FF
(standard, remote, length 8) and 0 (standard, data, length 0). -/
theorem roundtrip_id_witness :
    (parsePacket (receiving 0x40 (txWire (sending 0x1FFFFFFF true true [] 8)))).2.rxId
        = 0x1FFFFFFF
    ∧ (parsePacket (receiving 0x40 (txWire (sending 0x7FF false true [] 8)))).2.rxId = 0x7FF
    ∧ (parsePacket (receiving 0x80 (txWire (sending 0 false false [] 0)))).2.rxId = 0 :=
  ⟨(roundtrip_id (sending 0x1FFFFFFF true true [] 8)
      (receiving 0x40 (txWire (sending 0x1FFFFFFF true true [] 8)))
      (by decide) (by decide) (by decide) (by decide)).1,
   (roundtrip_id (sending 0x7FF false true [] 8)
      (receiving 0x40 (txWire (sending 0x7FF false true [] 8)))
      (by decide) (by decide) (by decide) (by decide)).1,
   (roundtrip_id (sending 0 false false [] 0)
      (receiving 0x80 (txWire (sending 0 false false [] 0)))
      (by decide) (by decide) (by decide) (by decide)).1⟩

/-! ## Length of a received frame -/

/-- C5 fails on the code: a pending standard data frame whose DLC byte is 0x0F
decodes to length 15, and the payload loop stores 15 bytes, the last of them
in cell 14 of the receive buffer, past the eight cells of the array. -/
theorem parsePacket_dlc15_overrun :
    statusByte (receiving 0x40
        [0, 0, 0, 0, 0x0F, 1, 2, 3, 4, 5, 6, 7, 8, 9, 10, 11, 12, 13, 14, 15]) = 0x40
    ∧ (parsePacket (receiving 0x40
        [0, 0, 0, 0, 0x0F, 1, 2, 3, 4, 5, 6, 7, 8, 9, 10, 11, 12, 13, 14, 15])).1 = 15
    ∧ (parsePacket (receiving 0x40
        [0, 0, 0, 0, 0x0F, 1, 2, 3, 4, 5, 6, 7, 8, 9, 10, 11, 12, 13, 14, 15])).2.rxLength = 15
    ∧ (receiving 0x40
        [0, 0, 0, 0, 0x0F, 1, 2, 3, 4, 5, 6, 7, 8, 9, 10, 11, 12, 13, 14, 15]).rxData 14 = 0
    ∧ (parsePacket (receiving 0x40
        [0, 0, 0, 0, 0x0F, 1, 2, 3, 4, 5, 6, 7, 8, 9, 10, 11, 12, 13, 14, 15])).2.rxData 14 = 15
    ∧ (parsePacket (receiving 0x40
        [0, 0, 0, 0, 0x0F, 1, 2, 3, 4, 5, 6, 7, 8, 9, 10, 11, 12, 13, 14, 15])).2.log
        = txn [0xB0, 0x00]
          ++ txn [0x90, 0, 0, 0, 0, 0, 0, 0, 0, 0, 0, 0, 0, 0, 0, 0, 0, 0, 0, 0, 0]
          ++ txn [0x05, 0x2C, 0x01, 0x00] := by
  decide

/-! ## Zero-length frame and no frame -/

/-- C8 as stated fails: polling a chip with a pending zero-length frame and
polling a chip with nothing pending return the same value, 0. -/
theorem parsePacket_zero_counterexample :
    statusByte (receiving 0x40 [0x24, 0x60, 0x00, 0x00, 0x00]) = 0x40
    ∧ rxWire (receiving 0x40 [0x24, 0x60, 0x00, 0x00, 0x00]) 4 &&& 0x0F = 0
    ∧ statusByte (receiving 0x00 []) = 0x00
    ∧ (parsePacket (receiving 0x40 [0x24, 0x60, 0x00, 0x00, 0x00])).1
        = (parsePacket (receiving 0x00 [])).1 := by
  decide

/-- C8, amended: a pending frame whose DLC low nibble is 0 and a poll with
nothing pending both make `parsePacket` return 0; they differ in the receive
state, where the id is a decoded, non-negative id after a frame and the
sentinel -1 after nothing pending. -/
theorem parsePacket_zero_vs_idle (s s' : MCP2515Class)
    (hp : statusByte s &&& 0x40 ≠ 0 ∨ statusByte s &&& 0x80 ≠ 0)
    (hz : rxWire s 4 &&& 0x0F = 0)
    (h0 : statusByte s' &&& 0x40 = 0) (h1 : statusByte s' &&& 0x80 = 0) :
    (parsePacket s).1 = 0 ∧ (parsePacket s').1 = 0
    ∧ 0 ≤ (parsePacket s).2.rxId ∧ (parsePacket s').2.rxId = -1
    ∧ (parsePacket s).2.rxId ≠ (parsePacket s').2.rxId := by
  have b0 : rxWire s 0 < 256 := Nat.mod_lt _ (by norm_num)
  have b1 : rxWire s 1 < 256 := Nat.mod_lt _ (by norm_num)
  have b2 : rxWire s 2 < 256 := Nat.mod_lt _ (by norm_num)
  have b3 : rxWire s 3 < 256 := Nat.mod_lt _ (by norm_num)
  have hid : 0 ≤ (parsePacket s).2.rxId := by
    rw [parsePacket_rxId s hp]
    by_cases he : rxWire s 1 &&& 0x08 ≠ 0
    · rw [decodedId_extended _ _ _ _ b0 b1 b2 b3 he]
      exact Int.ofNat_nonneg _
    · rw [decodedId_standard _ _ _ _ b0 b1 he]
      exact Int.ofNat_nonneg _
  have hidle : (parsePacket s').2.rxId = -1 := by
    rw [parsePacket_idle s' h0 h1]
  refine ⟨by rw [parsePacket_fst s hp, hz], by rw [parsePacket_idle s' h0 h1], hid, hidle, ?_⟩
  rw [hidle]
  omega

/-- C8 amended, at a zero-length standard frame and an all-zero status. -/
theorem parsePacket_zero_vs_idle_witness :
    (parsePacket (receiving 0x40 [0x24, 0x60, 0x00, 0x00, 0x00])).2.rxId = 0x123
    ∧ (parsePacket (receiving 0x40 [0x24, 0x60, 0x00, 0x00, 0x00])).2.rxId
        ≠ (parsePacket (receiving 0x00 [])).2.rxId :=
  ⟨by decide,
   (parsePacket_zero_vs_idle (receiving 0x40 [0x24, 0x60, 0x00, 0x00, 0x00])
      (receiving 0x00 []) (by decide) (by decide) (by decide) (by decide)).2.2.2.2⟩

/-! ## Result of a transmission -/

/-- C10: whenever the completion poll terminates, `endPacket` returns 1 exactly
when the final read of TXB0CTRL (0x30) has none of the bits 0x70 set and 0
otherwise; the last two transactions on the bus are the bit-modify of CANINTF
(0x2C) with mask 0x04 and value 0x00, then that final read. -/
theorem endPacket_result (fuel : Nat) (s : MCP2515Class) (r : Nat) (s' : MCP2515Class)
    (h : endPacket fuel true s = some (r, s')) :
    (∃ mid, s'.log = s.log ++ mid ++ txn [0x05, 0x2C, 0x04, 0x00] ++ txn [0x03, 0x30, 0x00])
    ∧ (r = 1 ↔ lastRead s' &&& 0x70 = 0)
    ∧ (r = 0 ↔ lastRead s' &&& 0x70 ≠ 0) := by
  obtain ⟨-, -, hlog, hr⟩ := endPacket_tail fuel s r s' h
  refine ⟨hlog, ?_, ?_⟩
  · rw [hr]
    by_cases hc : lastRead s' &&& 0x70 = 0 <;> simp [hc]
  · rw [hr]
    by_cases hc : lastRead s' &&& 0x70 = 0 <;> simp [hc]

/-- C10, at a chip that reports TXREQ clear at once and MLOA (0x20) in the
final read: the transmission is reported as failed. -/
theorem endPacket_result_witness :
    endPacket 1 true lostArbitration = some (0, lostArbitrationDone)
    ∧ lastRead lostArbitrationDone = 0x20
    ∧ lastRead lostArbitrationDone &&& 0x70 ≠ 0 :=
  ⟨rfl, by decide,
   (endPacket_result 1 lostArbitration 0 lostArbitrationDone rfl).2.2.mp rfl⟩

/-! ## Register writes and the mode setters -/

theorem writeRegister_eq (s : MCP2515Class) (address value : Nat) :
    writeRegister s address value
      = { s with clock := s.clock + 3,
                 log := s.log ++ txn [WRITE, address % 256, value % 256] } := by
  simp [writeRegister, txn, transfer, beginTransaction, csLow, csHigh, endTransaction, WRITE]

theorem reset_eq (s : MCP2515Class) :
    reset s = { s with clock := s.clock + 1, log := s.log ++ txn [0xc0] } := by
  simp [reset, txn, transfer, beginTransaction, csLow, csHigh, endTransaction]

/-- A mode request: the write of `value` to CANCTRL followed by the read of
CANCTRL. -/
theorem modeRequest_eq (s : MCP2515Class) (value : Nat) (hv : value < 256) :
    readRegister (writeRegister s REG_CANCTRL value) REG_CANCTRL
      = (ctrlReadback s,
         { s with clock := s.clock + 6,
                  log := s.log ++ txn [0x02, 0x0F, value] ++ txn [0x03, 0x0F, 0x00] }) := by
  rw [writeRegister_eq, readRegister_eq]
  simp [ctrlReadback, REG_CANCTRL, WRITE, READ, Nat.mod_eq_of_lt hv, Nat.add_assoc]

theorem switchToConfigurationMode_eq (s : MCP2515Class) :
    switchToConfigurationMode s
      = (decide (ctrlReadback s &&& 0xe0 = 0x80),
         { s with clock := s.clock + 6,
                  log := s.log ++ txn [0x02, 0x0F, 0x80] ++ txn [0x03, 0x0F, 0x00] }) := by
  simp only [switchToConfigurationMode, modeRequest_eq s 0x80 (by norm_num)]

theorem switchToNormalMode_eq (s : MCP2515Class) :
    switchToNormalMode s
      = (decide (ctrlReadback s &&& 0xe0 = 0x00),
         { s with clock := s.clock + 6,
                  log := s.log ++ txn [0x02, 0x0F, 0x00] ++ txn [0x03, 0x0F, 0x00] }) := by
  simp only [switchToNormalMode, modeRequest_eq s 0x00 (by norm_num)]

theorem observe_eq (s : MCP2515Class) :
    observe s
      = (if ctrlReadback s ≠ 0x80 then 0 else 1,
         { s with clock := s.clock + 6,
                  log := s.log ++ txn [0x02, 0x0F, 0x80] ++ txn [0x03, 0x0F, 0x00] }) := by
  simp only [observe, modeRequest_eq s 0x80 (by norm_num)]
  split <;> rfl

theorem loopback_eq (s : MCP2515Class) :
    loopback s
      = (if ctrlReadback s ≠ 0x40 then 0 else 1,
         { s with clock := s.clock + 6,
                  log := s.log ++ txn [0x02, 0x0F, 0x40] ++ txn [0x03, 0x0F, 0x00] }) := by
  simp only [loopback, modeRequest_eq s 0x40 (by norm_num)]
  split <;> rfl

theorem sleep_eq (s : MCP2515Class) :
    sleep s
      = (if ctrlReadback s ≠ 0x01 then 0 else 1,
         { s with clock := s.clock + 6,
                  log := s.log ++ txn [0x02, 0x0F, 0x01] ++ txn [0x03, 0x0F, 0x00] }) := by
  simp only [sleep, modeRequest_eq s 0x01 (by norm_num)]
  split <;> rfl

theorem wakeup_eq (s : MCP2515Class) :
    wakeup s
      = (if ctrlReadback s ≠ 0x00 then 0 else 1,
         { s with clock := s.clock + 6,
                  log := s.log ++ txn [0x02, 0x0F, 0x00] ++ txn [0x03, 0x0F, 0x00] }) := by
  simp only [wakeup, modeRequest_eq s 0x00 (by norm_num)]
  split <;> rfl

/-- A readback whose mode-select bits differ from those of `value` differs
from `value`. -/
theorem ne_of_mode_bits_ne (r value : Nat) (h : r &&& 0xE0 ≠ value &&& 0xE0) : r ≠ value := by
  intro e
  exact h (by rw [e])

/-- C12: each of the six mode setters writes its mode request to CANCTRL
(0x0F), reads CANCTRL back, and reports failure for every readback whose
mode-select bits (readback & 0xE0) differ from those of the value it wrote:
0x80 for switchToConfigurationMode and observe, 0x00 for switchToNormalMode and
wakeup, 0x40 for loopback, 0x01 for sleep. -/
theorem mode_setters_verify_readback (s : MCP2515Class) :
    ((switchToConfigurationMode s).2.log
        = s.log ++ txn [0x02, 0x0F, 0x80] ++ txn [0x03, 0x0F, 0x00]
      ∧ (ctrlReadback s &&& 0xE0 ≠ 0x80 &&& 0xE0 → (switchToConfigurationMode s).1 = false))
    ∧ ((switchToNormalMode s).2.log
        = s.log ++ txn [0x02, 0x0F, 0x00] ++ txn [0x03, 0x0F, 0x00]
      ∧ (ctrlReadback s &&& 0xE0 ≠ 0x00 &&& 0xE0 → (switchToNormalMode s).1 = false))
    ∧ ((observe s).2.log = s.log ++ txn [0x02, 0x0F, 0x80] ++ txn [0x03, 0x0F, 0x00]
      ∧ (ctrlReadback s &&& 0xE0 ≠ 0x80 &&& 0xE0 → (observe s).1 = 0))
    ∧ ((loopback s).2.log = s.log ++ txn [0x02, 0x0F, 0x40] ++ txn [0x03, 0x0F, 0x00]
      ∧ (ctrlReadback s &&& 0xE0 ≠ 0x40 &&& 0xE0 → (loopback s).1 = 0))
    ∧ ((sleep s).2.log = s.log ++ txn [0x02, 0x0F, 0x01] ++ txn [0x03, 0x0F, 0x00]
      ∧ (ctrlReadback s &&& 0xE0 ≠ 0x01 &&& 0xE0 → (sleep s).1 = 0))
    ∧ ((wakeup s).2.log = s.log ++ txn [0x02, 0x0F, 0x00] ++ txn [0x03, 0x0F, 0x00]
      ∧ (ctrlReadback s &&& 0xE0 ≠ 0x00 &&& 0xE0 → (wakeup s).1 = 0)) := by
  rw [switchToConfigurationMode_eq, switchToNormalMode_eq, observe_eq, loopback_eq, sleep_eq,
    wakeup_eq]
  refine ⟨⟨rfl, ?_⟩, ⟨rfl, ?_⟩, ⟨rfl, ?_⟩, ⟨rfl, ?_⟩, ⟨rfl, ?_⟩, ⟨rfl, ?_⟩⟩
  · intro h
    have h' : ¬ ctrlReadback s &&& 0xe0 = 0x80 := h
    simp [h']
  · intro h
    have h' : ¬ ctrlReadback s &&& 0xe0 = 0x00 := h
    simp [h']
  · intro h
    simp [ne_of_mode_bits_ne _ _ h]
  · intro h
    simp [ne_of_mode_bits_ne _ _ h]
  · intro h
    simp [ne_of_mode_bits_ne _ _ h]
  · intro h
    simp [ne_of_mode_bits_ne _ _ h]

/-- C12, at a chip that reads back 0x40 (loopback) to a request for sleep. -/
theorem mode_setters_verify_readback_witness :
    ctrlReadback (onChip [0, 0, 0, 0, 0, 0x40]) &&& 0xE0 ≠ 0x01 &&& 0xE0
    ∧ (sleep (onChip [0, 0, 0, 0, 0, 0x40])).1 = 0 :=
  ⟨by decide,
   (mode_setters_verify_readback (onChip [0, 0, 0, 0, 0, 0x40])).2.2.2.2.1.2 (by decide)⟩

/-- C19 fails on the code: observe writes the same mode request as
switchToConfigurationMode (0x80), and the request of sleep (0x01) has the same
mode-select bits as the request of switchToNormalMode and wakeup (0x00). -/
theorem mode_requests_collide (s : MCP2515Class) :
    (observe s).2.log = s.log ++ txn [0x02, 0x0F, 0x80] ++ txn [0x03, 0x0F, 0x00]
    ∧ (switchToConfigurationMode s).2.log
        = s.log ++ txn [0x02, 0x0F, 0x80] ++ txn [0x03, 0x0F, 0x00]
    ∧ (sleep s).2.log = s.log ++ txn [0x02, 0x0F, 0x01] ++ txn [0x03, 0x0F, 0x00]
    ∧ (switchToNormalMode s).2.log
        = s.log ++ txn [0x02, 0x0F, 0x00] ++ txn [0x03, 0x0F, 0x00]
    ∧ (wakeup s).2.log = s.log ++ txn [0x02, 0x0F, 0x00] ++ txn [0x03, 0x0F, 0x00]
    ∧ (loopback s).2.log = s.log ++ txn [0x02, 0x0F, 0x40] ++ txn [0x03, 0x0F, 0x00]
    ∧ (0x80 : Nat) &&& 0xE0 = 0x80 &&& 0xE0
    ∧ (0x01 : Nat) &&& 0xE0 = 0x00 &&& 0xE0 := by
  rw [switchToConfigurationMode_eq, switchToNormalMode_eq, observe_eq, loopback_eq, sleep_eq,
    wakeup_eq]
  exact ⟨rfl, rfl, rfl, rfl, rfl, rfl, rfl, by decide⟩

/-! ## Timing selection in `begin` -/

/-- Every row of the table is the first row with its two key fields. -/
theorem findCnf_row : ∀ row ∈ CNF_MAPPER, findCnf row.1 row.2.1 = some row.2.2 := by
  decide

theorem findCnf_none (clockFrequency baudRate : Int)
    (h : ∀ row ∈ CNF_MAPPER, ¬ (row.1 = clockFrequency ∧ row.2.1 = baudRate)) :
    findCnf clockFrequency baudRate = none := by
  unfold findCnf
  rw [Option.map_eq_none', List.find?_eq_none]
  intro row hrow
  simpa using h row hrow

/-- The bus log of `begin` up to the readback of the configuration request. -/
theorem begin_config_failed (clockFrequency baudRate : Int) (stay : Bool) (s : MCP2515Class)
    (h : ¬ ctrlReadback (reset s) &&& 0xE0 = 0x80) :
    begin clockFrequency baudRate stay s
      = (0, { s with clock := s.clock + 7,
                     log := s.log ++ txn [0xc0] ++ txn [0x02, 0x0F, 0x80]
                       ++ txn [0x03, 0x0F, 0x00] }) := by
  rw [begin, switchToConfigurationMode_eq]
  simp only [h, decide_False, Bool.not_false, if_true]
  simp [reset_eq, Nat.add_assoc]

theorem begin_no_timing (clockFrequency baudRate : Int) (stay : Bool) (s : MCP2515Class)
    (h : ctrlReadback (reset s) &&& 0xE0 = 0x80)
    (hf : findCnf clockFrequency baudRate = none) :
    begin clockFrequency baudRate stay s
      = (0, { s with clock := s.clock + 7,
                     log := s.log ++ txn [0xc0] ++ txn [0x02, 0x0F, 0x80]
                       ++ txn [0x03, 0x0F, 0x00] }) := by
  rw [begin, switchToConfigurationMode_eq]
  simp only [h, decide_True, Bool.not_true, Bool.false_eq_true, if_false, hf]
  simp [reset_eq, Nat.add_assoc]

theorem begin_log_of_row (clockFrequency baudRate : Int) (stay : Bool) (s : MCP2515Class)
    (cnf0 cnf1 cnf2 : Nat) (h0 : cnf0 < 256) (h1 : cnf1 < 256) (h2 : cnf2 < 256)
    (h : ctrlReadback (reset s) &&& 0xE0 = 0x80)
    (hf : findCnf clockFrequency baudRate = some (cnf0, cnf1, cnf2)) :
    (begin clockFrequency baudRate stay s).2.log
      = s.log ++ txn [0xc0] ++ txn [0x02, 0x0F, 0x80] ++ txn [0x03, 0x0F, 0x00]
          ++ txn [0x02, 0x2A, cnf0] ++ txn [0x02, 0x29, cnf1] ++ txn [0x02, 0x28, cnf2]
          ++ txn [0x02, 0x2B, 0x03] ++ txn [0x02, 0x0C, 0x00] ++ txn [0x02, 0x0D, 0x00]
          ++ txn [0x02, 0x60, 0x60] ++ txn [0x02, 0x70, 0x60]
          ++ (if stay then [] else txn [0x02, 0x0F, 0x00] ++ txn [0x03, 0x0F, 0x00]) := by
  rw [begin, switchToConfigurationMode_eq]
  simp only [h, decide_True, Bool.not_true, Bool.false_eq_true, if_false, hf]
  cases stay
  · simp only [Bool.not_false, if_true, writeRegister_eq, switchToNormalMode_eq]
    split <;>
      simp [reset_eq, WRITE, REG_CNF1, REG_CNF2, REG_CNF3, REG_CANINTE, REG_BFPCTRL,
        REG_TXRTSCTRL, REG_RXBnCTRL, FLAG_RXnIE, FLAG_RXM0, FLAG_RXM1,
        Nat.mod_eq_of_lt h0, Nat.mod_eq_of_lt h1, Nat.mod_eq_of_lt h2]
  · simp [writeRegister_eq, reset_eq, WRITE, REG_CNF1, REG_CNF2, REG_CNF3, REG_CANINTE,
      REG_BFPCTRL, REG_TXRTSCTRL, REG_RXBnCTRL, FLAG_RXnIE, FLAG_RXM0, FLAG_RXM1,
      Nat.mod_eq_of_lt h0, Nat.mod_eq_of_lt h1, Nat.mod_eq_of_lt h2]

/-- The bytes of every row of the table are bytes. -/
theorem CNF_MAPPER_bytes : ∀ row ∈ CNF_MAPPER,
    row.2.2.1 < 256 ∧ row.2.2.2.1 < 256 ∧ row.2.2.2.2 < 256 := by
  decide

/-- C13: once configuration mode is entered, `begin` writes to CNF1 (0x2A),
CNF2 (0x29) and CNF3 (0x28), once each, the three bytes of the table row whose
clock frequency and baud rate both equal the pair; when no row matches both
fields it returns 0 and its bus log ends with the readback of the
configuration request, so no timing register is written.  The pair
(20 MHz, 500 kbit) fails and (16 MHz, 1000 kbit) gives 0x00, 0xD0, 0x82. -/
theorem begin_timing (clockFrequency baudRate : Int) (stay : Bool) (s : MCP2515Class)
    (h : ctrlReadback (reset s) &&& 0xE0 = 0x80) :
    (∀ row ∈ CNF_MAPPER, row.1 = clockFrequency → row.2.1 = baudRate →
      (begin clockFrequency baudRate stay s).2.log
        = s.log ++ txn [0xc0] ++ txn [0x02, 0x0F, 0x80] ++ txn [0x03, 0x0F, 0x00]
          ++ txn [0x02, 0x2A, row.2.2.1] ++ txn [0x02, 0x29, row.2.2.2.1]
          ++ txn [0x02, 0x28, row.2.2.2.2]
          ++ txn [0x02, 0x2B, 0x03] ++ txn [0x02, 0x0C, 0x00] ++ txn [0x02, 0x0D, 0x00]
          ++ txn [0x02, 0x60, 0x60] ++ txn [0x02, 0x70, 0x60]
          ++ (if stay then [] else txn [0x02, 0x0F, 0x00] ++ txn [0x03, 0x0F, 0x00]))
    ∧ ((∀ row ∈ CNF_MAPPER, ¬ (row.1 = clockFrequency ∧ row.2.1 = baudRate)) →
        (begin clockFrequency baudRate stay s).1 = 0
        ∧ (begin clockFrequency baudRate stay s).2.log
            = s.log ++ txn [0xc0] ++ txn [0x02, 0x0F, 0x80] ++ txn [0x03, 0x0F, 0x00])
    ∧ (begin 20000000 500000 stay s).1 = 0
    ∧ (begin 20000000 500000 stay s).2.log
        = s.log ++ txn [0xc0] ++ txn [0x02, 0x0F, 0x80] ++ txn [0x03, 0x0F, 0x00]
    ∧ (begin 16000000 1000000 stay s).2.log
        = s.log ++ txn [0xc0] ++ txn [0x02, 0x0F, 0x80] ++ txn [0x03, 0x0F, 0x00]
          ++ txn [0x02, 0x2A, 0x00] ++ txn [0x02, 0x29, 0xD0] ++ txn [0x02, 0x28, 0x82]
          ++ txn [0x02, 0x2B, 0x03] ++ txn [0x02, 0x0C, 0x00] ++ txn [0x02, 0x0D, 0x00]
          ++ txn [0x02, 0x60, 0x60] ++ txn [0x02, 0x70, 0x60]
          ++ (if stay then [] else txn [0x02, 0x0F, 0x00] ++ txn [0x03, 0x0F, 0x00]) := by
  refine ⟨?_, ?_, ?_, ?_, ?_⟩
  · intro row hrow hc hb
    obtain ⟨b0, b1, b2⟩ := CNF_MAPPER_bytes row hrow
    have hf := findCnf_row row hrow
    rw [hc, hb] at hf
    exact begin_log_of_row clockFrequency baudRate stay s _ _ _ b0 b1 b2 h hf
  · intro hno
    rw [begin_no_timing clockFrequency baudRate stay s h (findCnf_none _ _ hno)]
    exact ⟨rfl, rfl⟩
  · rw [begin_no_timing 20000000 500000 stay s h (by decide)]
  · rw [begin_no_timing 20000000 500000 stay s h (by decide)]
  · exact begin_log_of_row 16000000 1000000 stay s 0x00 0xD0 0x82 (by norm_num) (by norm_num)
      (by norm_num) h (by decide)

/-- C13, at a chip that reads back configuration mode, for the unsupported
pair (20 MHz, 500 kbit). -/
theorem begin_timing_witness :
    ctrlReadback (reset (onChip [0, 0, 0, 0, 0, 0, 0x80])) &&& 0xE0 = 0x80
    ∧ (begin 20000000 500000 false (onChip [0, 0, 0, 0, 0, 0, 0x80])).1 = 0 :=
  ⟨by decide,
   (begin_timing 20000000 500000 false (onChip [0, 0, 0, 0, 0, 0, 0x80]) (by decide)).2.2.1⟩

/-! ## Acceptance filters -/

theorem and_2047 (x : Nat) : x &&& 0x7ff = x % 2048 := Nat.and_pow_two_sub_one_eq_mod x 11

theorem range_two : List.range 2 = [0, 1] := rfl

theorem range_six : List.range 6 = [0, 1, 2, 3, 4, 5] := rfl

/-- When the configuration request is not read back as 0x80, `filter` stops
after the write and the read of CANCTRL. -/
theorem filter_fail_eq (id mask : Nat) (s : MCP2515Class) (h : ctrlReadback s ≠ 0x80) :
    filter id mask s
      = (0, { s with clock := s.clock + 6,
                     log := s.log ++ txn [0x02, 0x0F, 0x80] ++ txn [0x03, 0x0F, 0x00] }) := by
  have h' : ¬ s.miso (s.clock + 3 + 2) % 256 = 0x80 := by
    simpa [ctrlReadback, Nat.add_assoc] using h
  simp [filter, writeRegister_eq, readRegister_eq, h', WRITE, READ, REG_CANCTRL]

theorem filter_ok_eq (id mask : Nat) (s : MCP2515Class) (h : ctrlReadback s = 0x80) :
    filter id mask s
      = (if s.miso (s.clock + 119) % 256 ≠ 0x00 then 0 else 1,
         { s with
            clock := s.clock + 120,
            log := s.log ++ txn [0x02, 0x0F, 0x80] ++ txn [0x03, 0x0F, 0x00]
              ++ txn [0x02, 0x60, 0x20] ++ txn [0x02, 0x60, 0x20]
              ++ groupWrites 0x20 (((mask &&& 0x7ff) >>> 3) % 256)
                  (((mask &&& 0x7ff) <<< 5) % 256) 0 0
              ++ txn [0x02, 0x70, 0x20] ++ txn [0x02, 0x70, 0x20]
              ++ groupWrites 0x24 (((mask &&& 0x7ff) >>> 3) % 256)
                  (((mask &&& 0x7ff) <<< 5) % 256) 0 0
              ++ groupWrites 0x00 (((id &&& 0x7ff) >>> 3) % 256) (((id &&& 0x7ff) <<< 5) % 256) 0 0
              ++ groupWrites 0x04 (((id &&& 0x7ff) >>> 3) % 256) (((id &&& 0x7ff) <<< 5) % 256) 0 0
              ++ groupWrites 0x08 (((id &&& 0x7ff) >>> 3) % 256) (((id &&& 0x7ff) <<< 5) % 256) 0 0
              ++ groupWrites 0x10 (((id &&& 0x7ff) >>> 3) % 256) (((id &&& 0x7ff) <<< 5) % 256) 0 0
              ++ groupWrites 0x14 (((id &&& 0x7ff) >>> 3) % 256) (((id &&& 0x7ff) <<< 5) % 256) 0 0
              ++ groupWrites 0x18 (((id &&& 0x7ff) >>> 3) % 256) (((id &&& 0x7ff) <<< 5) % 256) 0 0
              ++ txn [0x02, 0x0F, 0x00] ++ txn [0x03, 0x0F, 0x00] }) := by
  have h' : s.miso (s.clock + 3 + 2) % 256 = 0x80 := by
    simpa [ctrlReadback, Nat.add_assoc] using h
  simp only [filter, range_two, range_six, List.foldl_cons, List.foldl_nil, writeRegister_eq,
    readRegister_eq, h', ne_eq, not_true_eq_false, if_false]
  by_cases hf : s.miso (s.clock + 119) % 256 = 0x00 <;>
    simp [groupWrites, WRITE, READ, REG_CANCTRL, REG_RXBnCTRL, REG_RXMnSIDH, REG_RXMnSIDL,
      REG_RXMnEID8, REG_RXMnEID0, REG_RXFnSIDH, REG_RXFnSIDL, REG_RXFnEID8, REG_RXFnEID0,
      FLAG_RXM0, Nat.add_assoc, hf]
theorem filterExtended_fail_eq (id mask : Nat) (s : MCP2515Class) (h : ctrlReadback s ≠ 0x80) :
    filterExtended id mask s
      = (0, { s with clock := s.clock + 6,
                     log := s.log ++ txn [0x02, 0x0F, 0x80] ++ txn [0x03, 0x0F, 0x00] }) := by
  have h' : ¬ s.miso (s.clock + 3 + 2) % 256 = 0x80 := by
    simpa [ctrlReadback, Nat.add_assoc] using h
  simp [filterExtended, writeRegister_eq, readRegister_eq, h', WRITE, READ, REG_CANCTRL]

theorem filterExtended_ok_eq (id mask : Nat) (s : MCP2515Class) (h : ctrlReadback s = 0x80) :
    filterExtended id mask s
      = (if s.miso (s.clock + 119) % 256 ≠ 0x00 then 0 else 1,
         { s with
            clock := s.clock + 120,
            log := s.log ++ txn [0x02, 0x0F, 0x80] ++ txn [0x03, 0x0F, 0x00]
              ++ txn [0x02, 0x60, 0x40] ++ txn [0x02, 0x60, 0x40]
              ++ groupWrites 0x20 (((mask &&& 0x1FFFFFFF) >>> 21) % 256)
                  ((((((mask &&& 0x1FFFFFFF) >>> 18) &&& 0x03) <<< 5) ||| 0x08
                    ||| (((mask &&& 0x1FFFFFFF) >>> 16) &&& 0x03)) % 256)
                  ((((mask &&& 0x1FFFFFFF) >>> 8) &&& 0xff) % 256)
                  (((mask &&& 0x1FFFFFFF) &&& 0xff) % 256)
              ++ txn [0x02, 0x70, 0x40] ++ txn [0x02, 0x70, 0x40]
              ++ groupWrites 0x24 (((mask &&& 0x1FFFFFFF) >>> 21) % 256)
                  ((((((mask &&& 0x1FFFFFFF) >>> 18) &&& 0x03) <<< 5) ||| 0x08
                    ||| (((mask &&& 0x1FFFFFFF) >>> 16) &&& 0x03)) % 256)
                  ((((mask &&& 0x1FFFFFFF) >>> 8) &&& 0xff) % 256)
                  (((mask &&& 0x1FFFFFFF) &&& 0xff) % 256)
              ++ groupWrites 0x00 (((id &&& 0x1FFFFFFF) >>> 21) % 256)
                  ((((((id &&& 0x1FFFFFFF) >>> 18) &&& 0x03) <<< 5) ||| 0x08
                    ||| (((id &&& 0x1FFFFFFF) >>> 16) &&& 0x03)) % 256)
                  ((((id &&& 0x1FFFFFFF) >>> 8) &&& 0xff) % 256)
                  (((id &&& 0x1FFFFFFF) &&& 0xff) % 256)
              ++ groupWrites 0x04 (((id &&& 0x1FFFFFFF) >>> 21) % 256)
                  ((((((id &&& 0x1FFFFFFF) >>> 18) &&& 0x03) <<< 5) ||| 0x08
                    ||| (((id &&& 0x1FFFFFFF) >>> 16) &&& 0x03)) % 256)
                  ((((id &&& 0x1FFFFFFF) >>> 8) &&& 0xff) % 256)
                  (((id &&& 0x1FFFFFFF) &&& 0xff) % 256)
              ++ groupWrites 0x08 (((id &&& 0x1FFFFFFF) >>> 21) % 256)
                  ((((((id &&& 0x1FFFFFFF) >>> 18) &&& 0x03) <<< 5) ||| 0x08
                    ||| (((id &&& 0x1FFFFFFF) >>> 16) &&& 0x03)) % 256)
                  ((((id &&& 0x1FFFFFFF) >>> 8) &&& 0xff) % 256)
                  (((id &&& 0x1FFFFFFF) &&& 0xff) % 256)
              ++ groupWrites 0x10 (((id &&& 0x1FFFFFFF) >>> 21) % 256)
                  ((((((id &&& 0x1FFFFFFF) >>> 18) &&& 0x03) <<< 5) ||| 0x08
                    ||| (((id &&& 0x1FFFFFFF) >>> 16) &&& 0x03)) % 256)
                  ((((id &&& 0x1FFFFFFF) >>> 8) &&& 0xff) % 256)
                  (((id &&& 0x1FFFFFFF) &&& 0xff) % 256)
              ++ groupWrites 0x14 (((id &&& 0x1FFFFFFF) >>> 21) % 256)
                  ((((((id &&& 0x1FFFFFFF) >>> 18) &&& 0x03) <<< 5) ||| 0x08
                    ||| (((id &&& 0x1FFFFFFF) >>> 16) &&& 0x03)) % 256)
                  ((((id &&& 0x1FFFFFFF) >>> 8) &&& 0xff) % 256)
                  (((id &&& 0x1FFFFFFF) &&& 0xff) % 256)
              ++ groupWrites 0x18 (((id &&& 0x1FFFFFFF) >>> 21) % 256)
                  ((((((id &&& 0x1FFFFFFF) >>> 18) &&& 0x03) <<< 5) ||| 0x08
                    ||| (((id &&& 0x1FFFFFFF) >>> 16) &&& 0x03)) % 256)
                  ((((id &&& 0x1FFFFFFF) >>> 8) &&& 0xff) % 256)
                  (((id &&& 0x1FFFFFFF) &&& 0xff) % 256)
              ++ txn [0x02, 0x0F, 0x00] ++ txn [0x03, 0x0F, 0x00] }) := by
  have h' : s.miso (s.clock + 3 + 2) % 256 = 0x80 := by
    simpa [ctrlReadback, Nat.add_assoc] using h
  simp only [filterExtended, range_two, range_six, List.foldl_cons, List.foldl_nil,
    writeRegister_eq, readRegister_eq, h', ne_eq, not_true_eq_false, if_false]
  by_cases hf : s.miso (s.clock + 119) % 256 = 0x00 <;>
    simp [groupWrites, WRITE, READ, REG_CANCTRL, REG_RXBnCTRL, REG_RXMnSIDH, REG_RXMnSIDL,
      REG_RXMnEID8, REG_RXMnEID0, REG_RXFnSIDH, REG_RXFnSIDL, REG_RXFnEID8, REG_RXFnEID0,
      FLAG_RXM1, FLAG_EXIDE, Nat.add_assoc, hf]

theorem setFilterRegisters_fail_eq (mask0 filter0 filter1 mask1 filter2 filter3 filter4
    filter5 : Nat) (allowRollover : Bool) (s : MCP2515Class)
    (h : ¬ ctrlReadback s &&& 0xE0 = 0x80) :
    setFilterRegisters mask0 filter0 filter1 mask1 filter2 filter3 filter4 filter5
        allowRollover s
      = (false, { s with clock := s.clock + 6,
                         log := s.log ++ txn [0x02, 0x0F, 0x80] ++ txn [0x03, 0x0F, 0x00] }) := by
  simp [setFilterRegisters, switchToConfigurationMode_eq, h]

theorem setFilterRegisters_ok_eq (mask0 filter0 filter1 mask1 filter2 filter3 filter4
    filter5 : Nat) (allowRollover : Bool) (s : MCP2515Class)
    (h : ctrlReadback s &&& 0xE0 = 0x80) :
    setFilterRegisters mask0 filter0 filter1 mask1 filter2 filter3 filter4 filter5
        allowRollover s
      = (decide (s.miso (s.clock + 113) % 256 &&& 0xE0 = 0x00),
         { s with
            clock := s.clock + 114,
            log := s.log ++ txn [0x02, 0x0F, 0x80] ++ txn [0x03, 0x0F, 0x00]
              ++ txn [0x02, 0x60, if allowRollover then 0x04 else 0x00] ++ txn [0x02, 0x70, 0x00]
              ++ groupWrites 0x20 ((((mask0 &&& 0x7ff) % 256) >>> 3) % 256)
                  ((((mask0 &&& 0x7ff) % 256) <<< 5) % 256) 0 0
              ++ groupWrites 0x24 ((((mask1 &&& 0x7ff) % 256) >>> 3) % 256)
                  ((((mask1 &&& 0x7ff) % 256) <<< 5) % 256) 0 0
              ++ groupWrites 0x00 ((((filter0 &&& 0x7ff) % 256) >>> 3) % 256)
                  ((((filter0 &&& 0x7ff) % 256) <<< 5) % 256) 0 0
              ++ groupWrites 0x04 ((((filter1 &&& 0x7ff) % 256) >>> 3) % 256)
                  ((((filter1 &&& 0x7ff) % 256) <<< 5) % 256) 0 0
              ++ groupWrites 0x08 ((((filter2 &&& 0x7ff) % 256) >>> 3) % 256)
                  ((((filter2 &&& 0x7ff) % 256) <<< 5) % 256) 0 0
              ++ groupWrites 0x10 ((((filter3 &&& 0x7ff) % 256) >>> 3) % 256)
                  ((((filter3 &&& 0x7ff) % 256) <<< 5) % 256) 0 0
              ++ groupWrites 0x14 ((((filter4 &&& 0x7ff) % 256) >>> 3) % 256)
                  ((((filter4 &&& 0x7ff) % 256) <<< 5) % 256) 0 0
              ++ groupWrites 0x18 ((((filter5 &&& 0x7ff) % 256) >>> 3) % 256)
                  ((((filter5 &&& 0x7ff) % 256) <<< 5) % 256) 0 0
              ++ txn [0x02, 0x0F, 0x00] ++ txn [0x03, 0x0F, 0x00] }) := by
  simp only [setFilterRegisters, switchToConfigurationMode_eq, h, decide_True, Bool.not_true,
    Bool.false_eq_true, if_false, range_two, range_six, List.foldl_cons, List.foldl_nil,
    writeRegister_eq, switchToNormalMode_eq]
  by_cases hf : s.miso (s.clock + 113) % 256 &&& 0xE0 = 0x00 <;> cases allowRollover <;>
    simp [groupWrites, WRITE, READ, REG_CANCTRL, REG_RXBnCTRL, REG_RXMnSIDH, REG_RXMnSIDL,
      REG_RXMnEID8, REG_RXMnEID0, REG_RXFnSIDH, REG_RXFnSIDL, REG_RXFnEID8, REG_RXFnEID0,
      FLAG_RXB0CTRL_BUKT, ctrlReadback, Nat.add_assoc, hf]

/-- Decoding the bytes of the standard reference layout gives the value back. -/
theorem layout_standard_stored (v : Nat) (h : v < 2048) :
    (layoutSIDH v false <<< 3) ||| (layoutSIDL v false >>> 5) = v := by
  have hl : layoutSIDL v false < 256 := by
    simp only [layoutSIDL, bitField, Nat.shiftLeft_eq]
    norm_num
    omega
  rw [idA_eq _ _ hl]
  simp only [layoutSIDH, layoutSIDL, bitField, Nat.shiftLeft_eq]
  norm_num
  omega

/-- C14: once the configuration request has been read back, `filter` writes to
both mask groups (0x20, 0x24) and to the six filter groups (0x00, 0x04, 0x08,
0x10, 0x14, 0x18) the standard layout of the value truncated to 11 bits:
SIDH = v[10:3], SIDL = v[2:0] << 5, EID8 = EID0 = 0 with v = value & 0x7FF;
decoding the stored bytes gives value & 0x7FF, and 0xFFFFFFFF is stored as
0x7FF. -/
theorem filter_standard_layout (id mask : Nat) (s : MCP2515Class)
    (h : ctrlReadback s = 0x80) :
    (filter id mask s).2.log
        = s.log ++ txn [0x02, 0x0F, 0x80] ++ txn [0x03, 0x0F, 0x00]
          ++ txn [0x02, 0x60, 0x20] ++ txn [0x02, 0x60, 0x20]
          ++ groupWrites 0x20 (layoutSIDH (mask &&& 0x7FF) false)
              (layoutSIDL (mask &&& 0x7FF) false) 0 0
          ++ txn [0x02, 0x70, 0x20] ++ txn [0x02, 0x70, 0x20]
          ++ groupWrites 0x24 (layoutSIDH (mask &&& 0x7FF) false)
              (layoutSIDL (mask &&& 0x7FF) false) 0 0
          ++ groupWrites 0x00 (layoutSIDH (id &&& 0x7FF) false) (layoutSIDL (id &&& 0x7FF) false) 0 0
          ++ groupWrites 0x04 (layoutSIDH (id &&& 0x7FF) false) (layoutSIDL (id &&& 0x7FF) false) 0 0
          ++ groupWrites 0x08 (layoutSIDH (id &&& 0x7FF) false) (layoutSIDL (id &&& 0x7FF) false) 0 0
          ++ groupWrites 0x10 (layoutSIDH (id &&& 0x7FF) false) (layoutSIDL (id &&& 0x7FF) false) 0 0
          ++ groupWrites 0x14 (layoutSIDH (id &&& 0x7FF) false) (layoutSIDL (id &&& 0x7FF) false) 0 0
          ++ groupWrites 0x18 (layoutSIDH (id &&& 0x7FF) false) (layoutSIDL (id &&& 0x7FF) false) 0 0
          ++ txn [0x02, 0x0F, 0x00] ++ txn [0x03, 0x0F, 0x00]
    ∧ layoutEID8 (mask &&& 0x7FF) false = 0 ∧ layoutEID0 (mask &&& 0x7FF) false = 0
    ∧ layoutEID8 (id &&& 0x7FF) false = 0 ∧ layoutEID0 (id &&& 0x7FF) false = 0
    ∧ (layoutSIDH (mask &&& 0x7FF) false <<< 3) ||| (layoutSIDL (mask &&& 0x7FF) false >>> 5)
        = mask &&& 0x7FF
    ∧ (layoutSIDH (id &&& 0x7FF) false <<< 3) ||| (layoutSIDL (id &&& 0x7FF) false >>> 5)
        = id &&& 0x7FF
    ∧ (0xFFFFFFFF : Nat) &&& 0x7FF = 0x7FF := by
  have hm : mask &&& 0x7FF < 2048 := by rw [and_2047]; omega
  have hi : id &&& 0x7FF < 2048 := by rw [and_2047]; omega
  refine ⟨?_, rfl, rfl, rfl, rfl, layout_standard_stored _ hm, layout_standard_stored _ hi,
    by decide⟩
  rw [filter_ok_eq id mask s h]
  simp only [layoutSIDH, layoutSIDL, Bool.false_eq_true, if_false,
    (encode_standard (mask &&& 0x7ff)).1, (encode_standard (mask &&& 0x7ff)).2,
    (encode_standard (id &&& 0x7ff)).1, (encode_standard (id &&& 0x7ff)).2]

/-- C14, at id and mask 0xFFFFFFFF. -/
theorem filter_standard_layout_witness :
    ctrlReadback (onChip [0, 0, 0, 0, 0, 0x80]) = 0x80
    ∧ (layoutSIDH (0xFFFFFFFF &&& 0x7FF) false <<< 3)
        ||| (layoutSIDL (0xFFFFFFFF &&& 0x7FF) false >>> 5) = 0xFFFFFFFF &&& 0x7FF :=
  ⟨by decide,
   (filter_standard_layout 0xFFFFFFFF 0xFFFFFFFF (onChip [0, 0, 0, 0, 0, 0x80])
      (by decide)).2.2.2.2.2.2.1⟩

set_option maxRecDepth 100000 in
/-- C15 fails on the code: for the value 0x1FFFFFFF `filterExtended` writes the
SIDL byte 0x6B to mask group 0 (register 0x21) and to filter group 0 (register
0x01), while `endPacket` encodes the id 0x1FFFFFFF with the SIDL byte 0xEB: the
filter layout keeps two bits of id[20:18] where the frame layout keeps three. -/
theorem filterExtended_drops_bit20 :
    ctrlReadback (onChip [0, 0, 0, 0, 0, 0x80]) = 0x80
    ∧ ((transactions (filterExtended 0x1FFFFFFF 0x1FFFFFFF
          (onChip [0, 0, 0, 0, 0, 0x80])).2.log).drop 4).take 4
        = [[0x02, 0x20, 0xFF], [0x02, 0x21, 0x6B], [0x02, 0x22, 0xFF], [0x02, 0x23, 0xFF]]
    ∧ ((transactions (filterExtended 0x1FFFFFFF 0x1FFFFFFF
          (onChip [0, 0, 0, 0, 0, 0x80])).2.log).drop 14).take 4
        = [[0x02, 0x00, 0xFF], [0x02, 0x01, 0x6B], [0x02, 0x02, 0xFF], [0x02, 0x03, 0xFF]]
    ∧ (txWire (sending (0x1FFFFFFF &&& 0x1FFFFFFF) true false [] 0)).take 4
        = [0xFF, 0xEB, 0xFF, 0xFF]
    ∧ layoutSIDL (0x1FFFFFFF &&& 0x1FFFFFFF) true = 0xEB := by
  decide

set_option maxRecDepth 100000 in
/-- C16 fails on the code: for the arguments 0x7FF `setFilterRegisters` writes
SIDH = 0x1F to mask group 0 (register 0x20) and to filter group 0 (register
0x00), where the standard layout of 0x7FF has SIDH = 0xFF: the value passes
through a `uint8_t` local and loses its bits 8 to 10. -/
theorem setFilterRegisters_drops_high_bits :
    ctrlReadback (onChip [0, 0, 0, 0, 0, 0x80]) &&& 0xE0 = 0x80
    ∧ ((transactions (setFilterRegisters 0x7FF 0x7FF 0x7FF 0x7FF 0x7FF 0x7FF 0x7FF 0x7FF
          false (onChip [0, 0, 0, 0, 0, 0x80])).2.log).drop 4).take 4
        = [[0x02, 0x20, 0x1F], [0x02, 0x21, 0xE0], [0x02, 0x22, 0x00], [0x02, 0x23, 0x00]]
    ∧ ((transactions (setFilterRegisters 0x7FF 0x7FF 0x7FF 0x7FF 0x7FF 0x7FF 0x7FF 0x7FF
          false (onChip [0, 0, 0, 0, 0, 0x80])).2.log).drop 12).take 4
        = [[0x02, 0x00, 0x1F], [0x02, 0x01, 0xE0], [0x02, 0x02, 0x00], [0x02, 0x03, 0x00]]
    ∧ layoutSIDH (0x7FF &&& 0x7FF) false = 0xFF
    ∧ layoutSIDL (0x7FF &&& 0x7FF) false = 0xE0 := by
  decide

/-- C17: for each of `filter`, `filterExtended` and `setFilterRegisters`, when
the readback after the configuration request does not show configuration mode
(its mode-select bits are not 0x80) the operation reports failure and its only
bus transactions are the write of 0x80 to CANCTRL (0x0F) and the read of
CANCTRL: no mask, filter or receive-buffer control register is written; and
when it reports success, that readback showed configuration mode, the bus log
ends with the write of 0x00 to CANCTRL and the read of CANCTRL, and that final
readback showed normal mode. -/
theorem filters_require_configuration_mode (s : MCP2515Class) (id mask : Nat)
    (mask0 filter0 filter1 mask1 filter2 filter3 filter4 filter5 : Nat) (allowRollover : Bool) :
    (ctrlReadback s &&& 0xE0 ≠ 0x80 →
      ((filter id mask s).1 = 0
        ∧ (filter id mask s).2.log
            = s.log ++ txn [0x02, 0x0F, 0x80] ++ txn [0x03, 0x0F, 0x00])
      ∧ ((filterExtended id mask s).1 = 0
        ∧ (filterExtended id mask s).2.log
            = s.log ++ txn [0x02, 0x0F, 0x80] ++ txn [0x03, 0x0F, 0x00])
      ∧ ((setFilterRegisters mask0 filter0 filter1 mask1 filter2 filter3 filter4 filter5
            allowRollover s).1 = false
        ∧ (setFilterRegisters mask0 filter0 filter1 mask1 filter2 filter3 filter4 filter5
            allowRollover s).2.log
            = s.log ++ txn [0x02, 0x0F, 0x80] ++ txn [0x03, 0x0F, 0x00]))
    ∧ ((filter id mask s).1 = 1 →
        ctrlReadback s &&& 0xE0 = 0x80
        ∧ lastRead (filter id mask s).2 &&& 0xE0 = 0x00
        ∧ ∃ pre, (filter id mask s).2.log
            = pre ++ txn [0x02, 0x0F, 0x00] ++ txn [0x03, 0x0F, 0x00])
    ∧ ((filterExtended id mask s).1 = 1 →
        ctrlReadback s &&& 0xE0 = 0x80
        ∧ lastRead (filterExtended id mask s).2 &&& 0xE0 = 0x00
        ∧ ∃ pre, (filterExtended id mask s).2.log
            = pre ++ txn [0x02, 0x0F, 0x00] ++ txn [0x03, 0x0F, 0x00])
    ∧ ((setFilterRegisters mask0 filter0 filter1 mask1 filter2 filter3 filter4 filter5
          allowRollover s).1 = true →
        ctrlReadback s &&& 0xE0 = 0x80
        ∧ lastRead (setFilterRegisters mask0 filter0 filter1 mask1 filter2 filter3 filter4
            filter5 allowRollover s).2 &&& 0xE0 = 0x00
        ∧ ∃ pre, (setFilterRegisters mask0 filter0 filter1 mask1 filter2 filter3 filter4
            filter5 allowRollover s).2.log
            = pre ++ txn [0x02, 0x0F, 0x00] ++ txn [0x03, 0x0F, 0x00]) := by
  refine ⟨?_, ?_, ?_, ?_⟩
  · intro h
    have hne : ctrlReadback s ≠ 0x80 := ne_of_mode_bits_ne _ 0x80 h
    rw [filter_fail_eq id mask s hne, filterExtended_fail_eq id mask s hne,
      setFilterRegisters_fail_eq _ _ _ _ _ _ _ _ _ s h]
    exact ⟨⟨rfl, rfl⟩, ⟨rfl, rfl⟩, ⟨rfl, rfl⟩⟩
  · intro hok
    by_cases h : ctrlReadback s = 0x80
    · rw [filter_ok_eq id mask s h] at hok ⊢
      refine ⟨by rw [h]; decide, ?_, ⟨_, rfl⟩⟩
      by_cases hf : s.miso (s.clock + 119) % 256 = 0x00
      · simp [lastRead, hf]
      · simp [hf] at hok
    · rw [filter_fail_eq id mask s h] at hok
      simp at hok
  · intro hok
    by_cases h : ctrlReadback s = 0x80
    · rw [filterExtended_ok_eq id mask s h] at hok ⊢
      refine ⟨by rw [h]; decide, ?_, ⟨_, rfl⟩⟩
      by_cases hf : s.miso (s.clock + 119) % 256 = 0x00
      · simp [lastRead, hf]
      · simp [hf] at hok
    · rw [filterExtended_fail_eq id mask s h] at hok
      simp at hok
  · intro hok
    by_cases h : ctrlReadback s &&& 0xE0 = 0x80
    · rw [setFilterRegisters_ok_eq _ _ _ _ _ _ _ _ _ s h] at hok ⊢
      refine ⟨h, ?_, ⟨_, rfl⟩⟩
      simpa [lastRead] using hok
    · rw [setFilterRegisters_fail_eq _ _ _ _ _ _ _ _ _ s h] at hok
      simp at hok

/-- C17, at a chip that reads back 0x00 (normal mode) to the configuration
request of `filter`. -/
theorem filters_require_configuration_mode_witness :
    ctrlReadback (onChip [0, 0, 0, 0, 0, 0x00]) &&& 0xE0 ≠ 0x80
    ∧ (filter 0x123 0x7FF (onChip [0, 0, 0, 0, 0, 0x00])).1 = 0 :=
  ⟨by decide,
   ((filters_require_configuration_mode (onChip [0, 0, 0, 0, 0, 0x00]) 0x123 0x7FF
      0 0 0 0 0 0 0 0 false).1 (by decide)).1.1⟩

/-! ## The completion poll against a script of readbacks -/

theorem answers_append (miso : Nat → Nat) : ∀ (a b : List (Option Nat)) (k : Nat),
    answers miso k (a ++ b) = (answers miso k a && answers miso (k + a.length) b) := by
  intro a
  induction a with
  | nil => intro b k; simp [answers]
  | cons x a ih =>
    intro b k
    cases x with
    | none => simp [answers, ih, Nat.add_assoc, Nat.add_comm 1]
    | some v => simp [answers, ih, Nat.add_assoc, Nat.add_comm 1, Bool.and_assoc]

theorem answers_read (miso : Nat → Nat) (k v : Nat) (rest : List (Option Nat))
    (h : answers miso k ([none, none, some v] ++ rest) = true) :
    miso (k + 2) % 256 = v ∧ answers miso (k + 3) rest = true := by
  simpa [answers, Nat.add_assoc] using h

theorem answers_skip4 (miso : Nat → Nat) (k : Nat) (rest : List (Option Nat))
    (h : answers miso k ([none, none, none, none] ++ rest) = true) :
    answers miso (k + 4) rest = true := by
  simpa [answers, Nat.add_assoc] using h

/-- The completion poll on a chip that follows the script of the iterations
`its` and then reads TXREQ clear. -/
theorem pollTxReq_script (last : Nat) (hlast : last &&& 0x08 = 0) (rest : List (Option Nat)) :
    ∀ (its : List (Nat × Nat)) (aborted : Bool) (s : MCP2515Class),
      (∀ p ∈ its, p.1 &&& 0x08 ≠ 0) →
      answers s.miso s.clock (pollScript its ++ ([none, none, some last] ++ rest)) = true →
      pollTxReq 0 (its.length + 1) aborted s
        = some (aborted || anyTxErr its,
            { s with clock := s.clock + (pollScript its).length + 3,
                     log := s.log ++ pollEvents its ++ txn [0x03, 0x30, 0x00] })
        ∧ answers s.miso (s.clock + (pollScript its).length + 3) rest = true := by
  intro its
  induction its with
  | nil =>
    intro aborted s _ hs
    obtain ⟨hv, hrest⟩ := answers_read _ _ _ _ (by simpa [pollScript] using hs)
    refine ⟨?_, by simpa [pollScript] using hrest⟩
    rw [pollTxReq]
    simp [readRegister_eq, hv, hlast, pollScript, pollEvents, anyTxErr, READ, REG_TXBnCTRL]
  | cons p its ih =>
    intro aborted s hreq hs
    obtain ⟨c, b⟩ := p
    have hc : c &&& 0x08 ≠ 0 := hreq (c, b) (List.mem_cons_self _ _)
    have hreq' : ∀ p ∈ its, p.1 &&& 0x08 ≠ 0 := fun p hp => hreq p (List.mem_cons_of_mem _ hp)
    simp only [pollScript, List.append_assoc] at hs
    obtain ⟨hcv, hs1⟩ := answers_read _ _ _ _ hs
    obtain ⟨hbv, hs2⟩ := answers_read _ _ _ _ hs1
    rw [List.length_cons, pollTxReq]
    simp only [readRegister_eq, hcv, hc, ne_eq, not_false_eq_true, if_true]
    have hbv' : s.miso (s.clock + 3 + 2) % 256 = b := by
      rw [← hbv]
    simp only [hbv']
    by_cases hb : b &&& 0x10 ≠ 0
    · simp only [hb, ne_eq, not_false_eq_true, if_true] at hs2 ⊢
      have hs3 := answers_skip4 _ _ _ hs2
      obtain ⟨hrun, hrest⟩ := ih true
        (modifyRegister
          { s with clock := s.clock + 3 + 3,
                   log := s.log ++ txn [READ, REG_TXBnCTRL 0 % 256, 0]
                     ++ txn [READ, REG_TXBnCTRL 0 % 256, 0] } REG_CANCTRL 0x10 0x10)
        hreq' (by simpa [modifyRegister_eq, Nat.add_assoc] using hs3)
      refine ⟨?_, by simpa [modifyRegister_eq, pollScript, hb, Nat.add_assoc, Nat.add_comm,
        Nat.add_left_comm] using hrest⟩
      rw [hrun]
      simp [modifyRegister_eq, pollScript, pollEvents, anyTxErr, hb, READ, BIT_MODIFY,
        REG_TXBnCTRL, REG_CANCTRL, Nat.add_assoc, Nat.add_comm, Nat.add_left_comm]
    · have hb0 : b &&& 0x10 = 0 := by simpa using hb
      simp only [hb, if_false, List.nil_append] at hs2 ⊢
      obtain ⟨hrun, hrest⟩ := ih aborted
          { s with clock := s.clock + 3 + 3,
                   log := s.log ++ txn [READ, REG_TXBnCTRL 0 % 256, 0]
                     ++ txn [READ, REG_TXBnCTRL 0 % 256, 0] }
        hreq' (by simpa [Nat.add_assoc] using hs2)
      refine ⟨?_, by simpa [pollScript, hb, Nat.add_assoc, Nat.add_comm,
        Nat.add_left_comm] using hrest⟩
      rw [hrun]
      simp [pollScript, pollEvents, anyTxErr, hb0, READ, REG_TXBnCTRL, Nat.add_assoc,
        Nat.add_comm, Nat.add_left_comm]

theorem requestToSend_miso (n : Nat) (s : MCP2515Class) : (requestToSend n s).miso = s.miso := by
  rw [requestToSend_eq]

/-- C11, amended: for every finite sequence of loop iterations of the
completion poll, each given by its two readbacks of TXB0CTRL (the
loop-condition read, with TXREQ 0x08 set, and the loop-body read), followed by
a condition read `last` with TXREQ clear and a final read `final`:
`endPacket` terminates; after every iteration whose body read has TXERR (0x10)
set it issues the abort (bit-modify of 0x0F, mask 0x10, value 0x10) and keeps
polling; after the read with TXREQ clear it resets the abort bit (bit-modify of
0x0F, mask 0x10, value 0x00) exactly when an abort was issued; it then clears
the transmit flag and returns 0 when the final read has one of the bits 0x70
set and 1 otherwise. -/
theorem endPacket_abort_script (s : MCP2515Class) (its : List (Nat × Nat)) (last final : Nat)
    (hits : ∀ p ∈ its, p.1 &&& 0x08 ≠ 0) (hlast : last &&& 0x08 = 0)
    (hs : answers s.miso (requestToSend 0 (loadTxBuffer 0 s)).clock
      (txScript its last final) = true) :
    ∃ s', endPacket (its.length + 1) true s = some (if final &&& 0x70 ≠ 0 then 0 else 1, s')
      ∧ s'.log = (loadTxBuffer 0 s).log ++ txn [0x81] ++ pollEvents its
          ++ txn [0x03, 0x30, 0x00]
          ++ (if anyTxErr its then txn [0x05, 0x0F, 0x10, 0x00] else [])
          ++ txn [0x05, 0x2C, 0x04, 0x00] ++ txn [0x03, 0x30, 0x00]
      ∧ lastRead s' = final := by
  have hs' : answers (requestToSend 0 (loadTxBuffer 0 s)).miso
      (requestToSend 0 (loadTxBuffer 0 s)).clock
      (pollScript its ++ ([none, none, some last]
        ++ ((if anyTxErr its then [none, none, none, none] else [])
          ++ ([none, none, none, none] ++ [none, none, some final])))) = true := by
    rw [requestToSend_miso, loadTxBuffer_miso]
    simpa [txScript, List.append_assoc] using hs
  obtain ⟨hrun, hrest⟩ := pollTxReq_script last hlast _ its false _ hits hs'
  simp only [endPacket, Bool.not_true, Bool.false_eq_true, if_false, hrun, Bool.false_or]
  cases ha : anyTxErr its
  · rw [ha] at hrest
    simp only [Bool.false_eq_true, if_false, List.nil_append] at hrest
    obtain ⟨hv, -⟩ := answers_read _ _ _ [] (by simpa using answers_skip4 _ _ _ hrest)
    simp only [Bool.false_eq_true, if_false, modifyRegister_eq, readRegister_eq, hv]
    refine ⟨_, rfl, ?_, ?_⟩
    · simp [requestToSend_eq, BIT_MODIFY, REG_CANINTF, FLAG_TXnIF, READ, REG_TXBnCTRL]
    · simpa [lastRead] using hv
  · rw [ha] at hrest
    simp only [if_true] at hrest
    obtain ⟨hv, -⟩ := answers_read _ _ _ []
      (by simpa using answers_skip4 _ _ _ (answers_skip4 _ _ _ hrest))
    simp only [if_true, modifyRegister_eq, readRegister_eq, hv]
    refine ⟨_, rfl, ?_, ?_⟩
    · simp [requestToSend_eq, BIT_MODIFY, REG_CANINTF, REG_CANCTRL, FLAG_TXnIF, READ,
        REG_TXBnCTRL]
    · simpa [lastRead] using hv

/-- C11, at a chip that reports TXERR with TXREQ set in both reads of the first
iteration, then TXREQ clear, then ABTF and TXERR (0x50) in the final read: the
abort is issued and reset and the transmission is reported as failed. -/
theorem endPacket_abort_script_witness :
    ∃ s', endPacket ([((0x18 : Nat), (0x18 : Nat))].length + 1) true abortedAndFlagged
        = some (if (0x50 : Nat) &&& 0x70 ≠ 0 then 0 else 1, s')
      ∧ s'.log = (loadTxBuffer 0 abortedAndFlagged).log ++ txn [0x81]
          ++ pollEvents [(0x18, 0x18)] ++ txn [0x03, 0x30, 0x00]
          ++ (if anyTxErr [(0x18, 0x18)] then txn [0x05, 0x0F, 0x10, 0x00] else [])
          ++ txn [0x05, 0x2C, 0x04, 0x00] ++ txn [0x03, 0x30, 0x00]
      ∧ lastRead s' = 0x50 :=
  endPacket_abort_script abortedAndFlagged [(0x18, 0x18)] 0x00 0x50 (by decide) (by decide)
    (by decide)

/-- C11 as stated fails.  On a chip whose readbacks of TXB0CTRL are 0x18, 0x18
(TXERR reported while TXREQ is set), then 0x00 (TXREQ clear) and 0x00 in the
final read, `endPacket` issues the abort and resets it but returns 1; on a chip
whose readbacks are 0x18, 0x08, then 0x00 and 0x00, the error bit is reported
in a loop-condition read only, no abort is issued and `endPacket` returns 1. -/
theorem endPacket_abort_counterexample :
    answers abortedThenClean.miso 8 (txScript [(0x18, 0x18)] 0x00 0x00) = true
    ∧ (endPacket 2 true abortedThenClean).map (fun p => (p.1, transactions p.2.log))
        = some (1, [[0x40, 0x24, 0x60, 0x00, 0x00, 0x01, 0x07], [0x81],
            [0x03, 0x30, 0x00], [0x03, 0x30, 0x00], [0x05, 0x0F, 0x10, 0x10],
            [0x03, 0x30, 0x00], [0x05, 0x0F, 0x10, 0x00], [0x05, 0x2C, 0x04, 0x00],
            [0x03, 0x30, 0x00]])
    ∧ answers errorSeenByConditionOnly.miso 8 (txScript [(0x18, 0x08)] 0x00 0x00) = true
    ∧ (endPacket 2 true errorSeenByConditionOnly).map (fun p => (p.1, transactions p.2.log))
        = some (1, [[0x40, 0x24, 0x60, 0x00, 0x00, 0x01, 0x07], [0x81],
            [0x03, 0x30, 0x00], [0x03, 0x30, 0x00], [0x03, 0x30, 0x00],
            [0x05, 0x2C, 0x04, 0x00], [0x03, 0x30, 0x00]]) := by
  decide

/-! ## Interrupt dispatch -/

/-- C20 fails on the code: with a zero-length standard frame (id 0x123, DLC 0)
pending in buffer 0, `handleInterrupt` consumes the frame through `parsePacket`
(READ RX BUFFER and the clearing of the receive flag are on the bus, the frame
is decoded into the receive state) and returns without any invocation of the
callback; the same frame with DLC 1 gets one invocation. -/
theorem handleInterrupt_drops_empty_frame :
    (handleInterrupt 5 (onChip [0, 0, 0x01, 0, 0x40, 0, 0x24, 0x60, 0, 0, 0x00])).map
        (fun p => (p.1, p.2.rxId, p.2.rxDlc, transactions p.2.log))
      = some (0, 0x123, 0, [[0x03, 0x2C, 0x00], [0xB0, 0x00], [0x90, 0, 0, 0, 0, 0],
          [0x05, 0x2C, 0x01, 0x00]])
    ∧ (handleInterrupt 5 (onChip [0, 0, 0x01, 0, 0x40, 0, 0x24, 0x60, 0, 0, 0x01, 0x55])).map
        (fun p => (p.1, transactions p.2.log))
      = some (1, [[0x03, 0x2C, 0x00], [0xB0, 0x00], [0x90, 0, 0, 0, 0, 0, 0],
          [0x05, 0x2C, 0x01, 0x00], [0xB0, 0x00]]) := by
  decide

/-! ## The interrupt-flag register on the bus -/

theorem txns_append (a b : List (List Nat)) : txns (a ++ b) = txns a ++ txns b := by
  induction a with
  | nil => simp [txns]
  | cons t a ih => simp [txns, ih]

theorem transactionsFrom_transfers (bytes : List Nat) : ∀ (cur : List Nat) (rest : List Event),
    transactionsFrom cur (bytes.map Event.transfer ++ rest) = transactionsFrom (cur ++ bytes) rest := by
  induction bytes with
  | nil => intro cur rest; simp
  | cons b bytes ih => intro cur rest; simp [transactionsFrom, ih]

theorem transactionsFrom_txn (cur bytes : List Nat) (rest : List Event) :
    transactionsFrom cur (txn bytes ++ rest) = bytes :: transactionsFrom [] rest := by
  simp [txn, transactionsFrom, transactionsFrom_transfers]

/-- The transactions of a log made of complete transactions are those
transactions: the decomposition is unique. -/
theorem transactions_txns (ts : List (List Nat)) : transactions (txns ts) = ts := by
  induction ts with
  | nil => rfl
  | cons t ts ih =>
    rw [transactions] at ih ⊢
    rw [txns, transactionsFrom_txn, ih]

theorem respects_refl (l : List Event) : respectsIntf l l :=
  ⟨[], by simp [txns], by simp⟩

theorem respects_snoc {l l' : List Event} {t : List Nat} (h : respectsIntf l l')
    (ht : intfOk t = true) : respectsIntf l (l' ++ txn t) := by
  obtain ⟨ts, rfl, hts⟩ := h
  refine ⟨ts ++ [t], by simp [txns_append, txns], ?_⟩
  intro u hu
  rcases List.mem_append.mp hu with hu | hu
  · exact hts u hu
  · rw [List.mem_singleton.mp hu]; exact ht

theorem respects_trans {a b c : List Event} (h1 : respectsIntf a b) (h2 : respectsIntf b c) :
    respectsIntf a c := by
  obtain ⟨ts, rfl, hts⟩ := h1
  obtain ⟨us, rfl, hus⟩ := h2
  refine ⟨ts ++ us, by simp [txns_append], ?_⟩
  intro u hu
  rcases List.mem_append.mp hu with hu | hu
  · exact hts u hu
  · exact hus u hu

theorem intfOk_write (address value : Nat) (h : address ≠ 0x2C) :
    intfOk [0x02, address, value] = true := by
  simp [intfOk, h]

theorem intfOk_read (address value : Nat) : intfOk [0x03, address, value] = true := by
  simp [intfOk]

theorem respects_group {l l' : List Event} (base sidh sidl eid8 eid0 : Nat)
    (h : respectsIntf l l') (hb : base + 3 < 0x2C) :
    respectsIntf l (l' ++ groupWrites base sidh sidl eid8 eid0) := by
  simp only [groupWrites, ← List.append_assoc]
  exact respects_snoc (respects_snoc (respects_snoc (respects_snoc h
    (intfOk_write _ _ (by omega))) (intfOk_write _ _ (by omega)))
    (intfOk_write _ _ (by omega))) (intfOk_write _ _ (by omega))

theorem filter_respects (id mask : Nat) (s : MCP2515Class) :
    respectsIntf s.log (filter id mask s).2.log := by
  by_cases h : ctrlReadback s = 0x80
  · rw [filter_ok_eq id mask s h]
    simp only []
    refine respects_snoc ?_ (intfOk_read _ _)
    refine respects_snoc ?_ (intfOk_write _ _ (by norm_num))
    refine respects_group _ _ _ _ _ ?_ (by norm_num)
    refine respects_group _ _ _ _ _ ?_ (by norm_num)
    refine respects_group _ _ _ _ _ ?_ (by norm_num)
    refine respects_group _ _ _ _ _ ?_ (by norm_num)
    refine respects_group _ _ _ _ _ ?_ (by norm_num)
    refine respects_group _ _ _ _ _ ?_ (by norm_num)
    refine respects_group _ _ _ _ _ ?_ (by norm_num)
    refine respects_snoc ?_ (intfOk_write _ _ (by norm_num))
    refine respects_snoc ?_ (intfOk_write _ _ (by norm_num))
    refine respects_group _ _ _ _ _ ?_ (by norm_num)
    refine respects_snoc ?_ (intfOk_write _ _ (by norm_num))
    refine respects_snoc ?_ (intfOk_write _ _ (by norm_num))
    refine respects_snoc ?_ (intfOk_read _ _)
    refine respects_snoc ?_ (intfOk_write _ _ (by norm_num))
    exact respects_refl _
  · rw [filter_fail_eq id mask s h]
    simp only []
    refine respects_snoc ?_ (intfOk_read _ _)
    refine respects_snoc ?_ (intfOk_write _ _ (by norm_num))
    exact respects_refl _

theorem filterExtended_respects (id mask : Nat) (s : MCP2515Class) :
    respectsIntf s.log (filterExtended id mask s).2.log := by
  by_cases h : ctrlReadback s = 0x80
  · rw [filterExtended_ok_eq id mask s h]
    simp only []
    refine respects_snoc ?_ (intfOk_read _ _)
    refine respects_snoc ?_ (intfOk_write _ _ (by norm_num))
    refine respects_group _ _ _ _ _ ?_ (by norm_num)
    refine respects_group _ _ _ _ _ ?_ (by norm_num)
    refine respects_group _ _ _ _ _ ?_ (by norm_num)
    refine respects_group _ _ _ _ _ ?_ (by norm_num)
    refine respects_group _ _ _ _ _ ?_ (by norm_num)
    refine respects_group _ _ _ _ _ ?_ (by norm_num)
    refine respects_group _ _ _ _ _ ?_ (by norm_num)
    refine respects_snoc ?_ (intfOk_write _ _ (by norm_num))
    refine respects_snoc ?_ (intfOk_write _ _ (by norm_num))
    refine respects_group _ _ _ _ _ ?_ (by norm_num)
    refine respects_snoc ?_ (intfOk_write _ _ (by norm_num))
    refine respects_snoc ?_ (intfOk_write _ _ (by norm_num))
    refine respects_snoc ?_ (intfOk_read _ _)
    refine respects_snoc ?_ (intfOk_write _ _ (by norm_num))
    exact respects_refl _
  · rw [filterExtended_fail_eq id mask s h]
    simp only []
    refine respects_snoc ?_ (intfOk_read _ _)
    refine respects_snoc ?_ (intfOk_write _ _ (by norm_num))
    exact respects_refl _

theorem setFilterRegisters_respects (mask0 filter0 filter1 mask1 filter2 filter3 filter4
    filter5 : Nat) (allowRollover : Bool) (s : MCP2515Class) :
    respectsIntf s.log (setFilterRegisters mask0 filter0 filter1 mask1 filter2 filter3 filter4
      filter5 allowRollover s).2.log := by
  by_cases h : ctrlReadback s &&& 0xE0 = 0x80
  · rw [setFilterRegisters_ok_eq _ _ _ _ _ _ _ _ _ s h]
    simp only []
    refine respects_snoc ?_ (intfOk_read _ _)
    refine respects_snoc ?_ (intfOk_write _ _ (by norm_num))
    refine respects_group _ _ _ _ _ ?_ (by norm_num)
    refine respects_group _ _ _ _ _ ?_ (by norm_num)
    refine respects_group _ _ _ _ _ ?_ (by norm_num)
    refine respects_group _ _ _ _ _ ?_ (by norm_num)
    refine respects_group _ _ _ _ _ ?_ (by norm_num)
    refine respects_group _ _ _ _ _ ?_ (by norm_num)
    refine respects_group _ _ _ _ _ ?_ (by norm_num)
    refine respects_group _ _ _ _ _ ?_ (by norm_num)
    refine respects_snoc ?_ (intfOk_write _ _ (by norm_num))
    refine respects_snoc ?_ (intfOk_write _ _ (by norm_num))
    refine respects_snoc ?_ (intfOk_read _ _)
    refine respects_snoc ?_ (intfOk_write _ _ (by norm_num))
    exact respects_refl _
  · rw [setFilterRegisters_fail_eq _ _ _ _ _ _ _ _ _ s h]
    simp only []
    refine respects_snoc ?_ (intfOk_read _ _)
    refine respects_snoc ?_ (intfOk_write _ _ (by norm_num))
    exact respects_refl _

theorem modeRequest_respects (l : List Event) (value : Nat) :
    respectsIntf l (l ++ txn [0x02, 0x0F, value] ++ txn [0x03, 0x0F, 0x00]) := by
  refine respects_snoc ?_ (intfOk_read _ _)
  refine respects_snoc ?_ (intfOk_write _ _ (by norm_num))
  exact respects_refl _

theorem begin_respects (clockFrequency baudRate : Int) (stay : Bool) (s : MCP2515Class) :
    respectsIntf s.log (begin clockFrequency baudRate stay s).2.log := by
  have hreset : respectsIntf s.log (s.log ++ txn [0xc0]) :=
    respects_snoc (respects_refl _) (by simp [intfOk])
  have hcfg : respectsIntf s.log
      (s.log ++ txn [0xc0] ++ txn [0x02, 0x0F, 0x80] ++ txn [0x03, 0x0F, 0x00]) :=
    respects_trans hreset (modeRequest_respects _ _)
  by_cases h : ctrlReadback (reset s) &&& 0xE0 = 0x80
  · cases hf : findCnf clockFrequency baudRate with
    | none =>
      rw [begin_no_timing clockFrequency baudRate stay s h hf]
      exact hcfg
    | some cnf =>
      obtain ⟨cnf0, cnf1, cnf2⟩ := cnf
      have hrow : ∃ row ∈ CNF_MAPPER, row.2.2 = (cnf0, cnf1, cnf2) := by
        unfold findCnf at hf
        obtain ⟨row, hrow, hval⟩ := Option.map_eq_some'.mp hf
        exact ⟨row, List.mem_of_find?_eq_some hrow, hval⟩
      obtain ⟨row, hmem, hval⟩ := hrow
      obtain ⟨b0, b1, b2⟩ := CNF_MAPPER_bytes row hmem
      rw [hval] at b0 b1 b2
      rw [begin_log_of_row clockFrequency baudRate stay s cnf0 cnf1 cnf2 b0 b1 b2 h hf]
      cases stay
      · simp only [Bool.false_eq_true, if_false, ← List.append_assoc]
        refine respects_snoc ?_ (intfOk_read _ _)
        refine respects_snoc ?_ (intfOk_write _ _ (by norm_num))
        refine respects_snoc ?_ (intfOk_write _ _ (by norm_num))
        refine respects_snoc ?_ (intfOk_write _ _ (by norm_num))
        refine respects_snoc ?_ (intfOk_write _ _ (by norm_num))
        refine respects_snoc ?_ (intfOk_write _ _ (by norm_num))
        refine respects_snoc ?_ (intfOk_write _ _ (by norm_num))
        refine respects_snoc ?_ (intfOk_write _ _ (by norm_num))
        refine respects_snoc ?_ (intfOk_write _ _ (by norm_num))
        refine respects_snoc ?_ (intfOk_write _ _ (by norm_num))
        exact hcfg
      · simp only [if_true, List.append_nil]
        refine respects_snoc ?_ (intfOk_write _ _ (by norm_num))
        refine respects_snoc ?_ (intfOk_write _ _ (by norm_num))
        refine respects_snoc ?_ (intfOk_write _ _ (by norm_num))
        refine respects_snoc ?_ (intfOk_write _ _ (by norm_num))
        refine respects_snoc ?_ (intfOk_write _ _ (by norm_num))
        refine respects_snoc ?_ (intfOk_write _ _ (by norm_num))
        refine respects_snoc ?_ (intfOk_write _ _ (by norm_num))
        refine respects_snoc ?_ (intfOk_write _ _ (by norm_num))
        exact hcfg
  · rw [begin_config_failed clockFrequency baudRate stay s h]
    exact hcfg

/-- The bounded poll is the observed poll with the unfinished runs dropped. -/
theorem pollTxReq_eq_upTo (n : Nat) : ∀ (fuel : Nat) (aborted : Bool) (s : MCP2515Class),
    pollTxReq n fuel aborted s
      = match pollTxReqUpTo n fuel aborted s with
        | (some b, s') => some (b, s')
        | (none, _) => none := by
  intro fuel
  induction fuel with
  | zero => intro aborted s; rfl
  | succ fuel ih =>
    intro aborted s
    rw [pollTxReq, pollTxReqUpTo]
    simp only []
    split
    · split
      · exact ih _ _
      · exact ih _ _
    · rfl

theorem pollTxReqUpTo_respects : ∀ (fuel : Nat) (aborted : Bool) (s : MCP2515Class),
    respectsIntf s.log (pollTxReqUpTo 0 fuel aborted s).2.log := by
  intro fuel
  induction fuel with
  | zero => intro aborted s; exact respects_refl _
  | succ fuel ih =>
    intro aborted s
    rw [pollTxReqUpTo]
    simp only [readRegister_eq, modifyRegister_eq]
    have h1 : respectsIntf s.log (s.log ++ txn [READ, REG_TXBnCTRL 0 % 256, 0]) :=
      respects_snoc (respects_refl _) (by simp [intfOk, READ])
    have h2 : respectsIntf s.log (s.log ++ txn [READ, REG_TXBnCTRL 0 % 256, 0]
        ++ txn [READ, REG_TXBnCTRL 0 % 256, 0]) :=
      respects_snoc h1 (by simp [intfOk, READ])
    have h3 : respectsIntf s.log (s.log ++ txn [READ, REG_TXBnCTRL 0 % 256, 0]
        ++ txn [READ, REG_TXBnCTRL 0 % 256, 0]
        ++ txn [BIT_MODIFY, REG_CANCTRL % 256, 0x10 % 256, 0x10 % 256]) :=
      respects_snoc h2 (by simp [intfOk, BIT_MODIFY, REG_CANCTRL])
    split
    · split
      · exact respects_trans h3 (ih _ _)
      · exact respects_trans h2 (ih _ _)
    · exact h1

theorem endPacketUpTo_respects (fuel : Nat) (baseOk : Bool) (s : MCP2515Class) :
    respectsIntf s.log (endPacketUpTo fuel baseOk s).log := by
  cases baseOk
  · simp only [endPacketUpTo, Bool.not_false, if_true]
    exact respects_refl _
  · simp only [endPacketUpTo, Bool.not_true, Bool.false_eq_true, if_false]
    have hload : respectsIntf s.log (requestToSend 0 (loadTxBuffer 0 s)).log := by
      rw [requestToSend_eq, loadTxBuffer_log]
      exact respects_snoc (respects_snoc (respects_refl _) (by simp [intfOk]))
        (by simp [intfOk])
    have hpoll := respects_trans hload
      (pollTxReqUpTo_respects fuel false (requestToSend 0 (loadTxBuffer 0 s)))
    cases hp : pollTxReqUpTo 0 fuel false (requestToSend 0 (loadTxBuffer 0 s)) with
    | mk a s1 =>
      rw [hp] at hpoll
      cases a with
      | none => exact hpoll
      | some a =>
        cases a
        · simp only [readRegister_eq, modifyRegister_eq, Bool.false_eq_true, if_false]
          exact respects_snoc (respects_snoc hpoll
            (by simp [intfOk, BIT_MODIFY, REG_CANINTF, FLAG_TXnIF])) (by simp [intfOk, READ])
        · simp only [readRegister_eq, modifyRegister_eq, if_true]
          exact respects_snoc (respects_snoc (respects_snoc hpoll
            (by simp [intfOk, BIT_MODIFY, REG_CANCTRL]))
            (by simp [intfOk, BIT_MODIFY, REG_CANINTF, FLAG_TXnIF])) (by simp [intfOk, READ])

/-- The state a terminating `endPacket` returns is the state observed at the
same bound. -/
theorem endPacket_eq_upTo (fuel : Nat) (baseOk : Bool) (s : MCP2515Class) (r : Nat)
    (s' : MCP2515Class) (h : endPacket fuel baseOk s = some (r, s')) :
    endPacketUpTo fuel baseOk s = s' := by
  cases baseOk
  · simp only [endPacket, Bool.not_false, if_true, Option.some.injEq, Prod.mk.injEq] at h
    simp only [endPacketUpTo, Bool.not_false, if_true]
    exact h.2
  · simp only [endPacket, Bool.not_true, Bool.false_eq_true, if_false, pollTxReq_eq_upTo] at h
    simp only [endPacketUpTo, Bool.not_true, Bool.false_eq_true, if_false]
    cases hp : pollTxReqUpTo 0 fuel false (requestToSend 0 (loadTxBuffer 0 s)) with
    | mk a s1 =>
      rw [hp] at h
      cases a with
      | none => simp at h
      | some a =>
        simp only [Option.some.injEq, Prod.mk.injEq] at h
        exact h.2

/-- The log the model computes for one call of `parsePacket`; it is the log of
the source when the payload loop stores at most 8 bytes. -/
theorem parsePacket_respects (s : MCP2515Class) : respectsIntf s.log (parsePacket s).2.log := by
  by_cases h0 : statusByte s &&& 0x40 ≠ 0
  · rw [parsePacket_log s (Or.inl h0), if_pos h0, if_pos h0]
    exact respects_snoc (respects_snoc (respects_snoc (respects_refl _)
      (by simp [intfOk, RX_STATUS])) (by simp [intfOk]))
      (by simp [intfOk, BIT_MODIFY, REG_CANINTF])
  · by_cases h1 : statusByte s &&& 0x80 ≠ 0
    · rw [parsePacket_log s (Or.inr h1), if_neg h0, if_neg h0]
      exact respects_snoc (respects_snoc (respects_snoc (respects_refl _)
        (by simp [intfOk, RX_STATUS])) (by simp [intfOk]))
        (by simp [intfOk, BIT_MODIFY, REG_CANINTF])
    · rw [parsePacket_idle s (by simpa using h0) (by simpa using h1)]
      exact respects_snoc (respects_refl _) (by simp [intfOk, RX_STATUS])

theorem dispatchLoopUpTo_respects : ∀ (fuel : Nat) (s : MCP2515Class),
    respectsIntf s.log (dispatchLoopUpTo fuel s).2.log := by
  intro fuel
  induction fuel with
  | zero => intro s; exact respects_refl _
  | succ fuel ih =>
    intro s
    rw [dispatchLoopUpTo]
    by_cases hb : 8 < (parsePacket s).2.rxLength
    · simp only [hb, if_true]
      exact respects_refl _
    · simp only [hb, if_false]
      by_cases hsize : (parsePacket s).1 ≠ 0
      · simp only [hsize, ne_eq, not_false_eq_true, if_true]
        exact respects_trans (parsePacket_respects s) (ih _)
      · simp only [hsize, if_false]
        exact parsePacket_respects s

theorem handleInterruptUpTo_respects (fuel : Nat) (s : MCP2515Class) :
    respectsIntf s.log (handleInterruptUpTo fuel s).2.log := by
  rw [handleInterruptUpTo, readRegister_eq]
  have hread : respectsIntf s.log (s.log ++ txn [READ, REG_CANINTF % 256, 0]) :=
    respects_snoc (respects_refl _) (by simp [intfOk, READ])
  by_cases hflags : s.miso (s.clock + 2) % 256 = 0
  · simp only [hflags, if_true]
    exact hread
  · simp only [hflags, if_false]
    exact respects_trans hread (dispatchLoopUpTo_respects _ _)

theorem dispatchLoop_eq_upTo : ∀ (fuel calls : Nat) (s : MCP2515Class) (n : Nat)
    (s' : MCP2515Class), dispatchLoop fuel calls s = some (n, s') →
    (dispatchLoopUpTo fuel s).1 = true → (dispatchLoopUpTo fuel s).2 = s' := by
  intro fuel
  induction fuel with
  | zero => intro calls s n s' h; simp [dispatchLoop] at h
  | succ fuel ih =>
    intro calls s n s' h
    rw [dispatchLoop] at h
    rw [dispatchLoopUpTo]
    by_cases hb : 8 < (parsePacket s).2.rxLength
    · simp [hb]
    · simp only [hb, if_false]
      by_cases hsize : (parsePacket s).1 ≠ 0
      · simp only [hsize, ne_eq, not_false_eq_true, if_true] at h ⊢
        exact ih _ _ _ _ h
      · simp only [hsize, if_false, Option.some.injEq, Prod.mk.injEq] at h ⊢
        exact fun _ => h.2

theorem handleInterrupt_eq_upTo (fuel : Nat) (s : MCP2515Class) (n : Nat)
    (s' : MCP2515Class) (h : handleInterrupt fuel s = some (n, s'))
    (hb : (handleInterruptUpTo fuel s).1 = true) : (handleInterruptUpTo fuel s).2 = s' := by
  rw [handleInterrupt, readRegister_eq] at h
  rw [handleInterruptUpTo, readRegister_eq] at hb ⊢
  by_cases hflags : s.miso (s.clock + 2) % 256 = 0
  · simp only [hflags, if_true, Option.some.injEq, Prod.mk.injEq] at h ⊢
    exact h.2
  · simp only [hflags, if_false] at h hb ⊢
    exact dispatchLoop_eq_upTo _ _ _ _ _ h hb

/-- A log that respects the interrupt-flag register passes the executable
check: every transaction parsed from the added events is in order. -/
theorem respects_all (old new : List Event) (h : respectsIntf old new) :
    (transactions (new.drop old.length)).all intfOk = true := by
  obtain ⟨ts, rfl, hts⟩ := h
  rw [List.drop_left, transactions_txns, List.all_eq_true]
  exact hts

/-- C18: in the bus log of every driver operation the events added are
complete transactions none of which is a WRITE (0x02) addressed to the
interrupt-flag register 0x2C, and every BIT MODIFY (0x05) addressed to 0x2C
has mask 0x01, 0x02 or 0x04 and value 0x00.  This holds for all inputs of
`begin`, the three filter operations and the six mode setters; for `endPacket`
after any number of iterations of its completion poll, whether the poll ends
or not, the log of a terminating run being one of these; for `parsePacket`
whenever its payload loop stores at most 8 bytes; and for `handleInterrupt`
after any number of calls of `parsePacket`, whether the loop ends or not, up
to the first call whose payload loop would store past the end of `_rxData`
(from there on the behaviour of the source is not defined), the log of a
terminating run without such a call being one of these.  The decomposition of
a log into transactions is unique, so the transactions parsed from the added
events all pass the check. -/
theorem canintf_only_bit_modify :
    (∀ (clockFrequency baudRate : Int) (stay : Bool) (s : MCP2515Class),
      respectsIntf s.log (begin clockFrequency baudRate stay s).2.log)
    ∧ (∀ (fuel : Nat) (baseOk : Bool) (s : MCP2515Class),
      respectsIntf s.log (endPacketUpTo fuel baseOk s).log)
    ∧ (∀ (fuel : Nat) (baseOk : Bool) (s : MCP2515Class) (r : Nat) (s' : MCP2515Class),
      endPacket fuel baseOk s = some (r, s') → endPacketUpTo fuel baseOk s = s')
    ∧ (∀ s : MCP2515Class, (parsePacket s).2.rxLength ≤ 8 →
      respectsIntf s.log (parsePacket s).2.log)
    ∧ (∀ (id mask : Nat) (s : MCP2515Class), respectsIntf s.log (filter id mask s).2.log)
    ∧ (∀ (id mask : Nat) (s : MCP2515Class),
      respectsIntf s.log (filterExtended id mask s).2.log)
    ∧ (∀ (mask0 filter0 filter1 mask1 filter2 filter3 filter4 filter5 : Nat)
        (allowRollover : Bool) (s : MCP2515Class),
      respectsIntf s.log (setFilterRegisters mask0 filter0 filter1 mask1 filter2 filter3
        filter4 filter5 allowRollover s).2.log)
    ∧ (∀ s : MCP2515Class,
      respectsIntf s.log (switchToConfigurationMode s).2.log
      ∧ respectsIntf s.log (switchToNormalMode s).2.log
      ∧ respectsIntf s.log (observe s).2.log
      ∧ respectsIntf s.log (loopback s).2.log
      ∧ respectsIntf s.log (sleep s).2.log
      ∧ respectsIntf s.log (wakeup s).2.log)
    ∧ (∀ (fuel : Nat) (s : MCP2515Class),
      respectsIntf s.log (handleInterruptUpTo fuel s).2.log)
    ∧ (∀ (fuel : Nat) (s : MCP2515Class) (n : Nat) (s' : MCP2515Class),
      handleInterrupt fuel s = some (n, s') → (handleInterruptUpTo fuel s).1 = true →
      (handleInterruptUpTo fuel s).2 = s')
    ∧ (∀ ts : List (List Nat), transactions (txns ts) = ts)
    ∧ (∀ old new : List Event, respectsIntf old new →
      (transactions (new.drop old.length)).all intfOk = true) := by
  refine ⟨begin_respects, endPacketUpTo_respects, endPacket_eq_upTo,
    fun s _ => parsePacket_respects s, filter_respects,
    filterExtended_respects, setFilterRegisters_respects, ?_, handleInterruptUpTo_respects,
    handleInterrupt_eq_upTo, transactions_txns, respects_all⟩
  intro s
  rw [switchToConfigurationMode_eq, switchToNormalMode_eq, observe_eq, loopback_eq, sleep_eq,
    wakeup_eq]
  exact ⟨modeRequest_respects _ _, modeRequest_respects _ _, modeRequest_respects _ _,
    modeRequest_respects _ _, modeRequest_respects _ _, modeRequest_respects _ _⟩

/-- C18, at the terminating transmission of `lostArbitration`, at a pending
data frame of two bytes and at an interrupt with one pending frame, whose run
ends within the bound and stays inside the receive buffer. -/
theorem canintf_only_bit_modify_witness :
    endPacket 1 true lostArbitration = some (0, lostArbitrationDone)
    ∧ endPacketUpTo 1 true lostArbitration = lostArbitrationDone
    ∧ (transactions (lostArbitrationDone.log.drop lostArbitration.log.length)).all intfOk = true
    ∧ (parsePacket (receiving 0x40 [0x24, 0x60, 0, 0, 0x02, 0x11, 0x22])).2.rxLength ≤ 8
    ∧ respectsIntf (receiving 0x40 [0x24, 0x60, 0, 0, 0x02, 0x11, 0x22]).log
        (parsePacket (receiving 0x40 [0x24, 0x60, 0, 0, 0x02, 0x11, 0x22])).2.log
    ∧ (handleInterrupt 5 (onChip [0, 0, 0x01, 0, 0x40, 0, 0x24, 0x60, 0, 0, 0x01, 0x55])).map
        (fun p => transactions p.2.log)
      = some [[0x03, 0x2C, 0x00], [0xB0, 0x00], [0x90, 0, 0, 0, 0, 0, 0],
          [0x05, 0x2C, 0x01, 0x00], [0xB0, 0x00]]
    ∧ (handleInterruptUpTo 5
        (onChip [0, 0, 0x01, 0, 0x40, 0, 0x24, 0x60, 0, 0, 0x01, 0x55])).1 = true
    ∧ transactions (handleInterruptUpTo 5
        (onChip [0, 0, 0x01, 0, 0x40, 0, 0x24, 0x60, 0, 0, 0x01, 0x55])).2.log
      = [[0x03, 0x2C, 0x00], [0xB0, 0x00], [0x90, 0, 0, 0, 0, 0, 0],
          [0x05, 0x2C, 0x01, 0x00], [0xB0, 0x00]] :=
  ⟨rfl, canintf_only_bit_modify.2.2.1 1 true lostArbitration 0 lostArbitrationDone rfl,
   by decide, by decide,
   canintf_only_bit_modify.2.2.2.1 (receiving 0x40 [0x24, 0x60, 0, 0, 0x02, 0x11, 0x22])
     (by decide),
   by decide, by decide, by decide⟩

/-! ## Register address map -/

/-- C21: for every filter index n in 0..5 the addresses the driver computes
for filter group n are base, base + 1, base + 2, base + 3 with
base = 4 * (n + (n >= 3)), that is 0x00, 0x04, 0x08, 0x10, 0x14, 0x18, and for
n in 0..1 the mask group addresses are 0x20 + 4 * n + k, k = 0..3; the 24
filter and 8 mask register addresses are pairwise distinct and none of them is
one of the control registers 0x0C, 0x0D, 0x0F, 0x28, 0x29, 0x2A, 0x2B, 0x2C,
0x60, 0x70. -/
theorem register_map_with_filter_gap :
    (∀ n, n < 6 → filterGroup n
        = [filterBase n, filterBase n + 1, filterBase n + 2, filterBase n + 3])
    ∧ (List.range 6).map filterBase = [0x00, 0x04, 0x08, 0x10, 0x14, 0x18]
    ∧ (List.range 6).map REG_RXFnSIDH = [0x00, 0x04, 0x08, 0x10, 0x14, 0x18]
    ∧ (∀ n, n < 2 → maskGroup n = [maskBase n, maskBase n + 1, maskBase n + 2, maskBase n + 3])
    ∧ (List.range 2).map REG_RXMnSIDH = [0x20, 0x24]
    ∧ filterAndMaskAddresses.length = 32
    ∧ filterAndMaskAddresses.Nodup
    ∧ controlAddresses = [0x0C, 0x0D, 0x0F, 0x28, 0x29, 0x2A, 0x2B, 0x2C, 0x60, 0x70]
    ∧ (∀ a ∈ filterAndMaskAddresses, a ∉ controlAddresses) := by
  decide

/-- C21, at the filter index 3, the first group after the gap. -/
theorem register_map_with_filter_gap_witness :
    (3 : Nat) < 6 ∧ filterGroup 3 = [0x10, 0x11, 0x12, 0x13] :=
  ⟨by decide, register_map_with_filter_gap.1 3 (by decide)⟩

/-! ## Range of a decoded id -/

/-- The 11-bit part of a decoded id is below 2^11 and the 18-bit part below
2^18. -/
theorem id_parts_lt (sidh sidl eid8 eid0 : Nat) (hh : sidh < 256) (hl : sidl < 256)
    (h8 : eid8 < 256) (h0 : eid0 < 256) :
    (sidh <<< 3) ||| (sidl >>> 5) < 2 ^ 11
    ∧ ((sidl &&& 0x03) <<< 16) ||| (eid8 <<< 8) ||| eid0 < 2 ^ 18 := by
  rw [idA_eq sidh sidl hl, idB_eq sidl eid8 eid0 h8 h0]
  constructor <;> omega

/-- C22: for every five header bytes read by `parsePacket` for a pending frame
whose payload fits the receive buffer (a remote request, or DLC & 0x0F at most
8), the decoded id is non-negative and below 2^11 when the frame decodes as
standard, and non-negative and below 2^29 when it decodes as extended, where
it is the 11-bit part times 2^18 plus the 18-bit part (the two fields do not
overlap); so the id of a received frame is never the sentinel -1; and the
payload loop stores at most 8 bytes.  A data frame with DLC & 0x0F in 9..15 is
left out: there the payload loop of the source stores past the end of
`_rxData` and the state after the call is not defined. -/
theorem parsePacket_id_in_range (s : MCP2515Class)
    (h : statusByte s &&& 0x40 ≠ 0 ∨ statusByte s &&& 0x80 ≠ 0)
    (hfit : (parsePacket s).2.rxRtr = true ∨ rxWire s 4 &&& 0x0F ≤ 8) :
    ((parsePacket s).2.rxExtended = false →
        0 ≤ (parsePacket s).2.rxId ∧ (parsePacket s).2.rxId < 2 ^ 11)
    ∧ ((parsePacket s).2.rxExtended = true →
        0 ≤ (parsePacket s).2.rxId ∧ (parsePacket s).2.rxId < 2 ^ 29
        ∧ (rxWire s 0 <<< 3) ||| (rxWire s 1 >>> 5) < 2 ^ 11
        ∧ ((rxWire s 1 &&& 0x03) <<< 16) ||| (rxWire s 2 <<< 8) ||| rxWire s 3 < 2 ^ 18
        ∧ (parsePacket s).2.rxId
            = ((((rxWire s 0 <<< 3) ||| (rxWire s 1 >>> 5)) * 2 ^ 18
                + (((rxWire s 1 &&& 0x03) <<< 16) ||| (rxWire s 2 <<< 8) ||| rxWire s 3)
                  : Nat) : Int))
    ∧ (parsePacket s).2.rxId ≠ -1
    ∧ (parsePacket s).2.rxLength ≤ 8 := by
  have b0 : rxWire s 0 < 256 := Nat.mod_lt _ (by norm_num)
  have b1 : rxWire s 1 < 256 := Nat.mod_lt _ (by norm_num)
  have b2 : rxWire s 2 < 256 := Nat.mod_lt _ (by norm_num)
  have b3 : rxWire s 3 < 256 := Nat.mod_lt _ (by norm_num)
  obtain ⟨hA, hB⟩ := id_parts_lt _ _ _ _ b0 b1 b2 b3
  have hAB := idAB_eq (rxWire s 0) (rxWire s 1) (rxWire s 2) (rxWire s 3) b1 b2 b3
  rw [← idA_eq _ _ b1, ← idB_eq _ _ _ b2 b3] at hAB
  have hstd : (parsePacket s).2.rxExtended = false →
      0 ≤ (parsePacket s).2.rxId ∧ (parsePacket s).2.rxId < 2 ^ 11 := by
    intro he
    rw [parsePacket_rxExtended s h] at he
    have he' : ¬ rxWire s 1 &&& 0x08 ≠ 0 := by simpa using he
    rw [parsePacket_rxId s h, decodedId_standard _ _ _ _ b0 b1 he']
    exact ⟨Int.ofNat_nonneg _, by exact_mod_cast hA⟩
  have hext : (parsePacket s).2.rxExtended = true →
      0 ≤ (parsePacket s).2.rxId ∧ (parsePacket s).2.rxId < 2 ^ 29
      ∧ (rxWire s 0 <<< 3) ||| (rxWire s 1 >>> 5) < 2 ^ 11
      ∧ ((rxWire s 1 &&& 0x03) <<< 16) ||| (rxWire s 2 <<< 8) ||| rxWire s 3 < 2 ^ 18
      ∧ (parsePacket s).2.rxId
          = ((((rxWire s 0 <<< 3) ||| (rxWire s 1 >>> 5)) * 2 ^ 18
              + (((rxWire s 1 &&& 0x03) <<< 16) ||| (rxWire s 2 <<< 8) ||| rxWire s 3)
                : Nat) : Int) := by
    intro he
    rw [parsePacket_rxExtended s h] at he
    have he' : rxWire s 1 &&& 0x08 ≠ 0 := by simpa using he
    rw [parsePacket_rxId s h, decodedId_extended _ _ _ _ b0 b1 b2 b3 he', hAB]
    refine ⟨Int.ofNat_nonneg _, ?_, hA, hB, ?_⟩
    · have hlt : ((rxWire s 0 <<< 3) ||| (rxWire s 1 >>> 5)) * 262144
          + (((rxWire s 1 &&& 0x03) <<< 16) ||| (rxWire s 2 <<< 8) ||| rxWire s 3) < 2 ^ 29 := by
        omega
      exact_mod_cast hlt
    · norm_num
  refine ⟨hstd, hext, ?_, (parsePacket_in_bounds s h hfit).1⟩
  cases he : (parsePacket s).2.rxExtended
  · have := (hstd he).1
    omega
  · have := (hext he).1
    omega

/-- C22, at the largest extended header and the largest standard header. -/
theorem parsePacket_id_in_range_witness :
    (statusByte (receiving 0x40 [0xFF, 0xEB, 0xFF, 0xFF, 0x00]) &&& 0x40 ≠ 0
      ∨ statusByte (receiving 0x40 [0xFF, 0xEB, 0xFF, 0xFF, 0x00]) &&& 0x80 ≠ 0)
    ∧ ((parsePacket (receiving 0x40 [0xFF, 0xEB, 0xFF, 0xFF, 0x00])).2.rxRtr = true
      ∨ rxWire (receiving 0x40 [0xFF, 0xEB, 0xFF, 0xFF, 0x00]) 4 &&& 0x0F ≤ 8)
    ∧ (parsePacket (receiving 0x40 [0xFF, 0xEB, 0xFF, 0xFF, 0x00])).2.rxId = 0x1FFFFFFF
    ∧ (parsePacket (receiving 0x80 [0xFF, 0xE0, 0x00, 0x00, 0x00])).2.rxId = 0x7FF
    ∧ (parsePacket (receiving 0x40 [0xFF, 0xEB, 0xFF, 0xFF, 0x00])).2.rxId ≠ -1
    ∧ (parsePacket (receiving 0x80 [0xFF, 0xE0, 0x00, 0x00, 0x00])).2.rxId < 2 ^ 11 :=
  ⟨by decide, by decide, by decide, by decide,
   (parsePacket_id_in_range (receiving 0x40 [0xFF, 0xEB, 0xFF, 0xFF, 0x00]) (by decide)
      (by decide)).2.2.1,
   ((parsePacket_id_in_range (receiving 0x80 [0xFF, 0xE0, 0x00, 0x00, 0x00])
      (by decide) (by decide)).1 (by decide)).2⟩

end MCP2515Class
